import Mathlib

/-!
# TSDZ2 motor controller: `ebike_app.c`

A shallow embedding of `src/controller/ebike_app.c`.  Every C global the file
touches is a field of `State`; every function is a state transformer with the
name it has in the source.  Unsigned machine integers are natural numbers that
are reduced modulo `2^w` when they are stored.

The headers `main.h`, `common.h`, `motor.h`, ... and the helpers of `common.c`
are not part of the sources at hand.  Their constants and helper functions are
the fields of `Env`, so every statement below holds for whatever values they
have.
-/

namespace TSDZ2

set_option maxRecDepth 100000

/-! ## Machine integers -/

/-- Store into a `uint8_t`. -/
def u8 (n : Nat) : Nat := n % 256

/-- Store into a `uint16_t`. -/
def u16 (n : Nat) : Nat := n % 65536

/-- Store into a `uint32_t`. -/
def u32 (n : Nat) : Nat := n % 4294967296

/-- Conversion of a signed `int` result to `uint32_t`. -/
def u32_of_int (x : Int) : Nat := (x % 4294967296).toNat

/-- Store into an `int16_t` (two's complement wrap). -/
def i16 (x : Int) : Int := (x + 32768) % 65536 - 32768

/-! ## Constants and helpers that live outside `ebike_app.c` -/

/-- Constants of `main.h` and helper functions of `common.c`, `motor.c`; none of
them is defined in `ebike_app.c`.  The last four fields stand for results the
C sources leave to the target: a division whose divisor is zero and the three
floating-point expressions of the file. -/
structure Env where
  OFF_MODE : Nat
  POWER_ASSIST_MODE : Nat
  TORQUE_ASSIST_MODE : Nat
  CADENCE_ASSIST_MODE : Nat
  eMTB_ASSIST_MODE : Nat
  WALK_ASSIST_MODE : Nat
  CRUISE_MODE : Nat
  CADENCE_SENSOR_CALIBRATION_MODE : Nat
  NO_ERROR : Nat
  ERROR_MOTOR_BLOCKED : Nat
  ERROR_TORQUE_SENSOR : Nat
  THROTTLE_CONTROL : Nat
  TEMPERATURE_CONTROL : Nat
  PWM_DUTY_CYCLE_MAX : Nat
  PWM_DUTY_CYCLE_RAMP_UP_INVERSE_STEP_DEFAULT : Nat
  PWM_DUTY_CYCLE_RAMP_UP_INVERSE_STEP_MIN : Nat
  PWM_DUTY_CYCLE_RAMP_DOWN_INVERSE_STEP_DEFAULT : Nat
  PWM_DUTY_CYCLE_RAMP_DOWN_INVERSE_STEP_MIN : Nat
  ADC_10_BIT_BATTERY_CURRENT_MAX : Nat
  BATTERY_CURRENT_PER_10_BIT_ADC_STEP_X10 : Nat
  BATTERY_VOLTAGE_PER_10_BIT_ADC_STEP_X1000 : Nat
  BATTERY_VOLTAGE_PER_8_BIT_ADC_STEP_X256 : Nat
  WALK_ASSIST_THRESHOLD_SPEED_X10 : Nat
  CRUISE_THRESHOLD_SPEED_X10 : Nat
  ADC_THROTTLE_MIN_VALUE : Nat
  ADC_THROTTLE_MAX_VALUE : Nat
  CADENCE_SENSOR_TICKS_COUNTER_MIN : Nat
  /-- The interpolation helper `map (x, in_min, in_max, out_min, out_max)`. -/
  map : Nat → Nat → Nat → Nat → Nat → Nat
  /-- One step of `crc16 (data, &crc)`: the new value of `crc`. -/
  crc16 : Nat → Nat → Nat
  /-- The helper `ui16_filter (&new, &old, alpha)`: the new value of `old`. -/
  ui16_filter : Nat → Nat → Nat → Nat
  /-- The helper `ui8_min (a, b)`. -/
  ui8_min : Nat → Nat → Nat
  /-- What a division of the given dividend by zero leaves in its result. -/
  div_by_zero : Nat → Nat
  /-- The float expression of `calc_wheel_speed`, from the wheel speed sensor
  ticks and the wheel perimeter. -/
  f_wheel_speed_x10 : Nat → Nat → Nat
  /-- The float expression `filtered / 1.024` of `apply_temperature_limiting`. -/
  f_motor_temperature_x2 : Nat → Nat
  /-- The float expression `KP * error + KI * integral + KD * derivative` of
  `apply_cruise`. -/
  f_cruise_control_output : Int → Int → Int → Int

/-- C division: the quotient, or the target's leftover when the divisor is 0. -/
def cdiv (env : Env) (a b : Nat) : Nat :=
  if b = 0 then env.div_by_zero a else a / b

/-- Values read from the hardware and the collaborators during one tick. -/
structure Inputs where
  /-- Result of `ui16_motor_get_motor_speed_erps ()`. -/
  motor_speed_erps : Nat
  /-- Result of `brake_is_set ()`. -/
  brake_is_set : Nat
  UI8_ADC_THROTTLE : Nat
  UI16_ADC_10_BIT_THROTTLE : Nat
  UI16_ADC_10_BIT_TORQUE_SENSOR : Nat

/-! ## Data model -/

/-- The fields of `struct_configuration_variables` used by `ebike_app.c`. -/
structure Config where
  ui8_lights : Nat
  ui16_battery_low_voltage_cut_off_x10 : Nat
  ui8_wheel_speed_max : Nat
  ui16_wheel_perimeter : Nat
  ui8_optional_ADC_function : Nat
  ui8_motor_type : Nat
  ui8_motor_temperature_min_value_to_limit : Nat
  ui8_motor_temperature_max_value_to_limit : Nat
  ui8_startup_motor_power_boost_assist_level : Nat
  ui8_startup_motor_power_boost_state : Nat
  ui8_startup_motor_power_boost_limit_to_max_power : Nat
  ui8_startup_motor_power_boost_time : Nat
  ui8_startup_motor_power_boost_fade_time : Nat
  ui8_startup_motor_power_boost_feature_enabled : Nat
  ui8_pedal_torque_per_10_bit_ADC_step_x100 : Nat
  ui8_battery_max_current : Nat
  ui8_target_battery_max_power_div25 : Nat
  ui16_motor_temperature_x2 : Nat
  ui8_motor_temperature : Nat
  ui8_temperature_current_limiting_value : Nat
deriving DecidableEq

/-- All globals and function-static variables read or written by
`ebike_app.c`, and a log of the calls made to each collaborator. -/
structure State where
  m_configuration_variables : Config
  ui8_riding_mode : Nat
  ui8_riding_mode_parameter : Nat
  ui8_system_state : Nat
  ui8_brakes_enabled : Nat
  ui8_motor_enabled : Nat
  ui16_duty_cycle_ramp_up_inverse_step : Nat
  ui16_duty_cycle_ramp_down_inverse_step : Nat
  ui16_battery_voltage_filtered_x1000 : Nat
  ui8_battery_current_filtered_x10 : Nat
  ui8_adc_battery_current_max : Nat
  ui8_adc_battery_current_target : Nat
  ui8_duty_cycle_target : Nat
  ui8_pedal_cadence_RPM : Nat
  ui16_adc_pedal_torque : Nat
  ui16_adc_pedal_torque_delta : Nat
  ui16_pedal_power_x10 : Nat
  ui16_pedal_torque_x100 : Nat
  ui8_adc_throttle : Nat
  ui16_wheel_speed_x10 : Nat
  -- UART
  ui8_received_package_flag : Nat
  ui8_rx_buffer : Nat → Nat
  ui8_rx_counter : Nat
  ui8_tx_buffer : Nat → Nat
  ui8_i : Nat
  ui8_byte_received : Nat
  ui8_state_machine : Nat
  ui16_crc_rx : Nat
  ui16_crc_tx : Nat
  ui8_message_ID : Nat
  /-- The register `UART2->CR2`; bit 5 enables the receive interrupt. -/
  UART2_CR2 : Nat
  -- globals of the motor driver and the ADC/sensor code
  ui16_controller_duty_cycle_ramp_up_inverse_step : Nat
  ui16_controller_duty_cycle_ramp_down_inverse_step : Nat
  ui8_controller_adc_battery_current_target : Nat
  ui8_controller_duty_cycle_target : Nat
  ui8_g_duty_cycle : Nat
  ui8_g_foc_angle : Nat
  ui16_adc_pedal_torque_offset : Nat
  ui8_adc_battery_voltage_cut_off : Nat
  ui16_adc_battery_voltage_filtered : Nat
  ui8_adc_battery_current_filtered : Nat
  ui16_wheel_speed_sensor_ticks : Nat
  ui32_wheel_speed_sensor_ticks_total : Nat
  ui8_cadence_sensor_magnet_pulse_width : Nat
  ui16_cadence_sensor_high_ticks_counter_min : Nat
  ui16_cadence_sensor_low_ticks_counter_min : Nat
  ui16_cadence_sensor_high_conversion_x100 : Nat
  ui16_cadence_sensor_low_conversion_x100 : Nat
  ui16_cadence_sensor_ticks : Nat
  ui16_cadence_sensor_conversion_x100 : Nat
  -- static locals of apply_cruise
  ui8_cruise_PID_initialized : Nat
  i16_error : Int
  i16_last_error : Int
  i16_integral : Int
  i16_derivative : Int
  i16_control_output : Int
  ui16_wheel_speed_target_x10 : Nat
  -- static local of apply_temperature_limiting
  ui16_adc_motor_temperature_filtered : Nat
  -- static locals of check_system
  ui8_motor_blocked_counter : Nat
  ui8_motor_blocked_reset_counter : Nat
  -- collaborators
  /-- Arguments of the calls of `lights_set_state`, oldest first. -/
  lights_set_state_calls : List Nat
  /-- Number of calls of `eeprom_write_if_values_changed`. -/
  eeprom_write_calls : Nat
  /-- Calls of `motor_enable_pwm` (true) and `motor_disable_pwm` (false). -/
  motor_pwm_calls : List Bool
  /-- Bytes handed to `putchar`, oldest first. -/
  putchar_calls : List Nat

/-! ## Riding-mode control laws -/

/-- The two ramp steps every pedal-assist law derives from the wheel speed. -/
def set_motor_acceleration (env : Env) (up_default : Nat) (s : State) : State :=
  { s with
    ui16_duty_cycle_ramp_up_inverse_step :=
      u16 (env.map (u32 s.ui16_wheel_speed_x10) 40 200 (u32 up_default)
        (u32 env.PWM_DUTY_CYCLE_RAMP_UP_INVERSE_STEP_MIN))
    ui16_duty_cycle_ramp_down_inverse_step :=
      u16 (env.map (u32 s.ui16_wheel_speed_x10) 40 200
        (u32 env.PWM_DUTY_CYCLE_RAMP_DOWN_INVERSE_STEP_DEFAULT)
        (u32 env.PWM_DUTY_CYCLE_RAMP_DOWN_INVERSE_STEP_MIN)) }

/-- Tail shared by power and torque assist: clamp the 16-bit candidate to the
configured maximum and derive the duty-cycle target from the result. -/
def set_current_and_duty_cycle_target (env : Env) (ui16_candidate : Nat) (s : State) : State :=
  let s1 : State :=
    if ui16_candidate > s.ui8_adc_battery_current_max then
      { s with ui8_adc_battery_current_target := s.ui8_adc_battery_current_max }
    else
      { s with ui8_adc_battery_current_target := u8 ui16_candidate }
  if s1.ui8_adc_battery_current_target ≠ 0 then
    { s1 with ui8_duty_cycle_target := u8 env.PWM_DUTY_CYCLE_MAX }
  else
    { s1 with ui8_duty_cycle_target := 0 }

/-- Source: `apply_power_assist`. -/
def apply_power_assist (env : Env) (s : State) : State :=
  let ui8_power_assist_multiplier_x10 := s.ui8_riding_mode_parameter
  let ui32_power_assist_x100 := u32 (s.ui16_pedal_power_x10 * ui8_power_assist_multiplier_x10)
  let ui16_battery_current_target_x10 :=
    u16 (cdiv env (u32 (ui32_power_assist_x100 * 100)) s.ui16_battery_voltage_filtered_x1000)
  let ui16_adc_battery_current_target :=
    u16 (cdiv env ui16_battery_current_target_x10 env.BATTERY_CURRENT_PER_10_BIT_ADC_STEP_X10)
  let s1 := set_motor_acceleration env env.PWM_DUTY_CYCLE_RAMP_UP_INVERSE_STEP_DEFAULT s
  set_current_and_duty_cycle_target env ui16_adc_battery_current_target s1

/-- Source: `apply_torque_assist`, with `ADC_PEDAL_TORQUE_THRESHOLD = 6` and
`TORQUE_ASSIST_FACTOR_DENOMINATOR = 110`. -/
def apply_torque_assist (env : Env) (s : State) : State :=
  let ui8_torque_assist_factor := s.ui8_riding_mode_parameter
  let ui16_adc_battery_current_target_torque_assist :=
    if s.ui16_adc_pedal_torque_delta > 6 ∧ s.ui8_pedal_cadence_RPM ≠ 0 then
      u16 (u16 (u16 (s.ui16_adc_pedal_torque_delta - 6) * ui8_torque_assist_factor) / 110)
    else 0
  let s1 := set_motor_acceleration env env.PWM_DUTY_CYCLE_RAMP_UP_INVERSE_STEP_DEFAULT s
  set_current_and_duty_cycle_target env ui16_adc_battery_current_target_torque_assist s1

/-- Source: `apply_cadence_assist`, with
`CADENCE_ASSIST_DUTY_CYCLE_RAMP_UP_INVERSE_STEP = 200`. -/
def apply_cadence_assist (env : Env) (s : State) : State :=
  let ui8_cadence_assist_duty_cycle_target :=
    if s.ui8_riding_mode_parameter > env.PWM_DUTY_CYCLE_MAX then u8 env.PWM_DUTY_CYCLE_MAX
    else s.ui8_riding_mode_parameter
  let s1 := set_motor_acceleration env 200 s
  if s1.ui8_pedal_cadence_RPM ≠ 0 then
    { s1 with
      ui8_adc_battery_current_target := s1.ui8_adc_battery_current_max
      ui8_duty_cycle_target := ui8_cadence_assist_duty_cycle_target }
  else
    { s1 with ui8_adc_battery_current_target := 0, ui8_duty_cycle_target := 0 }

/-- Source: `apply_emtb_assist` (an empty body). -/
def apply_emtb_assist (s : State) : State := s

/-- Source: `apply_walk_assist`, with
`WALK_ASSIST_DUTY_CYCLE_RAMP_UP_INVERSE_STEP = 200` and
`WALK_ASSIST_DUTY_CYCLE_MAX = 80`. -/
def apply_walk_assist (env : Env) (s : State) : State :=
  if s.ui16_wheel_speed_x10 < env.WALK_ASSIST_THRESHOLD_SPEED_X10 then
    let ui8_walk_assist_duty_cycle_target :=
      if s.ui8_riding_mode_parameter > 80 then 80 else s.ui8_riding_mode_parameter
    { s with
      ui16_duty_cycle_ramp_up_inverse_step := 200
      ui16_duty_cycle_ramp_down_inverse_step := u16 env.PWM_DUTY_CYCLE_RAMP_DOWN_INVERSE_STEP_DEFAULT
      ui8_adc_battery_current_target := s.ui8_adc_battery_current_max
      ui8_duty_cycle_target := ui8_walk_assist_duty_cycle_target }
  else s

/-- Source: the initialisation block of `apply_cruise`, run when
`ui8_cruise_PID_initialized` is 0. -/
def cruise_PID_reset (s : State) : State :=
  let ui16_wheel_speed_target_received_x10 := u16 (s.ui8_riding_mode_parameter * 10)
  { s with
    ui8_cruise_PID_initialized := 1
    i16_error := 0
    i16_last_error := 0
    i16_integral := 250
    i16_derivative := 0
    i16_control_output := 0
    ui16_wheel_speed_target_x10 :=
      if ui16_wheel_speed_target_received_x10 > 0 then ui16_wheel_speed_target_received_x10
      else s.ui16_wheel_speed_x10 }

/-- Source: `apply_cruise`, with `CRUISE_PID_INTEGRAL_LIMIT = 1000` and
`CRUISE_DUTY_CYCLE_RAMP_UP_INVERSE_STEP = 80`. -/
def apply_cruise (env : Env) (s : State) : State :=
  if s.ui16_wheel_speed_x10 > env.CRUISE_THRESHOLD_SPEED_X10 then
    let s1 := if s.ui8_cruise_PID_initialized = 0 then cruise_PID_reset s else s
    let error := i16 (u16 (s1.ui16_wheel_speed_target_x10 + 65536 - u16 s1.ui16_wheel_speed_x10))
    let integral0 := i16 (s1.i16_integral + error)
    let integral := if integral0 > 1000 then 1000 else if integral0 < 0 then 0 else integral0
    let derivative := i16 (error - s1.i16_last_error)
    let output0 := i16 (env.f_cruise_control_output error integral derivative)
    let output1 := if output0 < 0 then 0 else output0
    let output := if output1 > 1000 then 1000 else output1
    { s1 with
      i16_error := error
      i16_integral := integral
      i16_derivative := derivative
      i16_last_error := error
      i16_control_output := output
      ui16_duty_cycle_ramp_up_inverse_step := 80
      ui16_duty_cycle_ramp_down_inverse_step := u16 env.PWM_DUTY_CYCLE_RAMP_DOWN_INVERSE_STEP_DEFAULT
      ui8_adc_battery_current_target := s1.ui8_adc_battery_current_max
      ui8_duty_cycle_target :=
        u8 (env.map (u32_of_int output) 0 1000 0 (u32 env.PWM_DUTY_CYCLE_MAX)) }
  else
    { s with ui8_cruise_PID_initialized := 0 }

/-- Source: `apply_cadence_sensor_calibration`. -/
def apply_cadence_sensor_calibration (s : State) : State :=
  { s with
    ui16_duty_cycle_ramp_up_inverse_step := 200
    ui8_adc_battery_current_target := 5
    ui8_duty_cycle_target := 22 }

/-! ## Auxiliary modulators -/

/-- Source: `apply_throttle`, with `THROTTLE_DUTY_CYCLE_RAMP_UP_INVERSE_STEP = 80`. -/
def apply_throttle (env : Env) (hw : Inputs) (s : State) : State :=
  if s.ui8_riding_mode ≠ env.WALK_ASSIST_MODE ∧ s.ui8_riding_mode ≠ env.CRUISE_MODE then
    let s1 : State :=
      { s with
        ui8_adc_throttle :=
          u8 (env.map (u8 hw.UI8_ADC_THROTTLE) (u8 env.ADC_THROTTLE_MIN_VALUE)
            (u8 env.ADC_THROTTLE_MAX_VALUE) 0 255) }
    let ui8_adc_battery_current_target_throttle :=
      u8 (env.map (u8 s1.ui8_adc_throttle) 0 255 0 (u8 s1.ui8_adc_battery_current_max))
    if ui8_adc_battery_current_target_throttle > s1.ui8_adc_battery_current_target then
      { s1 with
        ui16_duty_cycle_ramp_up_inverse_step := 80
        ui16_duty_cycle_ramp_down_inverse_step :=
          u16 env.PWM_DUTY_CYCLE_RAMP_DOWN_INVERSE_STEP_DEFAULT
        ui8_adc_battery_current_target := ui8_adc_battery_current_target_throttle
        ui8_duty_cycle_target := u8 env.PWM_DUTY_CYCLE_MAX }
    else s1
  else s

/-- Source: `apply_temperature_limiting`. -/
def apply_temperature_limiting (env : Env) (hw : Inputs) (s : State) : State :=
  let ui16_temp := u16 hw.UI16_ADC_10_BIT_THROTTLE
  let filtered := u16 (env.ui16_filter ui16_temp s.ui16_adc_motor_temperature_filtered 5)
  let x2 := u16 (env.f_motor_temperature_x2 filtered)
  let cfg1 : Config :=
    { s.m_configuration_variables with
      ui16_motor_temperature_x2 := x2
      ui8_motor_temperature := u8 (x2 >>> 1) }
  let s1 : State :=
    { s with ui16_adc_motor_temperature_filtered := filtered, m_configuration_variables := cfg1 }
  if cfg1.ui8_motor_temperature_min_value_to_limit ≥ cfg1.ui8_motor_temperature_max_value_to_limit then
    { s1 with
      ui8_adc_battery_current_target := 0
      m_configuration_variables := { cfg1 with ui8_temperature_current_limiting_value := 0 } }
  else
    let in_min := u32 (u16 (u16 cfg1.ui8_motor_temperature_min_value_to_limit <<< 1))
    let in_max := u32 (u16 (u16 cfg1.ui8_motor_temperature_max_value_to_limit <<< 1))
    { s1 with
      ui8_adc_battery_current_target :=
        u8 (env.map (u32 x2) in_min in_max (u32 s1.ui8_adc_battery_current_target) 0)
      m_configuration_variables :=
        { cfg1 with
          ui8_temperature_current_limiting_value := u8 (env.map (u32 x2) in_min in_max 255 0) } }

/-- Source: `apply_speed_limit`. -/
def apply_speed_limit (env : Env) (s : State) : State :=
  if s.m_configuration_variables.ui8_wheel_speed_max > 0 then
    { s with
      ui8_adc_battery_current_target :=
        u8 (env.map (u32 s.ui16_wheel_speed_x10)
          (u32_of_int ((s.m_configuration_variables.ui8_wheel_speed_max : Int) * 10 - 20))
          (u32_of_int ((s.m_configuration_variables.ui8_wheel_speed_max : Int) * 10 + 20))
          (u32 s.ui8_adc_battery_current_target) 0) }
  else s

/-! ## `ebike_control_motor`, one definition per commented block of the source -/

/-- Block "reset control variables (safety)" at the head of the function. -/
def ecm_reset_control_variables (env : Env) (s : State) : State :=
  { s with
    ui16_controller_duty_cycle_ramp_up_inverse_step :=
      u16 env.PWM_DUTY_CYCLE_RAMP_UP_INVERSE_STEP_DEFAULT
    ui16_controller_duty_cycle_ramp_down_inverse_step :=
      u16 env.PWM_DUTY_CYCLE_RAMP_DOWN_INVERSE_STEP_DEFAULT
    ui8_adc_battery_current_target := 0
    ui8_duty_cycle_target := 0 }

/-- Block "select riding mode": the `switch (ui8_riding_mode)`.  The case
labels of a C `switch` are pairwise different, so the chain of tests below
selects the same branch. -/
def ecm_select_riding_mode (env : Env) (s : State) : State :=
  if s.ui8_riding_mode = env.POWER_ASSIST_MODE then apply_power_assist env s
  else if s.ui8_riding_mode = env.TORQUE_ASSIST_MODE then apply_torque_assist env s
  else if s.ui8_riding_mode = env.CADENCE_ASSIST_MODE then apply_cadence_assist env s
  else if s.ui8_riding_mode = env.eMTB_ASSIST_MODE then apply_emtb_assist s
  else if s.ui8_riding_mode = env.WALK_ASSIST_MODE then apply_walk_assist env s
  else if s.ui8_riding_mode = env.CRUISE_MODE then apply_cruise env s
  else if s.ui8_riding_mode = env.CADENCE_SENSOR_CALIBRATION_MODE then
    apply_cadence_sensor_calibration s
  else s

/-- Block "select optional ADC function": the
`switch (m_configuration_variables.ui8_optional_ADC_function)`, whose two case
labels are different. -/
def ecm_select_optional_ADC_function (env : Env) (hw : Inputs) (s : State) : State :=
  if s.m_configuration_variables.ui8_optional_ADC_function = env.THROTTLE_CONTROL then
    apply_throttle env hw s
  else if s.m_configuration_variables.ui8_optional_ADC_function = env.TEMPERATURE_CONTROL then
    apply_temperature_limiting env hw s
  else s

/-- Block "force target current to 0 if brakes are enabled or if there are
errors". -/
def ecm_force_target_current (env : Env) (s : State) : State :=
  if s.ui8_brakes_enabled ≠ 0 ∨ s.ui8_system_state ≠ env.NO_ERROR then
    { s with ui8_adc_battery_current_target := 0 }
  else s

/-- Block "check if to enable the motor". -/
def ecm_check_enable_motor (hw : Inputs) (s : State) : State :=
  if s.ui8_motor_enabled = 0 ∧ hw.motor_speed_erps = 0 ∧ s.ui8_adc_battery_current_target ≠ 0 then
    { s with
      ui8_motor_enabled := 1
      ui8_g_duty_cycle := 0
      motor_pwm_calls := s.motor_pwm_calls ++ [true] }
  else s

/-- Block "check if to disable the motor". -/
def ecm_check_disable_motor (hw : Inputs) (s : State) : State :=
  if s.ui8_motor_enabled ≠ 0 ∧ hw.motor_speed_erps = 0 ∧
      s.ui8_adc_battery_current_target = 0 ∧ s.ui8_g_duty_cycle = 0 then
    { s with ui8_motor_enabled := 0, motor_pwm_calls := s.motor_pwm_calls ++ [false] }
  else s

/-- Statement "limit max current if higher than configured hardware limit". -/
def limit_max_current (env : Env) (s : State) : State :=
  if s.ui8_adc_battery_current_max > env.ADC_10_BIT_BATTERY_CURRENT_MAX then
    { s with ui8_adc_battery_current_max := u8 env.ADC_10_BIT_BATTERY_CURRENT_MAX }
  else s

/-- Statement "limit target current if higher than max value". -/
def limit_target_current (s : State) : State :=
  if s.ui8_adc_battery_current_target > s.ui8_adc_battery_current_max then
    { s with ui8_adc_battery_current_target := s.ui8_adc_battery_current_max }
  else s

/-- Statement "limit target duty cycle if higher than max value". -/
def limit_target_duty_cycle (env : Env) (s : State) : State :=
  if s.ui8_duty_cycle_target > env.PWM_DUTY_CYCLE_MAX then
    { s with ui8_duty_cycle_target := u8 env.PWM_DUTY_CYCLE_MAX }
  else s

/-- Statement "limit target duty cycle ramp up inverse step if lower than min
value". -/
def limit_ramp_up_inverse_step (env : Env) (s : State) : State :=
  if s.ui16_duty_cycle_ramp_up_inverse_step < env.PWM_DUTY_CYCLE_RAMP_UP_INVERSE_STEP_MIN then
    { s with
      ui16_duty_cycle_ramp_up_inverse_step := u16 env.PWM_DUTY_CYCLE_RAMP_UP_INVERSE_STEP_MIN }
  else s

/-- Statement "limit target duty cycle ramp down inverse step if lower than min
value". -/
def limit_ramp_down_inverse_step (env : Env) (s : State) : State :=
  if s.ui16_duty_cycle_ramp_down_inverse_step < env.PWM_DUTY_CYCLE_RAMP_DOWN_INVERSE_STEP_MIN then
    { s with
      ui16_duty_cycle_ramp_down_inverse_step :=
        u16 env.PWM_DUTY_CYCLE_RAMP_DOWN_INVERSE_STEP_MIN }
  else s

/-- The four statements "set ... in controller": hand the clamped values to
the motor driver. -/
def set_in_controller (s : State) : State :=
  { s with
    ui16_controller_duty_cycle_ramp_up_inverse_step := s.ui16_duty_cycle_ramp_up_inverse_step
    ui16_controller_duty_cycle_ramp_down_inverse_step := s.ui16_duty_cycle_ramp_down_inverse_step
    ui8_controller_adc_battery_current_target := s.ui8_adc_battery_current_target
    ui8_controller_duty_cycle_target := s.ui8_duty_cycle_target }

/-- The `else` branch of "set control parameters": "reset control variables
(safety)". -/
def reset_in_controller (env : Env) (s : State) : State :=
  { s with
    ui16_controller_duty_cycle_ramp_up_inverse_step :=
      u16 env.PWM_DUTY_CYCLE_RAMP_UP_INVERSE_STEP_DEFAULT
    ui16_controller_duty_cycle_ramp_down_inverse_step :=
      u16 env.PWM_DUTY_CYCLE_RAMP_DOWN_INVERSE_STEP_DEFAULT
    ui8_controller_adc_battery_current_target := 0
    ui8_controller_duty_cycle_target := 0
    ui8_g_duty_cycle := 0 }

/-- The five limiting statements of "set control parameters", in source order. -/
def final_clamps (env : Env) (s : State) : State :=
  limit_ramp_down_inverse_step env
    (limit_ramp_up_inverse_step env
      (limit_target_duty_cycle env (limit_target_current (limit_max_current env s))))

/-- Block "set control parameters": the final clamps, or the safe defaults. -/
def ecm_set_control_parameters (env : Env) (s : State) : State :=
  if s.ui8_motor_enabled ≠ 0 ∧ s.ui8_brakes_enabled = 0 then
    set_in_controller (final_clamps env s)
  else reset_in_controller env s

/-- The state of `ebike_control_motor` after the riding-mode law, the optional
ADC function and the speed limit, before the brake/error override. -/
def ecm_mode_and_modulators (env : Env) (hw : Inputs) (s : State) : State :=
  apply_speed_limit env
    (ecm_select_optional_ADC_function env hw
      (ecm_select_riding_mode env (ecm_reset_control_variables env s)))

/-- The state of `ebike_control_motor` after the brake/error override and
before the enable/disable latch. -/
def ecm_before_latch (env : Env) (hw : Inputs) (s : State) : State :=
  ecm_force_target_current env (ecm_mode_and_modulators env hw s)

/-- The state of `ebike_control_motor` after the enable/disable latch and
before the block "set control parameters". -/
def ecm_after_latch (env : Env) (hw : Inputs) (s : State) : State :=
  ecm_check_disable_motor hw (ecm_check_enable_motor hw (ecm_before_latch env hw s))

/-- Source: `ebike_control_motor`. -/
def ebike_control_motor (env : Env) (hw : Inputs) (s : State) : State :=
  ecm_set_control_parameters env (ecm_after_latch env hw s)

/-! ## Sensor normalisation, cadence and speed -/

/-- Source: `get_battery_voltage_filtered`. -/
def get_battery_voltage_filtered (env : Env) (s : State) : State :=
  { s with
    ui16_battery_voltage_filtered_x1000 :=
      u16 (s.ui16_adc_battery_voltage_filtered * env.BATTERY_VOLTAGE_PER_10_BIT_ADC_STEP_X1000) }

/-- Source: `get_battery_current_filtered`. -/
def get_battery_current_filtered (env : Env) (s : State) : State :=
  { s with
    ui8_battery_current_filtered_x10 :=
      u8 (s.ui8_adc_battery_current_filtered * env.BATTERY_CURRENT_PER_10_BIT_ADC_STEP_X10) }

/-- Source: `get_adc_pedal_torque`. -/
def get_adc_pedal_torque (hw : Inputs) (s : State) : State :=
  let s1 : State := { s with ui16_adc_pedal_torque := u16 hw.UI16_ADC_10_BIT_TORQUE_SENSOR }
  if s1.ui16_adc_pedal_torque > s1.ui16_adc_pedal_torque_offset then
    { s1 with
      ui16_adc_pedal_torque_delta := s1.ui16_adc_pedal_torque - s1.ui16_adc_pedal_torque_offset }
  else
    { s1 with ui16_adc_pedal_torque_delta := 0 }

/-- Source: `calc_wheel_speed`. -/
def calc_wheel_speed (env : Env) (s : State) : State :=
  if s.ui16_wheel_speed_sensor_ticks ≠ 0 then
    { s with
      ui16_wheel_speed_x10 :=
        u16 (env.f_wheel_speed_x10 s.ui16_wheel_speed_sensor_ticks
          s.m_configuration_variables.ui16_wheel_perimeter) }
  else
    { s with ui16_wheel_speed_x10 := 0 }

/-- Source: `calc_cadence`, with `CADENCE_SENSOR_TICKS_COUNTER_MIN_AT_SPEED = 1000`. -/
def calc_cadence (env : Env) (s : State) : State :=
  let ui16_cadence_sensor_ticks_counter_min_temp :=
    u16 (env.map (u32 s.ui16_wheel_speed_x10) 40 200
      (u32 env.CADENCE_SENSOR_TICKS_COUNTER_MIN) 1000)
  let s1 : State :=
    if s.ui8_cadence_sensor_magnet_pulse_width > 199 then
      { s with
        ui16_cadence_sensor_high_ticks_counter_min :=
          u16 (ui16_cadence_sensor_ticks_counter_min_temp * 2)
        ui16_cadence_sensor_low_ticks_counter_min :=
          u16 (ui16_cadence_sensor_ticks_counter_min_temp * 2)
        ui16_cadence_sensor_high_conversion_x100 := 100
        ui16_cadence_sensor_low_conversion_x100 := 100 }
    else
      let width :=
        if s.ui8_cadence_sensor_magnet_pulse_width < 1 then 1
        else s.ui8_cadence_sensor_magnet_pulse_width
      { s with
        ui8_cadence_sensor_magnet_pulse_width := width
        ui16_cadence_sensor_high_ticks_counter_min :=
          u16 (u32 (width * ui16_cadence_sensor_ticks_counter_min_temp) / 100)
        ui16_cadence_sensor_low_ticks_counter_min :=
          u16 (u32 ((200 - width) * ui16_cadence_sensor_ticks_counter_min_temp) / 100)
        ui16_cadence_sensor_high_conversion_x100 := u16 (cdiv env 20000 width)
        ui16_cadence_sensor_low_conversion_x100 := u16 (cdiv env 20000 (200 - width)) }
  if s1.ui16_cadence_sensor_ticks ≠ 0 then
    { s1 with
      ui8_pedal_cadence_RPM :=
        u8 (cdiv env 4687500
          (u32 (s1.ui16_cadence_sensor_ticks * s1.ui16_cadence_sensor_conversion_x100))) }
  else
    { s1 with ui8_pedal_cadence_RPM := 0 }

/-- Source: `calc_crank_power`. -/
def calc_crank_power (s : State) : State :=
  let s1 : State :=
    { s with
      ui16_pedal_torque_x100 :=
        u16 (s.ui16_adc_pedal_torque_delta *
          s.m_configuration_variables.ui8_pedal_torque_per_10_bit_ADC_step_x100) }
  { s1 with
    ui16_pedal_power_x10 := u16 (u32 (s1.ui16_pedal_torque_x100 * s1.ui8_pedal_cadence_RPM) / 105) }

/-! ## Safety supervisor -/

/-- Source: `check_brakes`. -/
def check_brakes (hw : Inputs) (s : State) : State :=
  { s with ui8_brakes_enabled := u8 hw.brake_is_set }

/-- First half of `check_system`: the motor-blocked detector, with
`MOTOR_BLOCKED_COUNTER_THRESHOLD = 10`,
`MOTOR_BLOCKED_BATTERY_CURRENT_THRESHOLD_X10 = 50`,
`MOTOR_BLOCKED_ERPS_THRESHOLD = 10` and
`MOTOR_BLOCKED_RESET_COUNTER_THRESHOLD = 100`. -/
def check_motor_blocked (env : Env) (hw : Inputs) (s : State) : State :=
  if s.ui8_system_state = env.ERROR_MOTOR_BLOCKED then
    let s1 : State :=
      { s with ui8_motor_blocked_reset_counter := u8 (s.ui8_motor_blocked_reset_counter + 1) }
    if s1.ui8_motor_blocked_reset_counter > 100 then
      let s2 : State :=
        if s1.ui8_system_state = env.ERROR_MOTOR_BLOCKED then
          { s1 with ui8_system_state := u8 env.NO_ERROR }
        else s1
      { s2 with ui8_motor_blocked_reset_counter := 0 }
    else s1
  else
    if s.ui8_battery_current_filtered_x10 > 50 ∧ hw.motor_speed_erps < 10 then
      let s1 : State := { s with ui8_motor_blocked_counter := u8 (s.ui8_motor_blocked_counter + 1) }
      if s1.ui8_motor_blocked_counter > 10 then
        { s1 with
          ui8_system_state := u8 env.ERROR_MOTOR_BLOCKED
          ui8_motor_blocked_counter := 0 }
      else s1
    else
      { s with ui8_motor_blocked_counter := 0 }

/-- Second half of `check_system`: the block "check torque sensor". -/
def check_torque_sensor (env : Env) (s : State) : State :=
  if (s.ui16_adc_pedal_torque_offset > 300 ∨ s.ui16_adc_pedal_torque_offset < 5) ∧
      (s.ui8_riding_mode = env.POWER_ASSIST_MODE ∨ s.ui8_riding_mode = env.TORQUE_ASSIST_MODE ∨
        s.ui8_riding_mode = env.eMTB_ASSIST_MODE) then
    { s with ui8_system_state := u8 env.ERROR_TORQUE_SENSOR }
  else if s.ui8_system_state = env.ERROR_TORQUE_SENSOR then
    { s with ui8_system_state := u8 env.NO_ERROR }
  else s

/-- Source: `check_system`. -/
def check_system (env : Env) (hw : Inputs) (s : State) : State :=
  check_torque_sensor env (check_motor_blocked env hw s)

/-! ## Serial protocol engine -/

/-- The value of a CRC accumulator that starts at `0xffff` after `crc16` has
been called on `buf[0]`, ..., `buf[n-1]` in this order (the `for` loops of
`uart_receive_package` and `uart_send_package`). -/
def crc16_loop (env : Env) (buf : Nat → Nat) : Nat → Nat
  | 0 => 0xffff
  | n + 1 => u16 (env.crc16 (buf n) (crc16_loop env buf n))

/-- Array store `buf[i] = v`. -/
def store (buf : Nat → Nat) (i v : Nat) : Nat → Nat :=
  fun j => if j = i then v else buf j

/-- The 16-bit value `(buf[i + 1] << 8) + buf[i]`. -/
def le16 (buf : Nat → Nat) (i : Nat) : Nat :=
  u16 (u16 (buf (i + 1) <<< 8) + buf i)

/-- The condition "CRC is correct" of `uart_receive_package`, with
`UART_NUMBER_DATA_BYTES_TO_RECEIVE = 7`. -/
def rx_crc_is_correct (env : Env) (s : State) : Prop :=
  le16 s.ui8_rx_buffer 8 = crc16_loop env s.ui8_rx_buffer 8

instance (env : Env) (s : State) : Decidable (rx_crc_is_correct env s) := by
  unfold rx_crc_is_correct; infer_instance

/-- The `switch (ui8_message_ID)` of `uart_receive_package`. -/
def rx_message_fields (env : Env) (s : State) : State :=
  let rx := s.ui8_rx_buffer
  let cfg := s.m_configuration_variables
  match s.ui8_message_ID with
  | 0 =>
    let cut_off := le16 rx 5
    { s with
      m_configuration_variables :=
        { cfg with ui16_battery_low_voltage_cut_off_x10 := cut_off, ui8_wheel_speed_max := rx 7 }
      ui8_adc_battery_voltage_cut_off :=
        u8 (cdiv env (u32 (cut_off <<< 8)) (u32 (env.BATTERY_VOLTAGE_PER_8_BIT_ADC_STEP_X256 * 10))) }
  | 1 =>
    { s with
      m_configuration_variables :=
        { cfg with ui16_wheel_perimeter := le16 rx 5, ui8_optional_ADC_function := rx 7 } }
  | 2 =>
    { s with
      m_configuration_variables :=
        { cfg with
          ui8_motor_type := rx 5
          ui8_motor_temperature_min_value_to_limit := rx 6
          ui8_motor_temperature_max_value_to_limit := rx 7 } }
  | 3 =>
    { s with
      m_configuration_variables :=
        { cfg with
          ui8_startup_motor_power_boost_assist_level := rx 5
          ui8_startup_motor_power_boost_state := rx 6 &&& 1
          ui8_startup_motor_power_boost_limit_to_max_power := (rx 6 &&& 2) >>> 1
          ui8_startup_motor_power_boost_time := rx 7 } }
  | 4 =>
    { s with
      m_configuration_variables :=
        { cfg with
          ui8_startup_motor_power_boost_fade_time := rx 5
          ui8_startup_motor_power_boost_feature_enabled := rx 6 } }
  | 5 =>
    let ui8_adc_battery_current_max_temp_1 :=
      u8 (cdiv env (rx 6 * 10) env.BATTERY_CURRENT_PER_10_BIT_ADC_STEP_X10)
    let ui32_battery_current_max_x10 :=
      cdiv env (u32 (rx 7 * 250000)) s.ui16_battery_voltage_filtered_x1000
    let ui8_adc_battery_current_max_temp_2 :=
      u8 (cdiv env ui32_battery_current_max_x10 env.BATTERY_CURRENT_PER_10_BIT_ADC_STEP_X10)
    { s with
      m_configuration_variables :=
        { cfg with
          ui8_pedal_torque_per_10_bit_ADC_step_x100 := rx 5
          ui8_battery_max_current := rx 6
          ui8_target_battery_max_power_div25 := rx 7 }
      ui8_adc_battery_current_max :=
        u8 (env.ui8_min ui8_adc_battery_current_max_temp_1 ui8_adc_battery_current_max_temp_2) }
  | 6 => { s with ui8_cadence_sensor_magnet_pulse_width := rx 5 }
  | _ => s

/-- The body of `uart_receive_package` that runs when the CRC is correct. -/
def rx_read_package (env : Env) (s : State) : State :=
  let rx := s.ui8_rx_buffer
  let s1 : State :=
    { s with
      ui8_message_ID := rx 1
      ui8_riding_mode := rx 2
      ui8_riding_mode_parameter := rx 3
      m_configuration_variables := { s.m_configuration_variables with ui8_lights := rx 4 }
      lights_set_state_calls := s.lights_set_state_calls ++ [rx 4] }
  let s2 := rx_message_fields env s1
  { s2 with eeprom_write_calls := s2.eeprom_write_calls + 1, ui8_received_package_flag := 0 }

/-- Source: `uart_receive_package`. -/
def uart_receive_package (env : Env) (s : State) : State :=
  if s.ui8_received_package_flag ≠ 0 then
    let s1 : State := { s with ui16_crc_rx := crc16_loop env s.ui8_rx_buffer 8, ui8_i := 8 }
    let s2 : State := if rx_crc_is_correct env s1 then rx_read_package env s1 else s1
    { s2 with UART2_CR2 := s2.UART2_CR2 ||| (1 <<< 5) }
  else s

/-- The telemetry bytes 0..24 written by `uart_send_package`. -/
def tx_payload (env : Env) (hw : Inputs) (s : State) : Nat → Nat :=
  let b := store s.ui8_tx_buffer 0 0x43
  let b := store b 1 (u8 (s.ui16_battery_voltage_filtered_x1000 &&& 0xff))
  let b := store b 2 (u8 (s.ui16_battery_voltage_filtered_x1000 >>> 8))
  let b := store b 3 s.ui8_battery_current_filtered_x10
  let b := store b 4 (u8 (s.ui16_wheel_speed_x10 &&& 0xff))
  let b := store b 5 (u8 (s.ui16_wheel_speed_x10 >>> 8))
  let b := store b 6 s.ui8_brakes_enabled
  let b := store b 7 (u8 hw.UI8_ADC_THROTTLE)
  let b :=
    if s.m_configuration_variables.ui8_optional_ADC_function = env.THROTTLE_CONTROL then
      store b 8 s.ui8_adc_throttle
    else if s.m_configuration_variables.ui8_optional_ADC_function = env.TEMPERATURE_CONTROL then
      store b 8 s.m_configuration_variables.ui8_temperature_current_limiting_value
    else b
  let b := store b 9 (u8 (s.ui16_adc_pedal_torque &&& 0xff))
  let b := store b 10 (u8 (s.ui16_adc_pedal_torque >>> 8))
  let b := store b 11 s.ui8_pedal_cadence_RPM
  let b := store b 12 s.ui8_g_duty_cycle
  let b := store b 13 (u8 (s.ui16_adc_pedal_torque_offset &&& 0xff))
  let b := store b 14 (u8 (s.ui16_adc_pedal_torque_offset >>> 8))
  let b := store b 15 s.ui8_g_foc_angle
  let b := store b 16 s.ui8_system_state
  let b := store b 17 s.m_configuration_variables.ui8_motor_temperature
  let b := store b 18 (u8 (s.ui32_wheel_speed_sensor_ticks_total &&& 0xff))
  let b := store b 19 (u8 ((s.ui32_wheel_speed_sensor_ticks_total >>> 8) &&& 0xff))
  let b := store b 20 (u8 ((s.ui32_wheel_speed_sensor_ticks_total >>> 16) &&& 0xff))
  let b := store b 21 (u8 (s.ui16_pedal_torque_x100 &&& 0xff))
  let b := store b 22 (u8 (s.ui16_pedal_torque_x100 >>> 8))
  let b := store b 23 (u8 (s.ui16_pedal_power_x10 &&& 0xff))
  store b 24 (u8 (s.ui16_pedal_power_x10 >>> 8))

/-- Source: `uart_send_package`, with `UART_NUMBER_DATA_BYTES_TO_SEND = 24`. -/
def uart_send_package (env : Env) (hw : Inputs) (s : State) : State :=
  let b := tx_payload env hw s
  let crc := crc16_loop env b 25
  let b := store b 25 (u8 (crc &&& 0xff))
  let b := store b 26 (u8 (crc >>> 8) &&& 0xff)
  { s with
    ui8_tx_buffer := b
    ui16_crc_tx := crc
    ui8_i := 27
    putchar_calls := s.putchar_calls ++ (List.range 27).map b }

/-- Source: `communications_controller` (built without `DEBUG_UART`). -/
def communications_controller (env : Env) (hw : Inputs) (s : State) : State :=
  uart_send_package env hw (uart_receive_package env { s with ui8_riding_mode := u8 env.OFF_MODE })

/-- Source: `UART2_IRQHandler`, entered with the flag `RXNE` set iff `rxne`
and with `data` in the receive data register.  The status register `UART2->SR`
is not part of the state. -/
def UART2_IRQHandler (rxne : Bool) (data : Nat) (s : State) : State :=
  if rxne then
    let s1 : State := { s with ui8_byte_received := u8 data }
    match s1.ui8_state_machine with
    | 0 =>
      if s1.ui8_byte_received = 0x59 then
        { s1 with
          ui8_rx_buffer := store s1.ui8_rx_buffer s1.ui8_rx_counter s1.ui8_byte_received
          ui8_rx_counter := u8 (s1.ui8_rx_counter + 1)
          ui8_state_machine := 1 }
      else
        { s1 with ui8_rx_counter := 0, ui8_state_machine := 0 }
    | 1 =>
      let s2 : State :=
        { s1 with
          ui8_rx_buffer := store s1.ui8_rx_buffer s1.ui8_rx_counter s1.ui8_byte_received
          ui8_rx_counter := u8 (s1.ui8_rx_counter + 1) }
      if s2.ui8_rx_counter ≥ 7 + 3 then
        { s2 with
          ui8_rx_counter := 0
          ui8_state_machine := 0
          ui8_received_package_flag := 1
          UART2_CR2 := s2.UART2_CR2 &&& (255 - (1 <<< 5)) }
      else s2
    | _ => s1
  else s

/-! ## Control tick orchestrator -/

/-- The first six calls of `ebike_app_controller`: the sensor readings. -/
def eac_read_sensors (env : Env) (hw : Inputs) (s : State) : State :=
  let s := get_battery_voltage_filtered env s
  let s := get_battery_current_filtered env s
  let s := get_adc_pedal_torque hw s
  let s := calc_wheel_speed env s
  let s := calc_cadence env s
  calc_crank_power s

/-- The state of `ebike_app_controller` when `communications_controller` is
called: after the sensor readings, `check_system` and `check_brakes`. -/
def eac_before_communications (env : Env) (hw : Inputs) (s : State) : State :=
  check_brakes hw (check_system env hw (eac_read_sensors env hw s))

/-- Source: `ebike_app_controller`. -/
def ebike_app_controller (env : Env) (hw : Inputs) (s : State) : State :=
  ebike_control_motor env hw
    (communications_controller env hw (eac_before_communications env hw s))

/-! ## Iterated ticks and the predicates used in the statements -/

/-- The calls of `check_system` made by consecutive ticks, one per element of
`hws` (the hardware readings of that tick). -/
def check_system_ticks (env : Env) (hws : List Inputs) (s : State) : State :=
  hws.foldl (fun s hw => check_system env hw s) s

/-- The error codes fit the `uint8_t` they are stored in and are pairwise
different. -/
def error_codes_ok (env : Env) : Prop :=
  env.NO_ERROR < 256 ∧ env.ERROR_MOTOR_BLOCKED < 256 ∧ env.ERROR_TORQUE_SENSOR < 256 ∧
  env.NO_ERROR ≠ env.ERROR_MOTOR_BLOCKED ∧ env.NO_ERROR ≠ env.ERROR_TORQUE_SENSOR ∧
  env.ERROR_MOTOR_BLOCKED ≠ env.ERROR_TORQUE_SENSOR

instance (env : Env) : Decidable (error_codes_ok env) := by
  unfold error_codes_ok; infer_instance

/-- The condition of the block "check torque sensor" of `check_system`. -/
def torque_sensor_fault_condition (env : Env) (s : State) : Prop :=
  (s.ui16_adc_pedal_torque_offset > 300 ∨ s.ui16_adc_pedal_torque_offset < 5) ∧
  (s.ui8_riding_mode = env.POWER_ASSIST_MODE ∨ s.ui8_riding_mode = env.TORQUE_ASSIST_MODE ∨
    s.ui8_riding_mode = env.eMTB_ASSIST_MODE)

instance (env : Env) (s : State) : Decidable (torque_sensor_fault_condition env s) := by
  unfold torque_sensor_fault_condition; infer_instance

/-- Fields the final clamps never write. -/
def latch_frame (s t : State) : Prop :=
  t.ui8_motor_enabled = s.ui8_motor_enabled ∧
  t.motor_pwm_calls = s.motor_pwm_calls ∧
  t.ui8_brakes_enabled = s.ui8_brakes_enabled

/-- Fields the riding-mode laws and the modulators never write. -/
def supervisor_frame (s t : State) : Prop :=
  t.ui8_brakes_enabled = s.ui8_brakes_enabled ∧
  t.ui8_system_state = s.ui8_system_state ∧
  t.ui8_motor_enabled = s.ui8_motor_enabled ∧
  t.ui8_g_duty_cycle = s.ui8_g_duty_cycle ∧
  t.ui8_riding_mode = s.ui8_riding_mode ∧
  t.ui8_adc_battery_current_max = s.ui8_adc_battery_current_max ∧
  t.motor_pwm_calls = s.motor_pwm_calls

/-- Fields that the sensor readings, `check_system`, `check_brakes` and
`uart_send_package` never write: the configuration, the variables set by the
protocol dispatch, and the inputs of the frame check. -/
def protocol_frame (s t : State) : Prop :=
  t.m_configuration_variables = s.m_configuration_variables ∧
  t.ui8_riding_mode = s.ui8_riding_mode ∧
  t.ui8_riding_mode_parameter = s.ui8_riding_mode_parameter ∧
  t.ui8_message_ID = s.ui8_message_ID ∧
  t.ui8_adc_battery_current_max = s.ui8_adc_battery_current_max ∧
  t.ui8_adc_battery_voltage_cut_off = s.ui8_adc_battery_voltage_cut_off ∧
  t.lights_set_state_calls = s.lights_set_state_calls ∧
  t.eeprom_write_calls = s.eeprom_write_calls ∧
  t.ui8_rx_buffer = s.ui8_rx_buffer ∧
  t.ui8_received_package_flag = s.ui8_received_package_flag ∧
  t.ui16_adc_pedal_torque_offset = s.ui16_adc_pedal_torque_offset

/-- The constant `OFF_MODE` fits a `uint8_t` and is none of the seven case
labels of the riding-mode `switch`. -/
def off_mode_ok (env : Env) : Prop :=
  env.OFF_MODE < 256 ∧
  env.OFF_MODE ≠ env.POWER_ASSIST_MODE ∧ env.OFF_MODE ≠ env.TORQUE_ASSIST_MODE ∧
  env.OFF_MODE ≠ env.CADENCE_ASSIST_MODE ∧ env.OFF_MODE ≠ env.eMTB_ASSIST_MODE ∧
  env.OFF_MODE ≠ env.WALK_ASSIST_MODE ∧ env.OFF_MODE ≠ env.CRUISE_MODE ∧
  env.OFF_MODE ≠ env.CADENCE_SENSOR_CALIBRATION_MODE

instance (env : Env) : Decidable (off_mode_ok env) := by
  unfold off_mode_ok; infer_instance

/-! ## A concrete environment and the power-on state -/

/-- A 32-bit pattern read as a signed `int32_t`. -/
def s32 (n : Nat) : Int :=
  if u32 n < 2147483648 then (u32 n : Int) else (u32 n : Int) - 4294967296

/-- Modelled from the spec: the interpolation helper `map` of `common.c`, which
is not among the sources ("clamped linear interpolation between two
breakpoints", "clamp-at-endpoints behavior (no extrapolation)").  Arguments and
result are 32-bit patterns read as signed numbers, since `apply_speed_limit`
passes `10 * max - 20`, which is negative for `max = 1`. -/
def map_clamped (x in_min in_max out_min out_max : Nat) : Nat :=
  if s32 x ≤ s32 in_min then u32 out_min
  else if s32 x ≥ s32 in_max then u32 out_max
  else
    u32_of_int
      (s32 out_min +
        Int.tdiv ((s32 x - s32 in_min) * (s32 out_max - s32 out_min)) (s32 in_max - s32 in_min))

/-- One bit step of a reflected CRC16 with polynomial `0xA001`. -/
def crc16_bit (crc : Nat) : Nat :=
  if crc &&& 1 = 1 then (crc >>> 1) ^^^ 0xA001 else crc >>> 1

/-- Modelled from the spec: the helper `crc16` of `common.c`, which is not among
the sources ("a specific bit-oriented polynomial algorithm").  This is one such
algorithm, the reflected CRC16 with polynomial `0xA001`: xor the byte into the
accumulator, then eight bit steps.  It is the `crc16` of the sample environment. -/
def crc16_a001 (data crc : Nat) : Nat :=
  crc16_bit (crc16_bit (crc16_bit (crc16_bit (crc16_bit (crc16_bit (crc16_bit (crc16_bit
    (u16 crc ^^^ u8 data))))))))

/-- A sample environment: one admissible choice of the constants of `main.h`
and of the helpers, used to evaluate the model on concrete inputs. -/
def sample_env : Env where
  OFF_MODE := 0
  POWER_ASSIST_MODE := 1
  TORQUE_ASSIST_MODE := 2
  CADENCE_ASSIST_MODE := 3
  eMTB_ASSIST_MODE := 4
  WALK_ASSIST_MODE := 5
  CRUISE_MODE := 6
  CADENCE_SENSOR_CALIBRATION_MODE := 7
  NO_ERROR := 0
  ERROR_MOTOR_BLOCKED := 1
  ERROR_TORQUE_SENSOR := 2
  THROTTLE_CONTROL := 2
  TEMPERATURE_CONTROL := 1
  PWM_DUTY_CYCLE_MAX := 254
  PWM_DUTY_CYCLE_RAMP_UP_INVERSE_STEP_DEFAULT := 160
  PWM_DUTY_CYCLE_RAMP_UP_INVERSE_STEP_MIN := 20
  PWM_DUTY_CYCLE_RAMP_DOWN_INVERSE_STEP_DEFAULT := 40
  PWM_DUTY_CYCLE_RAMP_DOWN_INVERSE_STEP_MIN := 8
  ADC_10_BIT_BATTERY_CURRENT_MAX := 106
  BATTERY_CURRENT_PER_10_BIT_ADC_STEP_X10 := 2
  BATTERY_VOLTAGE_PER_10_BIT_ADC_STEP_X1000 := 87
  BATTERY_VOLTAGE_PER_8_BIT_ADC_STEP_X256 := 89
  WALK_ASSIST_THRESHOLD_SPEED_X10 := 80
  CRUISE_THRESHOLD_SPEED_X10 := 90
  ADC_THROTTLE_MIN_VALUE := 47
  ADC_THROTTLE_MAX_VALUE := 176
  CADENCE_SENSOR_TICKS_COUNTER_MIN := 10000
  map := map_clamped
  crc16 := crc16_a001
  ui16_filter := fun new old alpha => (new * (100 - alpha) + old * alpha + 50) / 100
  ui8_min := fun a b => if a < b then a else b
  div_by_zero := fun _ => 0
  f_wheel_speed_x10 := fun ticks perimeter => 15625 * perimeter * 36 / (ticks * 1000)
  f_motor_temperature_x2 := fun filtered => filtered * 1000 / 1024
  f_cruise_control_output := fun error integral _ => 12 * error + Int.tdiv (7 * integral) 10

/-- The state given by the initialisers of `ebike_app.c`; variables without an
initialiser, and those defined in other files, start at 0. -/
def initial_state (env : Env) : State where
  m_configuration_variables :=
    { ui8_lights := 0, ui16_battery_low_voltage_cut_off_x10 := 0, ui8_wheel_speed_max := 0,
      ui16_wheel_perimeter := 0, ui8_optional_ADC_function := 0, ui8_motor_type := 0,
      ui8_motor_temperature_min_value_to_limit := 0,
      ui8_motor_temperature_max_value_to_limit := 0,
      ui8_startup_motor_power_boost_assist_level := 0,
      ui8_startup_motor_power_boost_state := 0,
      ui8_startup_motor_power_boost_limit_to_max_power := 0,
      ui8_startup_motor_power_boost_time := 0,
      ui8_startup_motor_power_boost_fade_time := 0,
      ui8_startup_motor_power_boost_feature_enabled := 0,
      ui8_pedal_torque_per_10_bit_ADC_step_x100 := 0, ui8_battery_max_current := 0,
      ui8_target_battery_max_power_div25 := 0, ui16_motor_temperature_x2 := 0,
      ui8_motor_temperature := 0, ui8_temperature_current_limiting_value := 0 }
  ui8_riding_mode := u8 env.OFF_MODE
  ui8_riding_mode_parameter := 0
  ui8_system_state := u8 env.NO_ERROR
  ui8_brakes_enabled := 0
  ui8_motor_enabled := 0
  ui16_duty_cycle_ramp_up_inverse_step := u16 env.PWM_DUTY_CYCLE_RAMP_UP_INVERSE_STEP_DEFAULT
  ui16_duty_cycle_ramp_down_inverse_step := u16 env.PWM_DUTY_CYCLE_RAMP_DOWN_INVERSE_STEP_DEFAULT
  ui16_battery_voltage_filtered_x1000 := 0
  ui8_battery_current_filtered_x10 := 0
  ui8_adc_battery_current_max := u8 env.ADC_10_BIT_BATTERY_CURRENT_MAX
  ui8_adc_battery_current_target := 0
  ui8_duty_cycle_target := 0
  ui8_pedal_cadence_RPM := 0
  ui16_adc_pedal_torque := 0
  ui16_adc_pedal_torque_delta := 0
  ui16_pedal_power_x10 := 0
  ui16_pedal_torque_x100 := 0
  ui8_adc_throttle := 0
  ui16_wheel_speed_x10 := 0
  ui8_received_package_flag := 0
  ui8_rx_buffer := fun _ => 0
  ui8_rx_counter := 0
  ui8_tx_buffer := fun _ => 0
  ui8_i := 0
  ui8_byte_received := 0
  ui8_state_machine := 0
  ui16_crc_rx := 0
  ui16_crc_tx := 0
  ui8_message_ID := 0
  UART2_CR2 := 0
  ui16_controller_duty_cycle_ramp_up_inverse_step := 0
  ui16_controller_duty_cycle_ramp_down_inverse_step := 0
  ui8_controller_adc_battery_current_target := 0
  ui8_controller_duty_cycle_target := 0
  ui8_g_duty_cycle := 0
  ui8_g_foc_angle := 0
  ui16_adc_pedal_torque_offset := 0
  ui8_adc_battery_voltage_cut_off := 0
  ui16_adc_battery_voltage_filtered := 0
  ui8_adc_battery_current_filtered := 0
  ui16_wheel_speed_sensor_ticks := 0
  ui32_wheel_speed_sensor_ticks_total := 0
  ui8_cadence_sensor_magnet_pulse_width := 0
  ui16_cadence_sensor_high_ticks_counter_min := 0
  ui16_cadence_sensor_low_ticks_counter_min := 0
  ui16_cadence_sensor_high_conversion_x100 := 0
  ui16_cadence_sensor_low_conversion_x100 := 0
  ui16_cadence_sensor_ticks := 0
  ui16_cadence_sensor_conversion_x100 := 0
  ui8_cruise_PID_initialized := 0
  i16_error := 0
  i16_last_error := 0
  i16_integral := 0
  i16_derivative := 0
  i16_control_output := 0
  ui16_wheel_speed_target_x10 := 0
  ui16_adc_motor_temperature_filtered := 0
  ui8_motor_blocked_counter := 0
  ui8_motor_blocked_reset_counter := 0
  lights_set_state_calls := []
  eeprom_write_calls := 0
  motor_pwm_calls := []
  putchar_calls := []

/-- Hardware inputs with every reading at 0 (motor stopped, brake released). -/
def idle_inputs : Inputs where
  motor_speed_erps := 0
  brake_is_set := 0
  UI8_ADC_THROTTLE := 0
  UI16_ADC_10_BIT_THROTTLE := 0
  UI16_ADC_10_BIT_TORQUE_SENSOR := 0

/-! ## Concrete inputs -/

/-- A byte array with the given leading bytes and zeros after them. -/
def bytes (l : List Nat) : Nat → Nat := fun i => l.getD i 0

/-- The power-on state with the throttle selected as optional ADC function. -/
def throttle_state : State :=
  { initial_state sample_env with
    m_configuration_variables :=
      { (initial_state sample_env).m_configuration_variables with
        ui8_optional_ADC_function := sample_env.THROTTLE_CONTROL } }

/-- Idle inputs with the throttle fully opened. -/
def full_throttle : Inputs := { idle_inputs with UI8_ADC_THROTTLE := 255 }

/-- A state whose previous tick ran in `OFF_MODE`: torque offset 0 (out of
band), battery at 414 ADC steps, cadence ticks giving 46 RPM, and a ready frame
with message ID 4 that selects `POWER_ASSIST_MODE` with parameter 50; its
trailing bytes 248, 136 are the CRC16 35064 of the first eight bytes. -/
def power_frame_state : State :=
  { initial_state sample_env with
    ui8_received_package_flag := 1
    ui8_rx_buffer := bytes [0x59, 4, 1, 50, 0, 0, 0, 0, 248, 136]
    ui16_adc_battery_voltage_filtered := 414
    ui16_cadence_sensor_ticks := 1000
    ui16_cadence_sensor_conversion_x100 := 100
    m_configuration_variables :=
      { (initial_state sample_env).m_configuration_variables with
        ui8_pedal_torque_per_10_bit_ADC_step_x100 := 67 } }

/-- The state `power_frame_state` one tick later, as far as the torque check
is concerned: the stored riding mode is `POWER_ASSIST_MODE`. -/
def stored_power_assist_state : State :=
  { power_frame_state with ui8_riding_mode := sample_env.POWER_ASSIST_MODE }

/-- Idle inputs with a pedal torque reading of 100 ADC steps. -/
def pedalling : Inputs := { idle_inputs with UI16_ADC_10_BIT_TORQUE_SENSOR := 100 }

/-- The power-on state with a filtered battery current of 6.0 A. -/
def stalled_state : State :=
  { initial_state sample_env with ui8_battery_current_filtered_x10 := 60 }

/-- The state right after `check_system` has raised `ERROR_MOTOR_BLOCKED`:
both counters at 0, the current still at 6.0 A. -/
def blocked_state : State :=
  { initial_state sample_env with
    ui8_battery_current_filtered_x10 := 60
    ui8_system_state := sample_env.ERROR_MOTOR_BLOCKED }

/-- The frame of `power_frame_state` with one bit of its last byte flipped
(137 for 136): the frame-ready flag is set, and the trailing bytes 248, 137 are
not the CRC16 35064 of the first eight bytes. -/
def corrupt_frame_state : State :=
  { initial_state sample_env with
    ui8_received_package_flag := 1
    ui8_rx_buffer := bytes [0x59, 4, 1, 50, 0, 0, 0, 0, 248, 137] }

/-- The interrupt handler run once for each byte of `l`, in order. -/
def uart_receive_bytes (l : List Nat) (s : State) : State :=
  l.foldl (fun s b => UART2_IRQHandler true b s) s

/-- The state after the ten bytes of the corrupted frame have arrived on the
UART, starting from power-on with the receive interrupt enabled. -/
def corrupt_frame_received : State :=
  uart_receive_bytes [0x59, 4, 1, 50, 0, 0, 0, 0, 248, 137]
    { initial_state sample_env with UART2_CR2 := 1 <<< 5 }

/-- The power-on state with the brake engaged and the cadence sensor
calibration mode selected (a mode whose law asks for a current target of 5). -/
def braking_state : State :=
  { initial_state sample_env with
    ui8_brakes_enabled := 1
    ui8_riding_mode := sample_env.CADENCE_SENSOR_CALIBRATION_MODE }

/-- The statements of `uart_receive_package` between the CRC test and the
`switch`: message ID, riding mode, mode parameter, lights. -/
def rx_fixed_fields (s : State) : State :=
  { s with
    ui8_message_ID := s.ui8_rx_buffer 1
    ui8_riding_mode := s.ui8_rx_buffer 2
    ui8_riding_mode_parameter := s.ui8_rx_buffer 3
    m_configuration_variables :=
      { s.m_configuration_variables with ui8_lights := s.ui8_rx_buffer 4 }
    lights_set_state_calls := s.lights_set_state_calls ++ [s.ui8_rx_buffer 4] }

/-- The four variables a message ID may select besides the fixed fields. -/
def rx_selected (s : State) : Config × Nat × Nat × Nat :=
  (s.m_configuration_variables, s.ui8_adc_battery_voltage_cut_off,
    s.ui8_adc_battery_current_max, s.ui8_cadence_sensor_magnet_pulse_width)

/-- Modelled from the spec: the helper `crc16` of `common.c` is not among the
sources; the spec calls it "a specific bit-oriented polynomial algorithm".  One
call of such an algorithm xors the data byte into the accumulator and then
shifts eight times, which is a one-to-one map of the 16-bit accumulator for a
fixed byte and of the byte for a fixed accumulator.  These are the two
properties stated here. -/
def crc16_step_injective (env : Env) : Prop :=
  (∀ d c c', c < 65536 → c' < 65536 →
    u16 (env.crc16 d c) = u16 (env.crc16 d c') → c = c') ∧
  (∀ d d' c, d < 256 → d' < 256 → c < 65536 →
    u16 (env.crc16 d c) = u16 (env.crc16 d' c) → d = d')

/-- The frame with bit `j` of byte `k` flipped. -/
def flip_bit (buf : Nat → Nat) (k j : Nat) : Nat → Nat :=
  store buf k (buf k ^^^ (1 <<< j))

/-- The inverse of `crc16_bit` on 16-bit values. -/
def crc16_bit_inv (r : Nat) : Nat :=
  if 32768 ≤ r then 2 * (r ^^^ 0xA001) + 1 else 2 * r

/-- A state in which the quotient of `apply_power_assist` does not fit 16 bits:
pedal power x10 6554, multiplier 10, filtered battery voltage x1000 100. -/
def power_assist_wrap_state : State :=
  { initial_state sample_env with
    ui16_pedal_power_x10 := 6554
    ui8_riding_mode_parameter := 10
    ui16_battery_voltage_filtered_x1000 := 100 }

/-- The power-assist example of the spec: multiplier 5, pedal power x10 200,
filtered battery voltage x1000 36000. -/
def power_assist_example_state : State :=
  { initial_state sample_env with
    ui16_pedal_power_x10 := 200
    ui8_riding_mode_parameter := 5
    ui16_battery_voltage_filtered_x1000 := 36000 }

/-- A state in which the 16-bit product of `apply_torque_assist` wraps: torque
delta 264, assist factor 255, cadence 60 RPM. -/
def torque_assist_wrap_state : State :=
  { initial_state sample_env with
    ui16_adc_pedal_torque_delta := 264
    ui8_riding_mode_parameter := 255
    ui8_pedal_cadence_RPM := 60 }

/-- A state for torque assist without wrap: torque delta 116, assist factor 55,
cadence 60 RPM. -/
def torque_assist_example_state : State :=
  { initial_state sample_env with
    ui16_adc_pedal_torque_delta := 116
    ui8_riding_mode_parameter := 55
    ui8_pedal_cadence_RPM := 60 }

/-- A run of cruise ticks: before each call of `apply_cruise` the wheel speed and
the mode parameter take the values of the next pair of the list. -/
def cruise_run (env : Env) (l : List (Nat × Nat)) (s : State) : State :=
  l.foldl (fun s p =>
    apply_cruise env { s with ui16_wheel_speed_x10 := p.1, ui8_riding_mode_parameter := p.2 }) s

/-- The power-on state rolling at 20.0 km/h with mode parameter 0, so that an
active cruise tick latches the current speed as target. -/
def cruise_start_state : State :=
  { initial_state sample_env with ui16_wheel_speed_x10 := 200 }

/-- One call of `ebike_control_motor` in the sample environment with the given
riding mode and wheel speed x10 in force, as `communications_controller` and
`calc_wheel_speed` leave them before the call. -/
def control_tick (mode speed : Nat) (s : State) : State :=
  ebike_control_motor sample_env idle_inputs
    { s with ui8_riding_mode := mode, ui16_wheel_speed_x10 := speed }

/-- Three ticks with mode parameter 0 and a 36 V battery: cruise at 20.0 km/h,
then power assist at 25.0 km/h, then cruise again at 25.0 km/h. -/
def cruise_after_first_tick : State :=
  control_tick sample_env.CRUISE_MODE 200
    { initial_state sample_env with ui16_battery_voltage_filtered_x1000 := 36000 }

/-- The second tick of the three: power assist at 25.0 km/h. -/
def cruise_after_second_tick : State :=
  control_tick sample_env.POWER_ASSIST_MODE 250 cruise_after_first_tick

/-- The third tick of the three: cruise again, at 25.0 km/h. -/
def cruise_after_third_tick : State :=
  control_tick sample_env.CRUISE_MODE 250 cruise_after_second_tick

/-- The local variable `ui8_adc_battery_current_target_throttle` of
`apply_throttle`: the throttle reading mapped to 0..255 and then to
0..`ui8_adc_battery_current_max`. -/
def throttle_current_target (env : Env) (hw : Inputs) (s : State) : Nat :=
  u8 (env.map
    (u8 (u8 (env.map (u8 hw.UI8_ADC_THROTTLE) (u8 env.ADC_THROTTLE_MIN_VALUE)
      (u8 env.ADC_THROTTLE_MAX_VALUE) 0 255)))
    0 255 0 (u8 s.ui8_adc_battery_current_max))

/-- A state with the temperature limits in the wrong order (min 90, max 80), a
current target of 60 and a limiting indicator of 255. -/
def bad_temperature_limits_state : State :=
  { initial_state sample_env with
    ui8_adc_battery_current_target := 60
    m_configuration_variables :=
      { (initial_state sample_env).m_configuration_variables with
        ui8_optional_ADC_function := sample_env.TEMPERATURE_CONTROL
        ui8_motor_temperature_min_value_to_limit := 90
        ui8_motor_temperature_max_value_to_limit := 80
        ui8_temperature_current_limiting_value := 255 } }

/-- Inputs with the optional ADC channel (the temperature sensor) reading 400. -/
def warm_inputs : Inputs := { idle_inputs with UI16_ADC_10_BIT_THROTTLE := 400 }

/-- A state inside both derating bands: current target 60, temperature limits
150 and 200, speed limit 25 km/h and wheel speed 25.0 km/h. -/
def derating_state : State :=
  { initial_state sample_env with
    ui8_adc_battery_current_target := 60
    ui16_wheel_speed_x10 := 250
    m_configuration_variables :=
      { (initial_state sample_env).m_configuration_variables with
        ui8_optional_ADC_function := sample_env.TEMPERATURE_CONTROL
        ui8_motor_temperature_min_value_to_limit := 150
        ui8_motor_temperature_max_value_to_limit := 200
        ui8_wheel_speed_max := 25 } }

/-- The state `derating_state` at 28.0 km/h, above the speed band. -/
def over_speed_state : State := { derating_state with ui16_wheel_speed_x10 := 280 }

/-- The configuration variables with the three fields written by
`apply_temperature_limiting` blanked. -/
def config_without_temperature (c : Config) : Config :=
  { c with
    ui16_motor_temperature_x2 := 0
    ui8_motor_temperature := 0
    ui8_temperature_current_limiting_value := 0 }

/-- Idle inputs with the motor turning at 100 ERPS. -/
def spinning_inputs : Inputs := { idle_inputs with motor_speed_erps := 100 }

/-- The state left by a power-assist tick at 25.0 km/h from power-on (pedal
power x10 2000, multiplier 50, battery 36.0 V): the motor is enabled and the
working ramp steps are at their minimums 20 and 8. -/
def after_power_assist_tick : State :=
  control_tick sample_env.POWER_ASSIST_MODE 250
    { initial_state sample_env with
      ui16_battery_voltage_filtered_x1000 := 36000
      ui16_pedal_power_x10 := 2000
      ui8_riding_mode_parameter := 50 }

/-- The state in which the next call of `ebike_control_motor` starts: the frame
of that tick has selected `eMTB_ASSIST_MODE`. -/
def emtb_tick_start : State :=
  { after_power_assist_tick with ui8_riding_mode := sample_env.eMTB_ASSIST_MODE }

/-- A state with torque delta 1000, torque-per-ADC-step constant 67 and cadence
60 RPM, for which the 16-bit product of `calc_crank_power` wraps. -/
def crank_power_wrap_state : State :=
  { initial_state sample_env with
    ui16_adc_pedal_torque_delta := 1000
    ui8_pedal_cadence_RPM := 60
    m_configuration_variables :=
      { (initial_state sample_env).m_configuration_variables with
        ui8_pedal_torque_per_10_bit_ADC_step_x100 := 67 } }

/-- A state with torque delta 100, torque-per-ADC-step constant 67 and cadence
60 RPM. -/
def crank_power_example_state : State :=
  { initial_state sample_env with
    ui16_adc_pedal_torque_delta := 100
    ui8_pedal_cadence_RPM := 60
    m_configuration_variables :=
      { (initial_state sample_env).m_configuration_variables with
        ui8_pedal_torque_per_10_bit_ADC_step_x100 := 67 } }

/-- The sample environment on a target where a division by zero leaves all
ones in a 16-bit result. -/
def sample_env_all_ones : Env := { sample_env with div_by_zero := fun _ => 65535 }

/-- The state `power_frame_state` with a filtered battery voltage reading of 0:
a valid frame selecting power assist is ready. -/
def zero_voltage_frame_state : State :=
  { power_frame_state with ui16_adc_battery_voltage_filtered := 0 }

/-- The stall condition of `check_system`: filtered battery current x10 above 50
and motor speed below 10 ERPS. -/
def stall_condition (hw : Inputs) (s : State) : Prop :=
  s.ui8_battery_current_filtered_x10 > 50 ∧ hw.motor_speed_erps < 10

instance (hw : Inputs) (s : State) : Decidable (stall_condition hw s) := by
  unfold stall_condition; infer_instance

/-- One tick as `check_system` sees it: the system state and the two counters are
those left by the previous call, every other variable and the hardware readings
are those of the pair `p`, so the rest of the firmware may have changed them in
any way since the previous call. -/
def supervisor_tick (env : Env) (s : State) (p : Inputs × State) : State :=
  check_system env p.1
    { p.2 with
      ui8_system_state := s.ui8_system_state
      ui8_motor_blocked_counter := s.ui8_motor_blocked_counter
      ui8_motor_blocked_reset_counter := s.ui8_motor_blocked_reset_counter }

/-- The calls of `check_system` over a sequence of ticks. -/
def supervisor_run (env : Env) (l : List (Inputs × State)) (s : State) : State :=
  l.foldl (supervisor_tick env) s

/-- What can happen to the receive variables: the receive interrupt delivers a
byte, or the main loop runs `communications_controller` (which clears the
frame-ready flag of a valid frame and re-enables reception). -/
inductive UartEvent where
  | byte (b : Nat)
  | main_loop (hw : Inputs)

/-- The effect of one event. -/
def uart_event (env : Env) (s : State) (e : UartEvent) : State :=
  match e with
  | UartEvent.byte b => UART2_IRQHandler true b s
  | UartEvent.main_loop hw => communications_controller env hw s

/-- The effect of a sequence of events, in order. -/
def uart_events (env : Env) (l : List UartEvent) (s : State) : State :=
  l.foldl (uart_event env) s

/-- The invariant of the receive state machine: index 0 in WaitStart (state 0),
index 1..9 in InFrame (state 1). -/
def rx_index_ok (s : State) : Prop :=
  (s.ui8_state_machine = 0 ∧ s.ui8_rx_counter = 0) ∨
  (s.ui8_state_machine = 1 ∧ 1 ≤ s.ui8_rx_counter ∧ s.ui8_rx_counter ≤ 9)

/-- A ready, valid frame with message ID 5 whose limits wrap in 8 bits: battery
max current 255 A, power limit 255 * 25 W, with a 36.0 V battery.  The trailing
bytes 24, 44 are the CRC16 11288 of the first eight bytes. -/
def id5_frame_state : State :=
  { initial_state sample_env with
    ui8_received_package_flag := 1
    ui8_rx_buffer := bytes [0x59, 5, 1, 50, 0, 67, 255, 255, 24, 44]
    ui16_battery_voltage_filtered_x1000 := 36000 }

/-- The state after the tick that reads the frame of `power_frame_state`
(torque offset 0, power assist selected). -/
def torque_fault_frame_tick : State :=
  ebike_app_controller sample_env pedalling power_frame_state

/-- The state after the next tick, in which no frame is ready. -/
def torque_fault_idle_tick : State :=
  ebike_app_controller sample_env pedalling torque_fault_frame_tick

/-- The state after the third tick, for which the same frame has arrived
again. -/
def torque_fault_second_frame_tick : State :=
  ebike_app_controller sample_env pedalling
    { torque_fault_idle_tick with ui8_received_package_flag := 1 }

/-! ## Frame lemmas for the riding-mode laws and the modulators -/

theorem supervisor_frame_refl (s : State) : supervisor_frame s s := by
  simp [supervisor_frame]

theorem supervisor_frame_trans {s t r : State} (h1 : supervisor_frame s t)
    (h2 : supervisor_frame t r) : supervisor_frame s r := by
  simp only [supervisor_frame] at *
  obtain ⟨a1, a2, a3, a4, a5, a6, a7⟩ := h1
  obtain ⟨b1, b2, b3, b4, b5, b6, b7⟩ := h2
  exact ⟨b1.trans a1, b2.trans a2, b3.trans a3, b4.trans a4, b5.trans a5, b6.trans a6,
    b7.trans a7⟩

theorem set_motor_acceleration_frame (env : Env) (d : Nat) (s : State) :
    supervisor_frame s (set_motor_acceleration env d s) := by
  simp [set_motor_acceleration, supervisor_frame]

theorem set_current_and_duty_cycle_target_frame (env : Env) (c : Nat) (s : State) :
    supervisor_frame s (set_current_and_duty_cycle_target env c s) := by
  unfold set_current_and_duty_cycle_target supervisor_frame
  dsimp only
  split_ifs <;> simp

theorem apply_power_assist_frame (env : Env) (s : State) :
    supervisor_frame s (apply_power_assist env s) := by
  unfold apply_power_assist
  exact supervisor_frame_trans (set_motor_acceleration_frame _ _ _)
    (set_current_and_duty_cycle_target_frame _ _ _)

theorem apply_torque_assist_frame (env : Env) (s : State) :
    supervisor_frame s (apply_torque_assist env s) := by
  unfold apply_torque_assist
  exact supervisor_frame_trans (set_motor_acceleration_frame _ _ _)
    (set_current_and_duty_cycle_target_frame _ _ _)

theorem apply_cadence_assist_frame (env : Env) (s : State) :
    supervisor_frame s (apply_cadence_assist env s) := by
  unfold apply_cadence_assist supervisor_frame set_motor_acceleration
  dsimp only
  split_ifs <;> simp

theorem apply_walk_assist_frame (env : Env) (s : State) :
    supervisor_frame s (apply_walk_assist env s) := by
  unfold apply_walk_assist supervisor_frame
  dsimp only
  split_ifs <;> simp

theorem apply_cruise_frame (env : Env) (s : State) :
    supervisor_frame s (apply_cruise env s) := by
  unfold apply_cruise supervisor_frame cruise_PID_reset
  dsimp only
  split_ifs <;> simp

theorem ecm_select_riding_mode_frame (env : Env) (s : State) :
    supervisor_frame s (ecm_select_riding_mode env s) := by
  unfold ecm_select_riding_mode
  split_ifs
  · exact apply_power_assist_frame env s
  · exact apply_torque_assist_frame env s
  · exact apply_cadence_assist_frame env s
  · exact supervisor_frame_refl s
  · exact apply_walk_assist_frame env s
  · exact apply_cruise_frame env s
  · simp [apply_cadence_sensor_calibration, supervisor_frame]
  · exact supervisor_frame_refl s

theorem apply_throttle_frame (env : Env) (hw : Inputs) (s : State) :
    supervisor_frame s (apply_throttle env hw s) := by
  unfold apply_throttle supervisor_frame
  dsimp only
  split_ifs <;> simp

theorem apply_temperature_limiting_frame (env : Env) (hw : Inputs) (s : State) :
    supervisor_frame s (apply_temperature_limiting env hw s) := by
  unfold apply_temperature_limiting supervisor_frame
  dsimp only
  split_ifs <;> simp

theorem ecm_select_optional_ADC_function_frame (env : Env) (hw : Inputs) (s : State) :
    supervisor_frame s (ecm_select_optional_ADC_function env hw s) := by
  unfold ecm_select_optional_ADC_function
  split_ifs
  · exact apply_throttle_frame env hw s
  · exact apply_temperature_limiting_frame env hw s
  · exact supervisor_frame_refl s

theorem apply_speed_limit_frame (env : Env) (s : State) :
    supervisor_frame s (apply_speed_limit env s) := by
  unfold apply_speed_limit supervisor_frame
  split_ifs <;> simp

theorem ecm_mode_and_modulators_frame (env : Env) (hw : Inputs) (s : State) :
    supervisor_frame s (ecm_mode_and_modulators env hw s) := by
  unfold ecm_mode_and_modulators
  refine supervisor_frame_trans ?_ (apply_speed_limit_frame _ _)
  refine supervisor_frame_trans ?_ (ecm_select_optional_ADC_function_frame _ _ _)
  refine supervisor_frame_trans ?_ (ecm_select_riding_mode_frame _ _)
  simp [ecm_reset_control_variables, supervisor_frame]

theorem ecm_force_target_current_frame (env : Env) (s : State) :
    supervisor_frame s (ecm_force_target_current env s) := by
  unfold ecm_force_target_current supervisor_frame
  split_ifs <;> simp

theorem ecm_before_latch_frame (env : Env) (hw : Inputs) (s : State) :
    supervisor_frame s (ecm_before_latch env hw s) := by
  unfold ecm_before_latch
  exact supervisor_frame_trans (ecm_mode_and_modulators_frame _ _ _)
    (ecm_force_target_current_frame _ _)

/-! ## The brake/error override, the latch and the final clamps -/

theorem ecm_before_latch_target_zero (env : Env) (hw : Inputs) (s : State)
    (h : s.ui8_brakes_enabled ≠ 0 ∨ s.ui8_system_state ≠ env.NO_ERROR) :
    (ecm_before_latch env hw s).ui8_adc_battery_current_target = 0 := by
  obtain ⟨hb, hs, -⟩ := ecm_mode_and_modulators_frame env hw s
  unfold ecm_before_latch ecm_force_target_current
  rw [hb, hs, if_pos h]

theorem ecm_after_latch_target (env : Env) (hw : Inputs) (s : State) :
    (ecm_after_latch env hw s).ui8_adc_battery_current_target =
      (ecm_before_latch env hw s).ui8_adc_battery_current_target := by
  unfold ecm_after_latch ecm_check_disable_motor ecm_check_enable_motor
  split_ifs <;> rfl

theorem ecm_after_latch_brakes (env : Env) (hw : Inputs) (s : State) :
    (ecm_after_latch env hw s).ui8_brakes_enabled = s.ui8_brakes_enabled := by
  obtain ⟨hb, -⟩ := ecm_before_latch_frame env hw s
  rw [← hb]
  unfold ecm_after_latch ecm_check_disable_motor ecm_check_enable_motor
  split_ifs <;> rfl

theorem ecm_after_latch_current_max (env : Env) (hw : Inputs) (s : State) :
    (ecm_after_latch env hw s).ui8_adc_battery_current_max = s.ui8_adc_battery_current_max := by
  obtain ⟨-, -, -, -, -, hm, -⟩ := ecm_before_latch_frame env hw s
  rw [← hm]
  unfold ecm_after_latch ecm_check_disable_motor ecm_check_enable_motor
  split_ifs <;> rfl

theorem limit_max_current_spec (env : Env) (s : State) :
    (limit_max_current env s).ui8_adc_battery_current_max ≤ env.ADC_10_BIT_BATTERY_CURRENT_MAX ∧
    (limit_max_current env s).ui8_adc_battery_current_max ≤ s.ui8_adc_battery_current_max ∧
    (limit_max_current env s).ui8_adc_battery_current_target = s.ui8_adc_battery_current_target ∧
    (limit_max_current env s).ui8_duty_cycle_target = s.ui8_duty_cycle_target ∧
    (limit_max_current env s).ui16_duty_cycle_ramp_up_inverse_step =
      s.ui16_duty_cycle_ramp_up_inverse_step ∧
    (limit_max_current env s).ui16_duty_cycle_ramp_down_inverse_step =
      s.ui16_duty_cycle_ramp_down_inverse_step := by
  unfold limit_max_current
  split_ifs with h
  · refine ⟨Nat.mod_le _ _, le_trans (Nat.mod_le _ _) (le_of_lt h), rfl, rfl, rfl, rfl⟩
  · exact ⟨not_lt.mp h, le_refl _, rfl, rfl, rfl, rfl⟩

theorem limit_target_current_spec (s : State) :
    (limit_target_current s).ui8_adc_battery_current_max = s.ui8_adc_battery_current_max ∧
    (limit_target_current s).ui8_adc_battery_current_target ≤ s.ui8_adc_battery_current_max ∧
    (limit_target_current s).ui8_adc_battery_current_target ≤ s.ui8_adc_battery_current_target ∧
    (limit_target_current s).ui8_duty_cycle_target = s.ui8_duty_cycle_target ∧
    (limit_target_current s).ui16_duty_cycle_ramp_up_inverse_step =
      s.ui16_duty_cycle_ramp_up_inverse_step ∧
    (limit_target_current s).ui16_duty_cycle_ramp_down_inverse_step =
      s.ui16_duty_cycle_ramp_down_inverse_step := by
  unfold limit_target_current
  split_ifs with h
  · exact ⟨rfl, le_refl _, le_of_lt h, rfl, rfl, rfl⟩
  · exact ⟨rfl, not_lt.mp h, le_refl _, rfl, rfl, rfl⟩

theorem limit_target_duty_cycle_spec (env : Env) (s : State) :
    (limit_target_duty_cycle env s).ui8_adc_battery_current_max = s.ui8_adc_battery_current_max ∧
    (limit_target_duty_cycle env s).ui8_adc_battery_current_target =
      s.ui8_adc_battery_current_target ∧
    (limit_target_duty_cycle env s).ui8_duty_cycle_target ≤ env.PWM_DUTY_CYCLE_MAX ∧
    (limit_target_duty_cycle env s).ui8_duty_cycle_target ≤ s.ui8_duty_cycle_target ∧
    (limit_target_duty_cycle env s).ui16_duty_cycle_ramp_up_inverse_step =
      s.ui16_duty_cycle_ramp_up_inverse_step ∧
    (limit_target_duty_cycle env s).ui16_duty_cycle_ramp_down_inverse_step =
      s.ui16_duty_cycle_ramp_down_inverse_step := by
  unfold limit_target_duty_cycle
  split_ifs with h
  · exact ⟨rfl, rfl, Nat.mod_le _ _, le_trans (Nat.mod_le _ _) (le_of_lt h), rfl, rfl⟩
  · exact ⟨rfl, rfl, not_lt.mp h, le_refl _, rfl, rfl⟩

theorem limit_ramp_up_inverse_step_spec (env : Env) (s : State)
    (hmin : env.PWM_DUTY_CYCLE_RAMP_UP_INVERSE_STEP_MIN < 65536) :
    (limit_ramp_up_inverse_step env s).ui8_adc_battery_current_max =
      s.ui8_adc_battery_current_max ∧
    (limit_ramp_up_inverse_step env s).ui8_adc_battery_current_target =
      s.ui8_adc_battery_current_target ∧
    (limit_ramp_up_inverse_step env s).ui8_duty_cycle_target = s.ui8_duty_cycle_target ∧
    env.PWM_DUTY_CYCLE_RAMP_UP_INVERSE_STEP_MIN ≤
      (limit_ramp_up_inverse_step env s).ui16_duty_cycle_ramp_up_inverse_step ∧
    (limit_ramp_up_inverse_step env s).ui16_duty_cycle_ramp_down_inverse_step =
      s.ui16_duty_cycle_ramp_down_inverse_step := by
  unfold limit_ramp_up_inverse_step
  split_ifs with h
  · exact ⟨rfl, rfl, rfl, le_of_eq (Nat.mod_eq_of_lt hmin).symm, rfl⟩
  · exact ⟨rfl, rfl, rfl, not_lt.mp h, rfl⟩

theorem limit_ramp_down_inverse_step_spec (env : Env) (s : State)
    (hmin : env.PWM_DUTY_CYCLE_RAMP_DOWN_INVERSE_STEP_MIN < 65536) :
    (limit_ramp_down_inverse_step env s).ui8_adc_battery_current_max =
      s.ui8_adc_battery_current_max ∧
    (limit_ramp_down_inverse_step env s).ui8_adc_battery_current_target =
      s.ui8_adc_battery_current_target ∧
    (limit_ramp_down_inverse_step env s).ui8_duty_cycle_target = s.ui8_duty_cycle_target ∧
    (limit_ramp_down_inverse_step env s).ui16_duty_cycle_ramp_up_inverse_step =
      s.ui16_duty_cycle_ramp_up_inverse_step ∧
    env.PWM_DUTY_CYCLE_RAMP_DOWN_INVERSE_STEP_MIN ≤
      (limit_ramp_down_inverse_step env s).ui16_duty_cycle_ramp_down_inverse_step := by
  unfold limit_ramp_down_inverse_step
  split_ifs with h
  · exact ⟨rfl, rfl, rfl, rfl, le_of_eq (Nat.mod_eq_of_lt hmin).symm⟩
  · exact ⟨rfl, rfl, rfl, rfl, not_lt.mp h⟩

theorem final_clamps_bounds (env : Env) (s : State)
    (hup : env.PWM_DUTY_CYCLE_RAMP_UP_INVERSE_STEP_MIN < 65536)
    (hdown : env.PWM_DUTY_CYCLE_RAMP_DOWN_INVERSE_STEP_MIN < 65536) :
    (final_clamps env s).ui8_adc_battery_current_target ≤ env.ADC_10_BIT_BATTERY_CURRENT_MAX ∧
    (final_clamps env s).ui8_adc_battery_current_target ≤
      (final_clamps env s).ui8_adc_battery_current_max ∧
    (final_clamps env s).ui8_adc_battery_current_target ≤ s.ui8_adc_battery_current_max ∧
    (final_clamps env s).ui8_duty_cycle_target ≤ env.PWM_DUTY_CYCLE_MAX ∧
    env.PWM_DUTY_CYCLE_RAMP_UP_INVERSE_STEP_MIN ≤
      (final_clamps env s).ui16_duty_cycle_ramp_up_inverse_step ∧
    env.PWM_DUTY_CYCLE_RAMP_DOWN_INVERSE_STEP_MIN ≤
      (final_clamps env s).ui16_duty_cycle_ramp_down_inverse_step := by
  unfold final_clamps
  obtain ⟨a1, a2, -, -, -, -⟩ := limit_max_current_spec env s
  obtain ⟨b1, b2, -, -, -, -⟩ := limit_target_current_spec (limit_max_current env s)
  obtain ⟨c1, c2, c3, -, -, -⟩ :=
    limit_target_duty_cycle_spec env (limit_target_current (limit_max_current env s))
  obtain ⟨d1, d2, d3, d4, -⟩ := limit_ramp_up_inverse_step_spec env
    (limit_target_duty_cycle env (limit_target_current (limit_max_current env s))) hup
  obtain ⟨e1, e2, e3, e4, e5⟩ := limit_ramp_down_inverse_step_spec env
    (limit_ramp_up_inverse_step env
      (limit_target_duty_cycle env (limit_target_current (limit_max_current env s)))) hdown
  rw [e1, e2, e3, e4, d1, d2, d3, c1, c2, b1]
  exact ⟨le_trans b2 a1, b2, le_trans b2 a2, c3, d4, e5⟩

theorem final_clamps_target_zero (env : Env) (s : State)
    (h : s.ui8_adc_battery_current_target = 0) :
    (final_clamps env s).ui8_adc_battery_current_target = 0 := by
  unfold final_clamps
  obtain ⟨-, -, a3, -, -, -⟩ := limit_max_current_spec env s
  obtain ⟨-, -, b3, -, -, -⟩ := limit_target_current_spec (limit_max_current env s)
  obtain ⟨-, c2, -, -, -, -⟩ :=
    limit_target_duty_cycle_spec env (limit_target_current (limit_max_current env s))
  have d2 : (limit_ramp_up_inverse_step env
      (limit_target_duty_cycle env (limit_target_current (limit_max_current env s)))
      ).ui8_adc_battery_current_target =
      (limit_target_duty_cycle env (limit_target_current (limit_max_current env s))
      ).ui8_adc_battery_current_target := by
    unfold limit_ramp_up_inverse_step; split_ifs <;> rfl
  have e2 : (limit_ramp_down_inverse_step env (limit_ramp_up_inverse_step env
      (limit_target_duty_cycle env (limit_target_current (limit_max_current env s))))
      ).ui8_adc_battery_current_target =
      (limit_ramp_up_inverse_step env
      (limit_target_duty_cycle env (limit_target_current (limit_max_current env s)))
      ).ui8_adc_battery_current_target := by
    unfold limit_ramp_down_inverse_step; split_ifs <;> rfl
  rw [e2, d2, c2]
  rw [a3, h] at b3
  exact Nat.le_zero.mp b3

theorem ecm_set_control_parameters_target_zero (env : Env) (s : State)
    (h : s.ui8_adc_battery_current_target = 0) :
    (ecm_set_control_parameters env s).ui8_adc_battery_current_target = 0 ∧
    (ecm_set_control_parameters env s).ui8_controller_adc_battery_current_target = 0 := by
  unfold ecm_set_control_parameters
  split_ifs
  · exact ⟨final_clamps_target_zero env s h, final_clamps_target_zero env s h⟩
  · exact ⟨h, rfl⟩

theorem check_brakes_system_state (hw : Inputs) (s : State) :
    (check_brakes hw s).ui8_system_state = s.ui8_system_state := rfl

theorem ecm_error_target_zero (env : Env) (hw : Inputs) (s : State)
    (h : s.ui8_brakes_enabled ≠ 0 ∨ s.ui8_system_state ≠ env.NO_ERROR) :
    (ebike_control_motor env hw s).ui8_adc_battery_current_target = 0 ∧
    (ebike_control_motor env hw s).ui8_controller_adc_battery_current_target = 0 := by
  unfold ebike_control_motor
  apply ecm_set_control_parameters_target_zero
  rw [ecm_after_latch_target]
  exact ecm_before_latch_target_zero env hw s h

/-- C1: if the brake is engaged or `ui8_system_state` is not `NO_ERROR` when
`ebike_control_motor` is called, then after the call both
`ui8_adc_battery_current_target` and the target handed to the motor driver,
`ui8_controller_adc_battery_current_target`, are 0 (for every riding mode, mode
parameter, sensor value, optional ADC function, motor-enabled flag and motor
speed). -/
theorem brake_or_error_forces_current_target_zero (env : Env) (hw : Inputs) (s : State)
    (h : s.ui8_brakes_enabled ≠ 0 ∨ s.ui8_system_state ≠ env.NO_ERROR) :
    (ebike_control_motor env hw s).ui8_adc_battery_current_target = 0 ∧
    (ebike_control_motor env hw s).ui8_controller_adc_battery_current_target = 0 :=
  ecm_error_target_zero env hw s h

/-- Witness for C1: the brake is engaged while the calibration mode asks for a
current target of 5. -/
theorem brake_or_error_forces_current_target_zero_witness :
    (braking_state.ui8_brakes_enabled ≠ 0 ∨
      braking_state.ui8_system_state ≠ sample_env.NO_ERROR) ∧
    (ecm_mode_and_modulators sample_env idle_inputs
      braking_state).ui8_adc_battery_current_target = 5 ∧
    (ebike_control_motor sample_env idle_inputs braking_state).ui8_adc_battery_current_target
      = 0 ∧
    (ebike_control_motor sample_env idle_inputs
      braking_state).ui8_controller_adc_battery_current_target = 0 :=
  ⟨Or.inl (by decide), by decide,
    brake_or_error_forces_current_target_zero sample_env idle_inputs braking_state
      (Or.inl (by decide))⟩

theorem latch_frame_trans {s t r : State} (h1 : latch_frame s t) (h2 : latch_frame t r) :
    latch_frame s r := by
  obtain ⟨a1, a2, a3⟩ := h1
  obtain ⟨b1, b2, b3⟩ := h2
  exact ⟨b1.trans a1, b2.trans a2, b3.trans a3⟩

theorem limit_max_current_latch (env : Env) (s : State) :
    latch_frame s (limit_max_current env s) := by
  unfold limit_max_current; split_ifs <;> exact ⟨rfl, rfl, rfl⟩

theorem limit_target_current_latch (s : State) : latch_frame s (limit_target_current s) := by
  unfold limit_target_current; split_ifs <;> exact ⟨rfl, rfl, rfl⟩

theorem limit_target_duty_cycle_latch (env : Env) (s : State) :
    latch_frame s (limit_target_duty_cycle env s) := by
  unfold limit_target_duty_cycle; split_ifs <;> exact ⟨rfl, rfl, rfl⟩

theorem limit_ramp_up_inverse_step_latch (env : Env) (s : State) :
    latch_frame s (limit_ramp_up_inverse_step env s) := by
  unfold limit_ramp_up_inverse_step; split_ifs <;> exact ⟨rfl, rfl, rfl⟩

theorem limit_ramp_down_inverse_step_latch (env : Env) (s : State) :
    latch_frame s (limit_ramp_down_inverse_step env s) := by
  unfold limit_ramp_down_inverse_step; split_ifs <;> exact ⟨rfl, rfl, rfl⟩

theorem final_clamps_latch (env : Env) (s : State) : latch_frame s (final_clamps env s) := by
  unfold final_clamps
  exact latch_frame_trans (limit_max_current_latch env s)
    (latch_frame_trans (limit_target_current_latch _)
      (latch_frame_trans (limit_target_duty_cycle_latch env _)
        (latch_frame_trans (limit_ramp_up_inverse_step_latch env _)
          (limit_ramp_down_inverse_step_latch env _))))

theorem ecm_set_control_parameters_latch (env : Env) (s : State) :
    (ecm_set_control_parameters env s).ui8_motor_enabled = s.ui8_motor_enabled ∧
    (ecm_set_control_parameters env s).motor_pwm_calls = s.motor_pwm_calls ∧
    (ecm_set_control_parameters env s).ui8_brakes_enabled = s.ui8_brakes_enabled := by
  unfold ecm_set_control_parameters
  split_ifs
  · exact final_clamps_latch env s
  · exact ⟨rfl, rfl, rfl⟩

/-- C2: the values handed to the motor driver by `ebike_control_motor`.  If
after the latch step the motor is enabled and the brake is off, the current
target is at most `ADC_10_BIT_BATTERY_CURRENT_MAX` and at most
`ui8_adc_battery_current_max` (its value after and before the call), the
duty-cycle target is at most `PWM_DUTY_CYCLE_MAX` and the two ramp steps are at
least their `MIN` constants.  Otherwise both targets are 0, the ramp steps
equal their `DEFAULT` constants and `ui8_g_duty_cycle` is 0.  The four ramp
constants are assumed to fit the 16-bit variables that hold them. -/
theorem control_outputs_postcondition (env : Env) (hw : Inputs) (s : State)
    (hup : env.PWM_DUTY_CYCLE_RAMP_UP_INVERSE_STEP_MIN < 65536)
    (hdown : env.PWM_DUTY_CYCLE_RAMP_DOWN_INVERSE_STEP_MIN < 65536)
    (hupd : env.PWM_DUTY_CYCLE_RAMP_UP_INVERSE_STEP_DEFAULT < 65536)
    (hdownd : env.PWM_DUTY_CYCLE_RAMP_DOWN_INVERSE_STEP_DEFAULT < 65536) :
    ((ecm_after_latch env hw s).ui8_motor_enabled ≠ 0 ∧
        (ecm_after_latch env hw s).ui8_brakes_enabled = 0 →
      (ebike_control_motor env hw s).ui8_controller_adc_battery_current_target
        ≤ env.ADC_10_BIT_BATTERY_CURRENT_MAX ∧
      (ebike_control_motor env hw s).ui8_controller_adc_battery_current_target
        ≤ (ebike_control_motor env hw s).ui8_adc_battery_current_max ∧
      (ebike_control_motor env hw s).ui8_controller_adc_battery_current_target
        ≤ s.ui8_adc_battery_current_max ∧
      (ebike_control_motor env hw s).ui8_controller_duty_cycle_target
        ≤ env.PWM_DUTY_CYCLE_MAX ∧
      env.PWM_DUTY_CYCLE_RAMP_UP_INVERSE_STEP_MIN
        ≤ (ebike_control_motor env hw s).ui16_controller_duty_cycle_ramp_up_inverse_step ∧
      env.PWM_DUTY_CYCLE_RAMP_DOWN_INVERSE_STEP_MIN
        ≤ (ebike_control_motor env hw s).ui16_controller_duty_cycle_ramp_down_inverse_step) ∧
    (¬ ((ecm_after_latch env hw s).ui8_motor_enabled ≠ 0 ∧
        (ecm_after_latch env hw s).ui8_brakes_enabled = 0) →
      (ebike_control_motor env hw s).ui8_controller_adc_battery_current_target = 0 ∧
      (ebike_control_motor env hw s).ui8_controller_duty_cycle_target = 0 ∧
      (ebike_control_motor env hw s).ui16_controller_duty_cycle_ramp_up_inverse_step
        = env.PWM_DUTY_CYCLE_RAMP_UP_INVERSE_STEP_DEFAULT ∧
      (ebike_control_motor env hw s).ui16_controller_duty_cycle_ramp_down_inverse_step
        = env.PWM_DUTY_CYCLE_RAMP_DOWN_INVERSE_STEP_DEFAULT ∧
      (ebike_control_motor env hw s).ui8_g_duty_cycle = 0) := by
  unfold ebike_control_motor ecm_set_control_parameters
  constructor
  · intro h
    rw [if_pos h]
    obtain ⟨b1, b2, b3, b4, b5, b6⟩ := final_clamps_bounds env (ecm_after_latch env hw s) hup hdown
    rw [ecm_after_latch_current_max] at b3
    exact ⟨b1, b2, b3, b4, b5, b6⟩
  · intro h
    rw [if_neg h]
    exact ⟨rfl, rfl, Nat.mod_eq_of_lt hupd, Nat.mod_eq_of_lt hdownd, rfl⟩

/-- Witness for C2: the throttle fully opened from the power-on state; the
motor is enabled by the latch and the brake is off. -/
theorem control_outputs_postcondition_witness :
    sample_env.PWM_DUTY_CYCLE_RAMP_UP_INVERSE_STEP_MIN < 65536 ∧
    sample_env.PWM_DUTY_CYCLE_RAMP_DOWN_INVERSE_STEP_MIN < 65536 ∧
    sample_env.PWM_DUTY_CYCLE_RAMP_UP_INVERSE_STEP_DEFAULT < 65536 ∧
    sample_env.PWM_DUTY_CYCLE_RAMP_DOWN_INVERSE_STEP_DEFAULT < 65536 ∧
    ((ecm_after_latch sample_env full_throttle throttle_state).ui8_motor_enabled ≠ 0 ∧
      (ecm_after_latch sample_env full_throttle throttle_state).ui8_brakes_enabled = 0) ∧
    (ebike_control_motor sample_env full_throttle
        throttle_state).ui8_controller_adc_battery_current_target
      ≤ sample_env.ADC_10_BIT_BATTERY_CURRENT_MAX ∧
    (ebike_control_motor sample_env full_throttle
        throttle_state).ui8_controller_adc_battery_current_target
      ≤ (ebike_control_motor sample_env full_throttle throttle_state).ui8_adc_battery_current_max ∧
    (ebike_control_motor sample_env full_throttle
        throttle_state).ui8_controller_adc_battery_current_target
      ≤ throttle_state.ui8_adc_battery_current_max ∧
    (ebike_control_motor sample_env full_throttle
        throttle_state).ui8_controller_duty_cycle_target ≤ sample_env.PWM_DUTY_CYCLE_MAX ∧
    sample_env.PWM_DUTY_CYCLE_RAMP_UP_INVERSE_STEP_MIN
      ≤ (ebike_control_motor sample_env full_throttle
        throttle_state).ui16_controller_duty_cycle_ramp_up_inverse_step ∧
    sample_env.PWM_DUTY_CYCLE_RAMP_DOWN_INVERSE_STEP_MIN
      ≤ (ebike_control_motor sample_env full_throttle
        throttle_state).ui16_controller_duty_cycle_ramp_down_inverse_step :=
  ⟨by decide, by decide, by decide, by decide, by decide,
    (control_outputs_postcondition sample_env full_throttle throttle_state
      (by decide) (by decide) (by decide) (by decide)).1 (by decide)⟩

/-- C3: the enable/disable latch of `ebike_control_motor`.  With `T` the
current target after the brake/error override (`ecm_before_latch`):
`ui8_motor_enabled` goes from 0 to 1 iff at that point the motor is disabled,
the motor speed is 0 and `T > 0`; it goes from nonzero to 0 iff the motor is
enabled, the speed is 0, `T = 0` and `ui8_g_duty_cycle = 0`; in every other case
the flag is unchanged; and one call makes at most one of the calls
`motor_enable_pwm`, `motor_disable_pwm`. -/
theorem motor_enable_latch (env : Env) (hw : Inputs) (s : State) :
    ((s.ui8_motor_enabled = 0 ∧ (ebike_control_motor env hw s).ui8_motor_enabled = 1) ↔
      ((ecm_before_latch env hw s).ui8_motor_enabled = 0 ∧ hw.motor_speed_erps = 0 ∧
        0 < (ecm_before_latch env hw s).ui8_adc_battery_current_target)) ∧
    ((s.ui8_motor_enabled ≠ 0 ∧ (ebike_control_motor env hw s).ui8_motor_enabled = 0) ↔
      ((ecm_before_latch env hw s).ui8_motor_enabled ≠ 0 ∧ hw.motor_speed_erps = 0 ∧
        (ecm_before_latch env hw s).ui8_adc_battery_current_target = 0 ∧
        (ecm_before_latch env hw s).ui8_g_duty_cycle = 0)) ∧
    (¬ ((ecm_before_latch env hw s).ui8_motor_enabled = 0 ∧ hw.motor_speed_erps = 0 ∧
          0 < (ecm_before_latch env hw s).ui8_adc_battery_current_target) →
      ¬ ((ecm_before_latch env hw s).ui8_motor_enabled ≠ 0 ∧ hw.motor_speed_erps = 0 ∧
          (ecm_before_latch env hw s).ui8_adc_battery_current_target = 0 ∧
          (ecm_before_latch env hw s).ui8_g_duty_cycle = 0) →
      (ebike_control_motor env hw s).ui8_motor_enabled = s.ui8_motor_enabled) ∧
    ((ebike_control_motor env hw s).motor_pwm_calls = s.motor_pwm_calls ∨
      (ebike_control_motor env hw s).motor_pwm_calls = s.motor_pwm_calls ++ [true] ∨
      (ebike_control_motor env hw s).motor_pwm_calls = s.motor_pwm_calls ++ [false]) := by
  obtain ⟨he, hp, -⟩ := ecm_set_control_parameters_latch env (ecm_after_latch env hw s)
  obtain ⟨-, -, hm, hd, -, -, hc⟩ := ecm_before_latch_frame env hw s
  unfold ebike_control_motor
  rw [he, hp]
  unfold ecm_after_latch
  generalize ecm_before_latch env hw s = b at hm hd hc ⊢
  rw [← hm, ← hc]
  unfold ecm_check_disable_motor ecm_check_enable_motor
  by_cases h1 : b.ui8_motor_enabled = 0 <;> by_cases h2 : hw.motor_speed_erps = 0 <;>
    by_cases h3 : b.ui8_adc_battery_current_target = 0 <;>
    by_cases h4 : b.ui8_g_duty_cycle = 0 <;>
    simp [h1, h2, h3, h4, Nat.pos_iff_ne_zero]

/-! ## Frame lemmas for the tick prefix and the protocol engine -/

theorem protocol_frame_refl (s : State) : protocol_frame s s :=
  ⟨rfl, rfl, rfl, rfl, rfl, rfl, rfl, rfl, rfl, rfl, rfl⟩

theorem protocol_frame_trans {s t r : State} (h1 : protocol_frame s t)
    (h2 : protocol_frame t r) : protocol_frame s r := by
  obtain ⟨a1, a2, a3, a4, a5, a6, a7, a8, a9, a10, a11⟩ := h1
  obtain ⟨b1, b2, b3, b4, b5, b6, b7, b8, b9, b10, b11⟩ := h2
  exact ⟨b1.trans a1, b2.trans a2, b3.trans a3, b4.trans a4, b5.trans a5, b6.trans a6,
    b7.trans a7, b8.trans a8, b9.trans a9, b10.trans a10, b11.trans a11⟩

theorem get_battery_voltage_filtered_protocol_frame (env : Env) (s : State) :
    protocol_frame s (get_battery_voltage_filtered env s) :=
  ⟨rfl, rfl, rfl, rfl, rfl, rfl, rfl, rfl, rfl, rfl, rfl⟩

theorem get_battery_current_filtered_protocol_frame (env : Env) (s : State) :
    protocol_frame s (get_battery_current_filtered env s) :=
  ⟨rfl, rfl, rfl, rfl, rfl, rfl, rfl, rfl, rfl, rfl, rfl⟩

theorem get_adc_pedal_torque_protocol_frame (hw : Inputs) (s : State) :
    protocol_frame s (get_adc_pedal_torque hw s) := by
  unfold get_adc_pedal_torque
  dsimp only
  split_ifs <;> exact ⟨rfl, rfl, rfl, rfl, rfl, rfl, rfl, rfl, rfl, rfl, rfl⟩

theorem calc_wheel_speed_protocol_frame (env : Env) (s : State) :
    protocol_frame s (calc_wheel_speed env s) := by
  unfold calc_wheel_speed
  split_ifs <;> exact ⟨rfl, rfl, rfl, rfl, rfl, rfl, rfl, rfl, rfl, rfl, rfl⟩

theorem calc_cadence_protocol_frame (env : Env) (s : State) :
    protocol_frame s (calc_cadence env s) := by
  unfold calc_cadence
  dsimp only
  split_ifs <;> exact ⟨rfl, rfl, rfl, rfl, rfl, rfl, rfl, rfl, rfl, rfl, rfl⟩

theorem calc_crank_power_protocol_frame (s : State) :
    protocol_frame s (calc_crank_power s) :=
  ⟨rfl, rfl, rfl, rfl, rfl, rfl, rfl, rfl, rfl, rfl, rfl⟩

theorem check_motor_blocked_protocol_frame (env : Env) (hw : Inputs) (s : State) :
    protocol_frame s (check_motor_blocked env hw s) := by
  unfold check_motor_blocked
  dsimp only
  split_ifs <;> exact ⟨rfl, rfl, rfl, rfl, rfl, rfl, rfl, rfl, rfl, rfl, rfl⟩

theorem check_torque_sensor_protocol_frame (env : Env) (s : State) :
    protocol_frame s (check_torque_sensor env s) := by
  unfold check_torque_sensor
  split_ifs <;> exact ⟨rfl, rfl, rfl, rfl, rfl, rfl, rfl, rfl, rfl, rfl, rfl⟩

theorem check_brakes_protocol_frame (hw : Inputs) (s : State) :
    protocol_frame s (check_brakes hw s) :=
  ⟨rfl, rfl, rfl, rfl, rfl, rfl, rfl, rfl, rfl, rfl, rfl⟩

theorem eac_read_sensors_protocol_frame (env : Env) (hw : Inputs) (s : State) :
    protocol_frame s (eac_read_sensors env hw s) := by
  unfold eac_read_sensors
  exact protocol_frame_trans (get_battery_voltage_filtered_protocol_frame env s)
    (protocol_frame_trans (get_battery_current_filtered_protocol_frame env _)
      (protocol_frame_trans (get_adc_pedal_torque_protocol_frame hw _)
        (protocol_frame_trans (calc_wheel_speed_protocol_frame env _)
          (protocol_frame_trans (calc_cadence_protocol_frame env _)
            (calc_crank_power_protocol_frame _)))))

theorem eac_before_communications_protocol_frame (env : Env) (hw : Inputs) (s : State) :
    protocol_frame s (eac_before_communications env hw s) := by
  unfold eac_before_communications check_system
  exact protocol_frame_trans (eac_read_sensors_protocol_frame env hw s)
    (protocol_frame_trans (check_motor_blocked_protocol_frame env hw _)
      (protocol_frame_trans (check_torque_sensor_protocol_frame env _)
        (check_brakes_protocol_frame hw _)))

theorem uart_send_package_protocol_frame (env : Env) (hw : Inputs) (s : State) :
    protocol_frame s (uart_send_package env hw s) :=
  ⟨rfl, rfl, rfl, rfl, rfl, rfl, rfl, rfl, rfl, rfl, rfl⟩

theorem uart_receive_package_mismatch (env : Env) (s : State)
    (h : s.ui8_received_package_flag = 0 ∨ ¬ rx_crc_is_correct env s) :
    protocol_frame s (uart_receive_package env s) := by
  unfold uart_receive_package
  dsimp only
  split_ifs with h1 h2
  · rcases h with h | h
    · exact absurd h h1
    · exact absurd h2 h
  · exact ⟨rfl, rfl, rfl, rfl, rfl, rfl, rfl, rfl, rfl, rfl, rfl⟩
  · exact protocol_frame_refl s

theorem rx_message_fields_supervisor (env : Env) (s : State) :
    (rx_message_fields env s).ui8_system_state = s.ui8_system_state ∧
    (rx_message_fields env s).ui8_brakes_enabled = s.ui8_brakes_enabled := by
  unfold rx_message_fields
  dsimp only
  split <;> exact ⟨rfl, rfl⟩

theorem rx_read_package_supervisor (env : Env) (s : State) :
    (rx_read_package env s).ui8_system_state = s.ui8_system_state ∧
    (rx_read_package env s).ui8_brakes_enabled = s.ui8_brakes_enabled := by
  unfold rx_read_package
  dsimp only
  exact rx_message_fields_supervisor env _

theorem uart_receive_package_supervisor (env : Env) (s : State) :
    (uart_receive_package env s).ui8_system_state = s.ui8_system_state ∧
    (uart_receive_package env s).ui8_brakes_enabled = s.ui8_brakes_enabled := by
  unfold uart_receive_package
  dsimp only
  split_ifs
  · exact rx_read_package_supervisor env _
  · exact ⟨rfl, rfl⟩
  · exact ⟨rfl, rfl⟩

theorem communications_controller_supervisor (env : Env) (hw : Inputs) (s : State) :
    (communications_controller env hw s).ui8_system_state = s.ui8_system_state ∧
    (communications_controller env hw s).ui8_brakes_enabled = s.ui8_brakes_enabled := by
  unfold communications_controller
  exact uart_receive_package_supervisor env _

theorem communications_controller_mismatch (env : Env) (hw : Inputs) (s : State)
    (h : s.ui8_received_package_flag = 0 ∨ ¬ rx_crc_is_correct env s) :
    protocol_frame { s with ui8_riding_mode := u8 env.OFF_MODE }
      (communications_controller env hw s) := by
  unfold communications_controller
  exact protocol_frame_trans (uart_receive_package_mismatch env _ h)
    (uart_send_package_protocol_frame env hw _)

theorem le16_eq (buf : Nat → Nat) (i : Nat) (h0 : buf i < 256) (h1 : buf (i + 1) < 256) :
    le16 buf i = buf i + 256 * buf (i + 1) := by
  unfold le16 u16
  rw [Nat.shiftLeft_eq]
  omega

/-! ## A tick without a valid frame -/

theorem ecm_select_riding_mode_off (env : Env) (s : State) (hoff : off_mode_ok env)
    (h : s.ui8_riding_mode = env.OFF_MODE) : ecm_select_riding_mode env s = s := by
  obtain ⟨-, h1, h2, h3, h4, h5, h6, h7⟩ := hoff
  unfold ecm_select_riding_mode
  rw [h, if_neg h1, if_neg h2, if_neg h3, if_neg h4, if_neg h5, if_neg h6, if_neg h7]

theorem apply_temperature_limiting_zero (env : Env) (hw : Inputs) (s : State)
    (hmap : ∀ x a b, env.map x a b 0 0 = 0) (h : s.ui8_adc_battery_current_target = 0) :
    (apply_temperature_limiting env hw s).ui8_adc_battery_current_target = 0 ∧
    (apply_temperature_limiting env hw s).ui8_duty_cycle_target = s.ui8_duty_cycle_target := by
  unfold apply_temperature_limiting
  dsimp only
  split_ifs
  · exact ⟨rfl, rfl⟩
  · refine ⟨?_, rfl⟩
    dsimp only
    rw [h]
    show u8 (env.map _ _ _ 0 0) = 0
    rw [hmap]
    rfl

theorem apply_speed_limit_zero (env : Env) (s : State)
    (hmap : ∀ x a b, env.map x a b 0 0 = 0) (h : s.ui8_adc_battery_current_target = 0) :
    (apply_speed_limit env s).ui8_adc_battery_current_target = 0 ∧
    (apply_speed_limit env s).ui8_duty_cycle_target = s.ui8_duty_cycle_target := by
  unfold apply_speed_limit
  split_ifs
  · refine ⟨?_, rfl⟩
    dsimp only
    rw [h]
    show u8 (env.map _ _ _ 0 0) = 0
    rw [hmap]
    rfl
  · exact ⟨h, rfl⟩

theorem ecm_select_optional_ADC_function_zero (env : Env) (hw : Inputs) (s : State)
    (hadc : s.m_configuration_variables.ui8_optional_ADC_function ≠ env.THROTTLE_CONTROL)
    (hmap : ∀ x a b, env.map x a b 0 0 = 0) (h : s.ui8_adc_battery_current_target = 0) :
    (ecm_select_optional_ADC_function env hw s).ui8_adc_battery_current_target = 0 ∧
    (ecm_select_optional_ADC_function env hw s).ui8_duty_cycle_target =
      s.ui8_duty_cycle_target := by
  unfold ecm_select_optional_ADC_function
  rw [if_neg hadc]
  split_ifs
  · exact apply_temperature_limiting_zero env hw s hmap h
  · exact ⟨h, rfl⟩

theorem ecm_mode_and_modulators_off (env : Env) (hw : Inputs) (s : State)
    (hoff : off_mode_ok env) (hmode : s.ui8_riding_mode = env.OFF_MODE)
    (hadc : s.m_configuration_variables.ui8_optional_ADC_function ≠ env.THROTTLE_CONTROL)
    (hmap : ∀ x a b, env.map x a b 0 0 = 0) :
    (ecm_mode_and_modulators env hw s).ui8_adc_battery_current_target = 0 ∧
    (ecm_mode_and_modulators env hw s).ui8_duty_cycle_target = 0 := by
  unfold ecm_mode_and_modulators
  rw [ecm_select_riding_mode_off env (ecm_reset_control_variables env s) hoff hmode]
  obtain ⟨a1, a2⟩ := ecm_select_optional_ADC_function_zero env hw
    (ecm_reset_control_variables env s) hadc hmap rfl
  obtain ⟨b1, b2⟩ := apply_speed_limit_zero env
    (ecm_select_optional_ADC_function env hw (ecm_reset_control_variables env s)) hmap a1
  refine ⟨b1, ?_⟩
  rw [b2, a2]
  rfl

theorem ecm_after_latch_duty (env : Env) (hw : Inputs) (s : State) :
    (ecm_after_latch env hw s).ui8_duty_cycle_target =
      (ecm_mode_and_modulators env hw s).ui8_duty_cycle_target := by
  unfold ecm_after_latch ecm_check_disable_motor ecm_check_enable_motor ecm_before_latch
    ecm_force_target_current
  split_ifs <;> rfl

theorem ecm_before_latch_target_of_zero (env : Env) (hw : Inputs) (s : State)
    (h : (ecm_mode_and_modulators env hw s).ui8_adc_battery_current_target = 0) :
    (ecm_before_latch env hw s).ui8_adc_battery_current_target = 0 := by
  unfold ecm_before_latch ecm_force_target_current
  split_ifs
  · rfl
  · exact h

theorem final_clamps_duty_zero (env : Env) (s : State) (h : s.ui8_duty_cycle_target = 0) :
    (final_clamps env s).ui8_duty_cycle_target = 0 := by
  unfold final_clamps
  obtain ⟨-, -, -, a4, -, -⟩ := limit_max_current_spec env s
  obtain ⟨-, -, -, b4, -, -⟩ := limit_target_current_spec (limit_max_current env s)
  obtain ⟨-, -, -, c4, -, -⟩ :=
    limit_target_duty_cycle_spec env (limit_target_current (limit_max_current env s))
  have d3 : (limit_ramp_up_inverse_step env
      (limit_target_duty_cycle env (limit_target_current (limit_max_current env s)))
      ).ui8_duty_cycle_target =
      (limit_target_duty_cycle env (limit_target_current (limit_max_current env s))
      ).ui8_duty_cycle_target := by
    unfold limit_ramp_up_inverse_step; split_ifs <;> rfl
  have e3 : (limit_ramp_down_inverse_step env (limit_ramp_up_inverse_step env
      (limit_target_duty_cycle env (limit_target_current (limit_max_current env s))))
      ).ui8_duty_cycle_target =
      (limit_ramp_up_inverse_step env
      (limit_target_duty_cycle env (limit_target_current (limit_max_current env s)))
      ).ui8_duty_cycle_target := by
    unfold limit_ramp_down_inverse_step; split_ifs <;> rfl
  rw [e3, d3]
  rw [b4, a4, h] at c4
  exact Nat.le_zero.mp c4

theorem ecm_set_control_parameters_duty_zero (env : Env) (s : State)
    (h : s.ui8_duty_cycle_target = 0) :
    (ecm_set_control_parameters env s).ui8_controller_duty_cycle_target = 0 := by
  unfold ecm_set_control_parameters
  split_ifs
  · exact final_clamps_duty_zero env s h
  · rfl

theorem ebike_control_motor_off (env : Env) (hw : Inputs) (s : State)
    (hoff : off_mode_ok env) (hmode : s.ui8_riding_mode = env.OFF_MODE)
    (hadc : s.m_configuration_variables.ui8_optional_ADC_function ≠ env.THROTTLE_CONTROL)
    (hmap : ∀ x a b, env.map x a b 0 0 = 0) :
    (ebike_control_motor env hw s).ui8_controller_adc_battery_current_target = 0 ∧
    (ebike_control_motor env hw s).ui8_controller_duty_cycle_target = 0 := by
  obtain ⟨h1, h2⟩ := ecm_mode_and_modulators_off env hw s hoff hmode hadc hmap
  unfold ebike_control_motor
  constructor
  · refine (ecm_set_control_parameters_target_zero env _ ?_).2
    rw [ecm_after_latch_target]
    exact ecm_before_latch_target_of_zero env hw s h1
  · apply ecm_set_control_parameters_duty_zero
    rw [ecm_after_latch_duty, h2]

theorem rx_crc_is_correct_congr (env : Env) (s t : State)
    (h : t.ui8_rx_buffer = s.ui8_rx_buffer) :
    rx_crc_is_correct env t ↔ rx_crc_is_correct env s := by
  unfold rx_crc_is_correct
  rw [h]

theorem map_clamped_zero (x a b : Nat) : map_clamped x a b 0 0 = 0 := by
  unfold map_clamped
  split_ifs
  · rfl
  · rfl
  · simp [s32, u32, u32_of_int]

theorem check_torque_sensor_fault (env : Env) (s : State)
    (h : torque_sensor_fault_condition env s) :
    (check_torque_sensor env s).ui8_system_state = u8 env.ERROR_TORQUE_SENSOR := by
  unfold check_torque_sensor
  unfold torque_sensor_fault_condition at h
  rw [if_pos h]

theorem check_torque_sensor_no_fault (env : Env) (s : State)
    (h : ¬ torque_sensor_fault_condition env s) :
    (check_torque_sensor env s).ui8_system_state =
      if s.ui8_system_state = env.ERROR_TORQUE_SENSOR then u8 env.NO_ERROR
      else s.ui8_system_state := by
  unfold check_torque_sensor
  unfold torque_sensor_fault_condition at h
  rw [if_neg h]
  split_ifs <;> rfl

theorem torque_sensor_fault_condition_congr (env : Env) (s t : State)
    (h : protocol_frame s t) :
    torque_sensor_fault_condition env t ↔ torque_sensor_fault_condition env s := by
  obtain ⟨-, h2, -, -, -, -, -, -, -, -, h11⟩ := h
  unfold torque_sensor_fault_condition
  rw [h2, h11]

theorem check_system_fault (env : Env) (hw : Inputs) (s : State)
    (h : torque_sensor_fault_condition env s) :
    (check_system env hw s).ui8_system_state = u8 env.ERROR_TORQUE_SENSOR := by
  unfold check_system
  apply check_torque_sensor_fault
  rw [torque_sensor_fault_condition_congr env s _ (check_motor_blocked_protocol_frame env hw s)]
  exact h

/-- What the torque check does achieve: `check_system` reads the riding mode as
the previous tick left it, so a tick that starts with the stored mode equal to
power assist, torque assist or eMTB while the torque calibration offset is below
5 or above 300 hands the motor driver a current target of 0, whatever frame the
tick itself receives. -/
theorem torque_fault_of_stored_mode_blocks_current (env : Env) (hw : Inputs) (s : State)
    (hcodes : error_codes_ok env)
    (hfault : (s.ui16_adc_pedal_torque_offset > 300 ∨ s.ui16_adc_pedal_torque_offset < 5) ∧
      (s.ui8_riding_mode = env.POWER_ASSIST_MODE ∨ s.ui8_riding_mode = env.TORQUE_ASSIST_MODE ∨
        s.ui8_riding_mode = env.eMTB_ASSIST_MODE)) :
    (ebike_app_controller env hw s).ui8_controller_adc_battery_current_target = 0 := by
  obtain ⟨-, -, h3, -, h5, -⟩ := hcodes
  have h1 : (eac_before_communications env hw s).ui8_system_state
      = u8 env.ERROR_TORQUE_SENSOR := by
    unfold eac_before_communications
    rw [check_brakes_system_state]
    apply check_system_fault
    rw [torque_sensor_fault_condition_congr env s _ (eac_read_sensors_protocol_frame env hw s)]
    exact hfault
  obtain ⟨c1, -⟩ := communications_controller_supervisor env hw
    (eac_before_communications env hw s)
  unfold ebike_app_controller
  refine (ecm_error_target_zero env hw _ (Or.inr ?_)).2
  rw [c1, h1]
  unfold u8
  rw [Nat.mod_eq_of_lt h3]
  exact fun h => h5 h.symm

/-- An instance of the previous fact: the stored mode is power assist and the
offset is 0. -/
theorem torque_fault_of_stored_mode_blocks_current_witness :
    error_codes_ok sample_env ∧
    ((stored_power_assist_state.ui16_adc_pedal_torque_offset > 300 ∨
        stored_power_assist_state.ui16_adc_pedal_torque_offset < 5) ∧
      (stored_power_assist_state.ui8_riding_mode = sample_env.POWER_ASSIST_MODE ∨
        stored_power_assist_state.ui8_riding_mode = sample_env.TORQUE_ASSIST_MODE ∨
        stored_power_assist_state.ui8_riding_mode = sample_env.eMTB_ASSIST_MODE)) ∧
    (ebike_app_controller sample_env pedalling
      stored_power_assist_state).ui8_controller_adc_battery_current_target = 0 :=
  ⟨by decide, by decide,
    torque_fault_of_stored_mode_blocks_current sample_env pedalling stored_power_assist_state
      (by decide) (by decide)⟩

/-- The first tick of a power-assist frame: the previous tick ran in `OFF_MODE`,
the torque offset is 0 (below 5) and a frame with a correct CRC selects power
assist; `check_system` has run before the frame is read, the state stays
`NO_ERROR` and the tick hands the motor driver a current target of 106. -/
theorem torque_fault_first_tick_counterexample :
    power_frame_state.ui8_received_package_flag ≠ 0 ∧
    rx_crc_is_correct sample_env power_frame_state ∧
    power_frame_state.ui8_rx_buffer 2 = sample_env.POWER_ASSIST_MODE ∧
    power_frame_state.ui16_adc_pedal_torque_offset < 5 ∧
    (ebike_app_controller sample_env pedalling power_frame_state).ui8_riding_mode
      = sample_env.POWER_ASSIST_MODE ∧
    (ebike_app_controller sample_env pedalling power_frame_state).ui8_system_state
      = sample_env.NO_ERROR ∧
    (ebike_app_controller sample_env pedalling
      power_frame_state).ui8_controller_adc_battery_current_target = 106 := by
  decide

/-! ## Motor-blocked detector -/

theorem check_torque_sensor_detector (env : Env) (s : State) :
    (check_torque_sensor env s).ui8_motor_blocked_counter = s.ui8_motor_blocked_counter ∧
    (check_torque_sensor env s).ui8_motor_blocked_reset_counter
      = s.ui8_motor_blocked_reset_counter ∧
    (check_torque_sensor env s).ui8_battery_current_filtered_x10
      = s.ui8_battery_current_filtered_x10 := by
  unfold check_torque_sensor
  split_ifs <;> exact ⟨rfl, rfl, rfl⟩

/-- What `check_system` leaves behind when no torque-sensor fault condition
holds and the motor-blocked half has produced the state `m` with a system
state `e` that is not `ERROR_TORQUE_SENSOR`. -/
theorem check_system_of_motor_blocked (env : Env) (hw : Inputs) (s m : State) (e : Nat)
    (hnf : ¬ torque_sensor_fault_condition env s)
    (hm : check_motor_blocked env hw s = m)
    (he : m.ui8_system_state = e) (hne : e ≠ env.ERROR_TORQUE_SENSOR) :
    (check_system env hw s).ui8_system_state = e ∧
    (check_system env hw s).ui8_motor_blocked_counter = m.ui8_motor_blocked_counter ∧
    (check_system env hw s).ui8_motor_blocked_reset_counter
      = m.ui8_motor_blocked_reset_counter ∧
    (check_system env hw s).ui8_battery_current_filtered_x10
      = m.ui8_battery_current_filtered_x10 ∧
    ¬ torque_sensor_fault_condition env (check_system env hw s) := by
  have hnf2 : ¬ torque_sensor_fault_condition env m := by
    rw [← hm, torque_sensor_fault_condition_congr env s _
      (check_motor_blocked_protocol_frame env hw s)]
    exact hnf
  have ht := check_torque_sensor_no_fault env m hnf2
  have hf := check_torque_sensor_protocol_frame env m
  obtain ⟨d1, d2, d3⟩ := check_torque_sensor_detector env m
  have hct : check_system env hw s = check_torque_sensor env m := by
    unfold check_system
    rw [hm]
  rw [hct]
  refine ⟨?_, d1, d2, d3, ?_⟩
  · rw [ht, he, if_neg hne]
  · rw [torque_sensor_fault_condition_congr env _ _ hf]
    exact hnf2

theorem check_system_stall_count (env : Env) (hw : Inputs) (s : State)
    (hcodes : error_codes_ok env)
    (hstate : s.ui8_system_state = env.NO_ERROR)
    (hcur : s.ui8_battery_current_filtered_x10 > 50) (herps : hw.motor_speed_erps < 10)
    (hnf : ¬ torque_sensor_fault_condition env s)
    (hcnt : s.ui8_motor_blocked_counter < 10) :
    (check_system env hw s).ui8_system_state = env.NO_ERROR ∧
    (check_system env hw s).ui8_motor_blocked_counter = s.ui8_motor_blocked_counter + 1 ∧
    (check_system env hw s).ui8_motor_blocked_reset_counter
      = s.ui8_motor_blocked_reset_counter ∧
    (check_system env hw s).ui8_battery_current_filtered_x10
      = s.ui8_battery_current_filtered_x10 ∧
    ¬ torque_sensor_fault_condition env (check_system env hw s) := by
  obtain ⟨-, -, -, c01, c02, -⟩ := hcodes
  have hm : check_motor_blocked env hw s =
      { s with ui8_motor_blocked_counter := u8 (s.ui8_motor_blocked_counter + 1) } := by
    unfold check_motor_blocked
    dsimp only
    rw [if_neg (by rw [hstate]; exact c01), if_pos ⟨hcur, herps⟩, if_neg]
    unfold u8
    omega
  obtain ⟨r1, r2, r3, r4, r5⟩ :=
    check_system_of_motor_blocked env hw s _ env.NO_ERROR hnf hm hstate c02
  refine ⟨r1, ?_, r3, r4, r5⟩
  rw [r2]
  show u8 (s.ui8_motor_blocked_counter + 1) = _
  unfold u8
  omega

theorem check_system_stall_trip (env : Env) (hw : Inputs) (s : State)
    (hcodes : error_codes_ok env)
    (hstate : s.ui8_system_state = env.NO_ERROR)
    (hcur : s.ui8_battery_current_filtered_x10 > 50) (herps : hw.motor_speed_erps < 10)
    (hnf : ¬ torque_sensor_fault_condition env s)
    (hcnt : s.ui8_motor_blocked_counter = 10) :
    (check_system env hw s).ui8_system_state = env.ERROR_MOTOR_BLOCKED ∧
    (check_system env hw s).ui8_motor_blocked_counter = 0 := by
  obtain ⟨-, c1, -, c01, -, c12⟩ := hcodes
  have hm : check_motor_blocked env hw s =
      { s with
        ui8_motor_blocked_counter := 0
        ui8_system_state := u8 env.ERROR_MOTOR_BLOCKED } := by
    unfold check_motor_blocked
    dsimp only
    rw [if_neg (by rw [hstate]; exact c01), if_pos ⟨hcur, herps⟩, if_pos]
    rw [hcnt]
    decide
  obtain ⟨r1, r2, -⟩ :=
    check_system_of_motor_blocked env hw s _ env.ERROR_MOTOR_BLOCKED hnf hm
      (Nat.mod_eq_of_lt c1) c12
  exact ⟨r1, r2⟩

theorem check_system_blocked_count (env : Env) (hw : Inputs) (s : State)
    (hcodes : error_codes_ok env)
    (hstate : s.ui8_system_state = env.ERROR_MOTOR_BLOCKED)
    (hnf : ¬ torque_sensor_fault_condition env s)
    (hcnt : s.ui8_motor_blocked_reset_counter < 100) :
    (check_system env hw s).ui8_system_state = env.ERROR_MOTOR_BLOCKED ∧
    (check_system env hw s).ui8_motor_blocked_reset_counter
      = s.ui8_motor_blocked_reset_counter + 1 ∧
    ¬ torque_sensor_fault_condition env (check_system env hw s) := by
  obtain ⟨-, -, -, -, -, c12⟩ := hcodes
  have hm : check_motor_blocked env hw s =
      { s with
        ui8_motor_blocked_reset_counter := u8 (s.ui8_motor_blocked_reset_counter + 1) } := by
    unfold check_motor_blocked
    dsimp only
    rw [if_pos hstate, if_neg]
    unfold u8
    omega
  obtain ⟨r1, -, r3, -, r5⟩ :=
    check_system_of_motor_blocked env hw s _ env.ERROR_MOTOR_BLOCKED hnf hm hstate c12
  refine ⟨r1, ?_, r5⟩
  rw [r3]
  show u8 (s.ui8_motor_blocked_reset_counter + 1) = _
  unfold u8
  omega

theorem check_system_blocked_clear (env : Env) (hw : Inputs) (s : State)
    (hcodes : error_codes_ok env)
    (hstate : s.ui8_system_state = env.ERROR_MOTOR_BLOCKED)
    (hnf : ¬ torque_sensor_fault_condition env s)
    (hcnt : s.ui8_motor_blocked_reset_counter = 100) :
    (check_system env hw s).ui8_system_state = env.NO_ERROR ∧
    (check_system env hw s).ui8_motor_blocked_reset_counter = 0 := by
  obtain ⟨c0, -, -, -, c02, -⟩ := hcodes
  have hm : check_motor_blocked env hw s =
      { s with
        ui8_motor_blocked_reset_counter := 0
        ui8_system_state := u8 env.NO_ERROR } := by
    unfold check_motor_blocked
    dsimp only
    rw [if_pos hstate, if_pos, if_pos hstate]
    rw [hcnt]
    decide
  obtain ⟨r1, -, r3, -⟩ :=
    check_system_of_motor_blocked env hw s _ env.NO_ERROR hnf hm (Nat.mod_eq_of_lt c0) c02
  exact ⟨r1, r3⟩

theorem check_system_ticks_cons (env : Env) (hw : Inputs) (hws : List Inputs) (s : State) :
    check_system_ticks env (hw :: hws) s = check_system_ticks env hws (check_system env hw s) :=
  rfl

theorem check_system_ticks_append (env : Env) (hws : List Inputs) (hw : Inputs) (s : State) :
    check_system_ticks env (hws ++ [hw]) s = check_system env hw (check_system_ticks env hws s) := by
  unfold check_system_ticks
  rw [List.foldl_append]
  rfl

theorem check_system_ticks_stall (env : Env) (hcodes : error_codes_ok env) (hws : List Inputs) :
    ∀ s : State, s.ui8_system_state = env.NO_ERROR →
      s.ui8_battery_current_filtered_x10 > 50 →
      (∀ hw ∈ hws, hw.motor_speed_erps < 10) →
      ¬ torque_sensor_fault_condition env s →
      s.ui8_motor_blocked_counter + hws.length ≤ 10 →
      (check_system_ticks env hws s).ui8_system_state = env.NO_ERROR ∧
      (check_system_ticks env hws s).ui8_motor_blocked_counter
        = s.ui8_motor_blocked_counter + hws.length ∧
      (check_system_ticks env hws s).ui8_battery_current_filtered_x10
        = s.ui8_battery_current_filtered_x10 ∧
      ¬ torque_sensor_fault_condition env (check_system_ticks env hws s) := by
  induction hws with
  | nil =>
    intro s h1 _ _ h4 _
    exact ⟨h1, rfl, rfl, h4⟩
  | cons hw hws ih =>
    intro s h1 h2 h3 h4 h5
    rw [List.length_cons] at h5
    obtain ⟨r1, r2, -, r4, r5⟩ := check_system_stall_count env hw s hcodes h1 h2
      (h3 hw (List.mem_cons_self _ _)) h4 (by omega)
    rw [check_system_ticks_cons]
    obtain ⟨q1, q2, q3, q4⟩ := ih (check_system env hw s) r1 (by rw [r4]; exact h2)
      (fun x hx => h3 x (List.mem_cons_of_mem _ hx)) r5 (by rw [r2]; omega)
    refine ⟨q1, ?_, ?_, q4⟩
    · rw [q2, r2, List.length_cons]; omega
    · rw [q3, r4]

theorem check_system_ticks_blocked (env : Env) (hcodes : error_codes_ok env)
    (hws : List Inputs) :
    ∀ s : State, s.ui8_system_state = env.ERROR_MOTOR_BLOCKED →
      ¬ torque_sensor_fault_condition env s →
      s.ui8_motor_blocked_reset_counter + hws.length ≤ 100 →
      (check_system_ticks env hws s).ui8_system_state = env.ERROR_MOTOR_BLOCKED ∧
      (check_system_ticks env hws s).ui8_motor_blocked_reset_counter
        = s.ui8_motor_blocked_reset_counter + hws.length ∧
      ¬ torque_sensor_fault_condition env (check_system_ticks env hws s) := by
  induction hws with
  | nil =>
    intro s h1 h4 _
    exact ⟨h1, rfl, h4⟩
  | cons hw hws ih =>
    intro s h1 h4 h5
    rw [List.length_cons] at h5
    obtain ⟨r1, r2, r5⟩ := check_system_blocked_count env hw s hcodes h1 h4 (by omega)
    rw [check_system_ticks_cons]
    obtain ⟨q1, q2, q4⟩ := ih (check_system env hw s) r1 r5 (by rw [r2]; omega)
    refine ⟨q1, ?_, q4⟩
    rw [q2, r2, List.length_cons]; omega

/-- C6 (as amended): from `NO_ERROR` with the motor-blocked counter at 0, a
filtered battery current x10 of 60, a motor speed of 0 ERPS on every tick and
no torque-sensor fault condition, the state is still `NO_ERROR` after 10
consecutive runs of `check_system` and is `ERROR_MOTOR_BLOCKED` after the
11th. -/
theorem motor_blocked_after_eleven_ticks (env : Env) (s : State) (hws : List Inputs)
    (hw : Inputs)
    (hcodes : error_codes_ok env)
    (hstate : s.ui8_system_state = env.NO_ERROR)
    (hcounter : s.ui8_motor_blocked_counter = 0)
    (hcurrent : s.ui8_battery_current_filtered_x10 = 60)
    (hnf : ¬ torque_sensor_fault_condition env s)
    (hlen : hws.length = 10)
    (hspeed : ∀ x ∈ hws, x.motor_speed_erps = 0) (hspeed11 : hw.motor_speed_erps = 0) :
    (check_system_ticks env hws s).ui8_system_state = env.NO_ERROR ∧
    (check_system_ticks env (hws ++ [hw]) s).ui8_system_state = env.ERROR_MOTOR_BLOCKED := by
  obtain ⟨q1, q2, q3, q4⟩ := check_system_ticks_stall env hcodes hws s hstate
    (by rw [hcurrent]; decide) (fun x hx => by rw [hspeed x hx]; decide) hnf
    (by rw [hcounter, hlen])
  refine ⟨q1, ?_⟩
  rw [check_system_ticks_append]
  refine (check_system_stall_trip env hw _ hcodes q1 (by rw [q3, hcurrent]; decide)
    (by rw [hspeed11]; decide) q4 (by rw [q2, hcounter, hlen])).1

/-- Witness for C6 (as amended): the power-on state with a current of 6.0 A and
eleven ticks of idle inputs. -/
theorem motor_blocked_after_eleven_ticks_witness :
    error_codes_ok sample_env ∧
    stalled_state.ui8_system_state = sample_env.NO_ERROR ∧
    stalled_state.ui8_motor_blocked_counter = 0 ∧
    stalled_state.ui8_battery_current_filtered_x10 = 60 ∧
    ¬ torque_sensor_fault_condition sample_env stalled_state ∧
    (List.replicate 10 idle_inputs).length = 10 ∧
    (∀ x ∈ List.replicate 10 idle_inputs, x.motor_speed_erps = 0) ∧
    idle_inputs.motor_speed_erps = 0 ∧
    (check_system_ticks sample_env (List.replicate 10 idle_inputs)
      stalled_state).ui8_system_state = sample_env.NO_ERROR ∧
    (check_system_ticks sample_env (List.replicate 10 idle_inputs ++ [idle_inputs])
      stalled_state).ui8_system_state = sample_env.ERROR_MOTOR_BLOCKED :=
  ⟨by decide, rfl, rfl, rfl, by decide, rfl,
    fun x hx => by rw [List.eq_of_mem_replicate hx]; rfl, rfl,
    motor_blocked_after_eleven_ticks sample_env stalled_state (List.replicate 10 idle_inputs)
      idle_inputs (by decide) rfl rfl rfl (by decide) rfl
      (fun x hx => by rw [List.eq_of_mem_replicate hx]; rfl) rfl⟩

/-- Counterexample to C6 as stated: after 10 consecutive runs of `check_system`
with a current of 6.0 A and the motor at 0 ERPS the state is `NO_ERROR`, not
`ERROR_MOTOR_BLOCKED`; the counter has reached 10 and the test is `> 10`. -/
theorem motor_blocked_after_ten_ticks_counterexample :
    stalled_state.ui8_system_state = sample_env.NO_ERROR ∧
    stalled_state.ui8_motor_blocked_counter = 0 ∧
    stalled_state.ui8_battery_current_filtered_x10 = 60 ∧
    ¬ torque_sensor_fault_condition sample_env stalled_state ∧
    (check_system_ticks sample_env (List.replicate 10 idle_inputs)
      stalled_state).ui8_motor_blocked_counter = 10 ∧
    (check_system_ticks sample_env (List.replicate 10 idle_inputs)
      stalled_state).ui8_system_state ≠ sample_env.ERROR_MOTOR_BLOCKED := by
  decide

/-- C7 (as amended): from the tick at which `check_system` has just set
`ERROR_MOTOR_BLOCKED` (auto-clear counter 0), with no torque-sensor fault
condition, the state is still `ERROR_MOTOR_BLOCKED` after 100 further runs of
`check_system` and is `NO_ERROR` after the 101st, whatever the current and
the motor speed are on these ticks (so also while the stall condition keeps
holding). -/
theorem motor_blocked_clears_after_101_ticks (env : Env) (s : State) (hws : List Inputs)
    (hw : Inputs)
    (hcodes : error_codes_ok env)
    (hstate : s.ui8_system_state = env.ERROR_MOTOR_BLOCKED)
    (hcounter : s.ui8_motor_blocked_reset_counter = 0)
    (hnf : ¬ torque_sensor_fault_condition env s)
    (hlen : hws.length = 100) :
    (check_system_ticks env hws s).ui8_system_state = env.ERROR_MOTOR_BLOCKED ∧
    (check_system_ticks env (hws ++ [hw]) s).ui8_system_state = env.NO_ERROR := by
  obtain ⟨q1, q2, q4⟩ := check_system_ticks_blocked env hcodes hws s hstate hnf
    (by rw [hcounter, hlen])
  refine ⟨q1, ?_⟩
  rw [check_system_ticks_append]
  exact (check_system_blocked_clear env hw _ hcodes q1 q4 (by rw [q2, hcounter, hlen])).1

/-- Witness for C7 (as amended): the blocked state with a current of 6.0 A and
101 ticks at 0 ERPS. -/
theorem motor_blocked_clears_after_101_ticks_witness :
    error_codes_ok sample_env ∧
    blocked_state.ui8_system_state = sample_env.ERROR_MOTOR_BLOCKED ∧
    blocked_state.ui8_motor_blocked_reset_counter = 0 ∧
    ¬ torque_sensor_fault_condition sample_env blocked_state ∧
    (List.replicate 100 idle_inputs).length = 100 ∧
    (check_system_ticks sample_env (List.replicate 100 idle_inputs)
      blocked_state).ui8_system_state = sample_env.ERROR_MOTOR_BLOCKED ∧
    (check_system_ticks sample_env (List.replicate 100 idle_inputs ++ [idle_inputs])
      blocked_state).ui8_system_state = sample_env.NO_ERROR :=
  ⟨by decide, rfl, rfl, by decide, List.length_replicate _ _,
    motor_blocked_clears_after_101_ticks sample_env blocked_state
      (List.replicate 100 idle_inputs) idle_inputs (by decide) rfl rfl (by decide)
      (List.length_replicate _ _)⟩

/-- Counterexample to C7 as stated: 100 runs of `check_system` after the one
that set `ERROR_MOTOR_BLOCKED`, with the stall condition holding throughout
(current 6.0 A, 0 ERPS), leave the state at `ERROR_MOTOR_BLOCKED`; the
auto-clear counter has reached 100 and the test is `> 100`. -/
theorem motor_blocked_clear_after_100_ticks_counterexample :
    blocked_state.ui8_system_state = sample_env.ERROR_MOTOR_BLOCKED ∧
    blocked_state.ui8_motor_blocked_reset_counter = 0 ∧
    blocked_state.ui8_battery_current_filtered_x10 > 50 ∧
    idle_inputs.motor_speed_erps < 10 ∧
    ¬ torque_sensor_fault_condition sample_env blocked_state ∧
    (check_system_ticks sample_env (List.replicate 100 idle_inputs)
      blocked_state).ui8_motor_blocked_reset_counter = 100 ∧
    (check_system_ticks sample_env (List.replicate 100 idle_inputs)
      blocked_state).ui8_system_state ≠ sample_env.NO_ERROR := by
  decide

/-- C8: after `check_system`, for every prior system state and counter values:
if the torque calibration offset is above 300 or below 5 and the stored riding
mode is power assist, torque assist or eMTB, the system state is
`ERROR_TORQUE_SENSOR`; if that condition is false and the state on reaching the
torque check (after the motor-blocked half) was `ERROR_TORQUE_SENSOR`, the
system state is `NO_ERROR`.  The two codes are assumed to fit a `uint8_t`. -/
theorem torque_sensor_check (env : Env) (hw : Inputs) (s : State)
    (hno : env.NO_ERROR < 256) (hts : env.ERROR_TORQUE_SENSOR < 256) :
    (((s.ui16_adc_pedal_torque_offset > 300 ∨ s.ui16_adc_pedal_torque_offset < 5) ∧
        (s.ui8_riding_mode = env.POWER_ASSIST_MODE ∨
          s.ui8_riding_mode = env.TORQUE_ASSIST_MODE ∨
          s.ui8_riding_mode = env.eMTB_ASSIST_MODE)) →
      (check_system env hw s).ui8_system_state = env.ERROR_TORQUE_SENSOR) ∧
    (¬ ((s.ui16_adc_pedal_torque_offset > 300 ∨ s.ui16_adc_pedal_torque_offset < 5) ∧
        (s.ui8_riding_mode = env.POWER_ASSIST_MODE ∨
          s.ui8_riding_mode = env.TORQUE_ASSIST_MODE ∨
          s.ui8_riding_mode = env.eMTB_ASSIST_MODE)) →
      (check_motor_blocked env hw s).ui8_system_state = env.ERROR_TORQUE_SENSOR →
      (check_system env hw s).ui8_system_state = env.NO_ERROR) := by
  constructor
  · intro h
    rw [check_system_fault env hw s h]
    exact Nat.mod_eq_of_lt hts
  · intro h hprev
    have hnf2 : ¬ torque_sensor_fault_condition env (check_motor_blocked env hw s) := by
      rw [torque_sensor_fault_condition_congr env s _
        (check_motor_blocked_protocol_frame env hw s)]
      exact h
    have ht := check_torque_sensor_no_fault env _ hnf2
    rw [if_pos hprev] at ht
    unfold check_system
    rw [ht]
    exact Nat.mod_eq_of_lt hno

/-- Witness for C8: a state in torque-sensor error whose stored riding mode is
`OFF_MODE`, so that the error is cleared. -/
theorem torque_sensor_check_witness :
    sample_env.NO_ERROR < 256 ∧ sample_env.ERROR_TORQUE_SENSOR < 256 ∧
    ¬ (((initial_state sample_env).ui16_adc_pedal_torque_offset > 300 ∨
          (initial_state sample_env).ui16_adc_pedal_torque_offset < 5) ∧
        ((initial_state sample_env).ui8_riding_mode = sample_env.POWER_ASSIST_MODE ∨
          (initial_state sample_env).ui8_riding_mode = sample_env.TORQUE_ASSIST_MODE ∨
          (initial_state sample_env).ui8_riding_mode = sample_env.eMTB_ASSIST_MODE)) ∧
    (check_motor_blocked sample_env idle_inputs
      { initial_state sample_env with ui8_system_state := sample_env.ERROR_TORQUE_SENSOR }
      ).ui8_system_state = sample_env.ERROR_TORQUE_SENSOR ∧
    (check_system sample_env idle_inputs
      { initial_state sample_env with ui8_system_state := sample_env.ERROR_TORQUE_SENSOR }
      ).ui8_system_state = sample_env.NO_ERROR :=
  ⟨by decide, by decide, by decide, by decide,
    (torque_sensor_check sample_env idle_inputs
      { initial_state sample_env with ui8_system_state := sample_env.ERROR_TORQUE_SENSOR }
      (by decide) (by decide)).2 (by decide) (by decide)⟩

/-! ## Frames with a wrong CRC -/

/-- C9: when the trailing two bytes of the receive buffer (byte 8 + 256 * byte
9) differ from the CRC16, started at `0xFFFF`, of bytes 0..7, running
`communications_controller` (with the frame-ready flag set, and also with the
flag clear) changes no field of the configuration variables, nor the riding-mode parameter, the message ID,
`ui8_adc_battery_current_max` or the voltage cut-off, calls neither
`lights_set_state` nor `eeprom_write_if_values_changed`, and leaves the riding
mode equal to `OFF_MODE`. -/
theorem crc_mismatch_discards_frame (env : Env) (hw : Inputs) (s : State)
    (hb8 : s.ui8_rx_buffer 8 < 256) (hb9 : s.ui8_rx_buffer 9 < 256)
    (hcrc : s.ui8_rx_buffer 8 + 256 * s.ui8_rx_buffer 9 ≠ crc16_loop env s.ui8_rx_buffer 8)
    (hoff : env.OFF_MODE < 256) :
    (communications_controller env hw s).m_configuration_variables
      = s.m_configuration_variables ∧
    (communications_controller env hw s).ui8_riding_mode_parameter
      = s.ui8_riding_mode_parameter ∧
    (communications_controller env hw s).ui8_message_ID = s.ui8_message_ID ∧
    (communications_controller env hw s).ui8_adc_battery_current_max
      = s.ui8_adc_battery_current_max ∧
    (communications_controller env hw s).ui8_adc_battery_voltage_cut_off
      = s.ui8_adc_battery_voltage_cut_off ∧
    (communications_controller env hw s).lights_set_state_calls = s.lights_set_state_calls ∧
    (communications_controller env hw s).eeprom_write_calls = s.eeprom_write_calls ∧
    (communications_controller env hw s).ui8_riding_mode = env.OFF_MODE := by
  have hbad : ¬ rx_crc_is_correct env s := by
    unfold rx_crc_is_correct
    rw [le16_eq _ 8 hb8 hb9]
    exact hcrc
  obtain ⟨c1, c2, c3, c4, c5, c6, c7, c8, -, -, -⟩ :=
    communications_controller_mismatch env hw s (Or.inr hbad)
  exact ⟨c1, c3, c4, c5, c6, c7, c8, c2.trans (Nat.mod_eq_of_lt hoff)⟩

/-- Witness for C9: a ready frame whose last byte has one bit flipped. -/
theorem crc_mismatch_discards_frame_witness :
    corrupt_frame_state.ui8_received_package_flag ≠ 0 ∧
    corrupt_frame_state.ui8_rx_buffer 8 < 256 ∧ corrupt_frame_state.ui8_rx_buffer 9 < 256 ∧
    corrupt_frame_state.ui8_rx_buffer 8 + 256 * corrupt_frame_state.ui8_rx_buffer 9
      ≠ crc16_loop sample_env corrupt_frame_state.ui8_rx_buffer 8 ∧
    sample_env.OFF_MODE < 256 ∧
    (communications_controller sample_env idle_inputs
      corrupt_frame_state).m_configuration_variables
      = corrupt_frame_state.m_configuration_variables ∧
    (communications_controller sample_env idle_inputs corrupt_frame_state).ui8_riding_mode
      = sample_env.OFF_MODE :=
  ⟨by decide, by decide, by decide, by decide, by decide,
    (crc_mismatch_discards_frame sample_env idle_inputs corrupt_frame_state
      (by decide) (by decide) (by decide) (by decide)).1,
    (crc_mismatch_discards_frame sample_env idle_inputs corrupt_frame_state
      (by decide) (by decide) (by decide) (by decide)).2.2.2.2.2.2.2⟩

/-- What `uart_receive_package` does to the handshake with the receive
interrupt when the flag is set: it sets bit 5 of `UART2->CR2` in both cases,
clears the frame-ready flag when the CRC is correct and leaves it as it was
when the CRC is wrong. -/
theorem uart_receive_package_handshake (env : Env) (s : State)
    (hflag : s.ui8_received_package_flag ≠ 0) :
    (uart_receive_package env s).UART2_CR2.testBit 5 = true ∧
    (rx_crc_is_correct env s → (uart_receive_package env s).ui8_received_package_flag = 0) ∧
    (¬ rx_crc_is_correct env s →
      (uart_receive_package env s).ui8_received_package_flag = s.ui8_received_package_flag) := by
  unfold uart_receive_package
  rw [if_pos hflag]
  dsimp only
  refine ⟨?_, ?_, ?_⟩
  · rw [Nat.testBit_or, Bool.or_eq_true]
    right
    decide
  · intro h
    rw [if_pos (by exact h)]
    rfl
  · intro h
    rw [if_neg (by exact h)]

/-- C10, evaluated at a frame with a wrong CRC.  The ten bytes of a frame
whose last byte has one bit flipped arrive through `UART2_IRQHandler`: the
handler sets the frame-ready flag and disables reception.  Then
`uart_receive_package` runs: reception is enabled again (bit 5 of
`UART2->CR2`) but the frame-ready flag is still 1, where the claim says 0. -/
theorem crc_mismatch_leaves_flag_set :
    corrupt_frame_received.ui8_received_package_flag = 1 ∧
    corrupt_frame_received.UART2_CR2.testBit 5 = false ∧
    (∀ i < 10, corrupt_frame_received.ui8_rx_buffer i = corrupt_frame_state.ui8_rx_buffer i) ∧
    ¬ rx_crc_is_correct sample_env corrupt_frame_received ∧
    (uart_receive_package sample_env corrupt_frame_received).UART2_CR2.testBit 5 = true ∧
    (uart_receive_package sample_env corrupt_frame_received).ui8_received_package_flag = 1 := by
  decide

/-! ## Dispatch of a frame with a correct CRC -/

theorem bit1_of_byte : ∀ x < 256, (x &&& 2) >>> 1 = x / 2 % 2 := by decide

theorem rx_message_fields_frame (env : Env) (s : State) :
    (rx_message_fields env s).ui8_riding_mode = s.ui8_riding_mode ∧
    (rx_message_fields env s).ui8_riding_mode_parameter = s.ui8_riding_mode_parameter ∧
    (rx_message_fields env s).ui8_message_ID = s.ui8_message_ID ∧
    (rx_message_fields env s).lights_set_state_calls = s.lights_set_state_calls ∧
    (rx_message_fields env s).eeprom_write_calls = s.eeprom_write_calls ∧
    (rx_message_fields env s).ui8_rx_buffer = s.ui8_rx_buffer ∧
    (rx_message_fields env s).ui16_battery_voltage_filtered_x1000
      = s.ui16_battery_voltage_filtered_x1000 ∧
    (rx_message_fields env s).UART2_CR2 = s.UART2_CR2 := by
  unfold rx_message_fields
  dsimp only
  split <;> exact ⟨rfl, rfl, rfl, rfl, rfl, rfl, rfl, rfl⟩

theorem rx_message_fields_0 (env : Env) (s : State) (h : s.ui8_message_ID = 0) :
    rx_message_fields env s =
      { s with
        m_configuration_variables :=
          { s.m_configuration_variables with
            ui16_battery_low_voltage_cut_off_x10 := le16 s.ui8_rx_buffer 5
            ui8_wheel_speed_max := s.ui8_rx_buffer 7 }
        ui8_adc_battery_voltage_cut_off :=
          u8 (cdiv env (u32 (le16 s.ui8_rx_buffer 5 <<< 8))
            (u32 (env.BATTERY_VOLTAGE_PER_8_BIT_ADC_STEP_X256 * 10))) } := by
  unfold rx_message_fields
  split <;> first | rfl | (exfalso; omega) | contradiction

theorem rx_message_fields_1 (env : Env) (s : State) (h : s.ui8_message_ID = 1) :
    rx_message_fields env s =
      { s with
        m_configuration_variables :=
          { s.m_configuration_variables with
            ui16_wheel_perimeter := le16 s.ui8_rx_buffer 5
            ui8_optional_ADC_function := s.ui8_rx_buffer 7 } } := by
  unfold rx_message_fields
  split <;> first | rfl | (exfalso; omega) | contradiction

theorem rx_message_fields_2 (env : Env) (s : State) (h : s.ui8_message_ID = 2) :
    rx_message_fields env s =
      { s with
        m_configuration_variables :=
          { s.m_configuration_variables with
            ui8_motor_type := s.ui8_rx_buffer 5
            ui8_motor_temperature_min_value_to_limit := s.ui8_rx_buffer 6
            ui8_motor_temperature_max_value_to_limit := s.ui8_rx_buffer 7 } } := by
  unfold rx_message_fields
  split <;> first | rfl | (exfalso; omega) | contradiction

theorem rx_message_fields_3 (env : Env) (s : State) (h : s.ui8_message_ID = 3) :
    rx_message_fields env s =
      { s with
        m_configuration_variables :=
          { s.m_configuration_variables with
            ui8_startup_motor_power_boost_assist_level := s.ui8_rx_buffer 5
            ui8_startup_motor_power_boost_state := s.ui8_rx_buffer 6 &&& 1
            ui8_startup_motor_power_boost_limit_to_max_power := (s.ui8_rx_buffer 6 &&& 2) >>> 1
            ui8_startup_motor_power_boost_time := s.ui8_rx_buffer 7 } } := by
  unfold rx_message_fields
  split <;> first | rfl | (exfalso; omega) | contradiction

theorem rx_message_fields_4 (env : Env) (s : State) (h : s.ui8_message_ID = 4) :
    rx_message_fields env s =
      { s with
        m_configuration_variables :=
          { s.m_configuration_variables with
            ui8_startup_motor_power_boost_fade_time := s.ui8_rx_buffer 5
            ui8_startup_motor_power_boost_feature_enabled := s.ui8_rx_buffer 6 } } := by
  unfold rx_message_fields
  split <;> first | rfl | (exfalso; omega) | contradiction

theorem rx_message_fields_5 (env : Env) (s : State) (h : s.ui8_message_ID = 5) :
    rx_message_fields env s =
      { s with
        m_configuration_variables :=
          { s.m_configuration_variables with
            ui8_pedal_torque_per_10_bit_ADC_step_x100 := s.ui8_rx_buffer 5
            ui8_battery_max_current := s.ui8_rx_buffer 6
            ui8_target_battery_max_power_div25 := s.ui8_rx_buffer 7 }
        ui8_adc_battery_current_max :=
          u8 (env.ui8_min
            (u8 (cdiv env (s.ui8_rx_buffer 6 * 10) env.BATTERY_CURRENT_PER_10_BIT_ADC_STEP_X10))
            (u8 (cdiv env
              (cdiv env (u32 (s.ui8_rx_buffer 7 * 250000)) s.ui16_battery_voltage_filtered_x1000)
              env.BATTERY_CURRENT_PER_10_BIT_ADC_STEP_X10))) } := by
  unfold rx_message_fields
  split <;> first | rfl | (exfalso; omega) | contradiction

theorem rx_message_fields_6 (env : Env) (s : State) (h : s.ui8_message_ID = 6) :
    rx_message_fields env s =
      { s with ui8_cadence_sensor_magnet_pulse_width := s.ui8_rx_buffer 5 } := by
  unfold rx_message_fields
  split <;> first | rfl | (exfalso; omega) | contradiction

theorem rx_message_fields_other (env : Env) (s : State) (h : 6 < s.ui8_message_ID) :
    rx_message_fields env s = s := by
  unfold rx_message_fields
  split <;> first | rfl | (exfalso; omega)

/-- The state in which `uart_receive_package` reads the package: the CRC
accumulator and the loop index have been written. -/
theorem uart_receive_package_correct (env : Env) (s : State)
    (hflag : s.ui8_received_package_flag ≠ 0) (hcrc : rx_crc_is_correct env s) :
    uart_receive_package env s =
      { rx_read_package env
          { s with ui16_crc_rx := crc16_loop env s.ui8_rx_buffer 8, ui8_i := 8 } with
        UART2_CR2 :=
          (rx_read_package env
            { s with ui16_crc_rx := crc16_loop env s.ui8_rx_buffer 8, ui8_i := 8 }).UART2_CR2
            ||| (1 <<< 5) } := by
  unfold uart_receive_package
  rw [if_pos hflag]
  dsimp only
  rw [if_pos (by exact hcrc)]

theorem rx_read_package_common (env : Env) (s : State) :
    (rx_read_package env s).ui8_riding_mode = s.ui8_rx_buffer 2 ∧
    (rx_read_package env s).ui8_riding_mode_parameter = s.ui8_rx_buffer 3 ∧
    (rx_read_package env s).ui8_message_ID = s.ui8_rx_buffer 1 ∧
    (rx_read_package env s).lights_set_state_calls
      = s.lights_set_state_calls ++ [s.ui8_rx_buffer 4] ∧
    (rx_read_package env s).eeprom_write_calls = s.eeprom_write_calls + 1 ∧
    (rx_read_package env s).ui8_received_package_flag = 0 ∧
    (rx_read_package env s).ui8_rx_buffer = s.ui8_rx_buffer ∧
    (rx_read_package env s).ui16_battery_voltage_filtered_x1000
      = s.ui16_battery_voltage_filtered_x1000 := by
  unfold rx_read_package
  dsimp only
  obtain ⟨h1, h2, h3, h4, h5, h6, h7, -⟩ := rx_message_fields_frame env
    { s with
      ui8_message_ID := s.ui8_rx_buffer 1
      ui8_riding_mode := s.ui8_rx_buffer 2
      ui8_riding_mode_parameter := s.ui8_rx_buffer 3
      m_configuration_variables :=
        { s.m_configuration_variables with ui8_lights := s.ui8_rx_buffer 4 }
      lights_set_state_calls := s.lights_set_state_calls ++ [s.ui8_rx_buffer 4] }
  refine ⟨h1, h2, h3, h4, ?_, rfl, h6, h7⟩
  rw [h5]

theorem rx_read_package_eq (env : Env) (s : State) :
    rx_read_package env s =
      { rx_message_fields env (rx_fixed_fields s) with
        eeprom_write_calls := (rx_message_fields env (rx_fixed_fields s)).eeprom_write_calls + 1
        ui8_received_package_flag := 0 } := rfl

theorem rx_read_package_selected (env : Env) (s : State) :
    rx_selected (rx_read_package env s)
      = rx_selected (rx_message_fields env (rx_fixed_fields s)) := rfl

theorem rx_read_package_id0 (env : Env) (s : State) (h : s.ui8_rx_buffer 1 = 0) :
    rx_selected (rx_read_package env s) =
      ({ s.m_configuration_variables with
          ui8_lights := s.ui8_rx_buffer 4
          ui16_battery_low_voltage_cut_off_x10 := le16 s.ui8_rx_buffer 5
          ui8_wheel_speed_max := s.ui8_rx_buffer 7 },
        u8 (cdiv env (u32 (le16 s.ui8_rx_buffer 5 <<< 8))
          (u32 (env.BATTERY_VOLTAGE_PER_8_BIT_ADC_STEP_X256 * 10))),
        s.ui8_adc_battery_current_max, s.ui8_cadence_sensor_magnet_pulse_width) := by
  rw [rx_read_package_selected, rx_message_fields_0 env (rx_fixed_fields s) h]
  rfl

theorem rx_read_package_id1 (env : Env) (s : State) (h : s.ui8_rx_buffer 1 = 1) :
    rx_selected (rx_read_package env s) =
      ({ s.m_configuration_variables with
          ui8_lights := s.ui8_rx_buffer 4
          ui16_wheel_perimeter := le16 s.ui8_rx_buffer 5
          ui8_optional_ADC_function := s.ui8_rx_buffer 7 },
        s.ui8_adc_battery_voltage_cut_off,
        s.ui8_adc_battery_current_max, s.ui8_cadence_sensor_magnet_pulse_width) := by
  rw [rx_read_package_selected, rx_message_fields_1 env (rx_fixed_fields s) h]
  rfl

theorem rx_read_package_id2 (env : Env) (s : State) (h : s.ui8_rx_buffer 1 = 2) :
    rx_selected (rx_read_package env s) =
      ({ s.m_configuration_variables with
          ui8_lights := s.ui8_rx_buffer 4
          ui8_motor_type := s.ui8_rx_buffer 5
          ui8_motor_temperature_min_value_to_limit := s.ui8_rx_buffer 6
          ui8_motor_temperature_max_value_to_limit := s.ui8_rx_buffer 7 },
        s.ui8_adc_battery_voltage_cut_off,
        s.ui8_adc_battery_current_max, s.ui8_cadence_sensor_magnet_pulse_width) := by
  rw [rx_read_package_selected, rx_message_fields_2 env (rx_fixed_fields s) h]
  rfl

theorem rx_read_package_id3 (env : Env) (s : State) (h : s.ui8_rx_buffer 1 = 3) :
    rx_selected (rx_read_package env s) =
      ({ s.m_configuration_variables with
          ui8_lights := s.ui8_rx_buffer 4
          ui8_startup_motor_power_boost_assist_level := s.ui8_rx_buffer 5
          ui8_startup_motor_power_boost_state := s.ui8_rx_buffer 6 &&& 1
          ui8_startup_motor_power_boost_limit_to_max_power := (s.ui8_rx_buffer 6 &&& 2) >>> 1
          ui8_startup_motor_power_boost_time := s.ui8_rx_buffer 7 },
        s.ui8_adc_battery_voltage_cut_off,
        s.ui8_adc_battery_current_max, s.ui8_cadence_sensor_magnet_pulse_width) := by
  rw [rx_read_package_selected, rx_message_fields_3 env (rx_fixed_fields s) h]
  rfl

theorem rx_read_package_id4 (env : Env) (s : State) (h : s.ui8_rx_buffer 1 = 4) :
    rx_selected (rx_read_package env s) =
      ({ s.m_configuration_variables with
          ui8_lights := s.ui8_rx_buffer 4
          ui8_startup_motor_power_boost_fade_time := s.ui8_rx_buffer 5
          ui8_startup_motor_power_boost_feature_enabled := s.ui8_rx_buffer 6 },
        s.ui8_adc_battery_voltage_cut_off,
        s.ui8_adc_battery_current_max, s.ui8_cadence_sensor_magnet_pulse_width) := by
  rw [rx_read_package_selected, rx_message_fields_4 env (rx_fixed_fields s) h]
  rfl

theorem rx_read_package_id5 (env : Env) (s : State) (h : s.ui8_rx_buffer 1 = 5) :
    rx_selected (rx_read_package env s) =
      ({ s.m_configuration_variables with
          ui8_lights := s.ui8_rx_buffer 4
          ui8_pedal_torque_per_10_bit_ADC_step_x100 := s.ui8_rx_buffer 5
          ui8_battery_max_current := s.ui8_rx_buffer 6
          ui8_target_battery_max_power_div25 := s.ui8_rx_buffer 7 },
        s.ui8_adc_battery_voltage_cut_off,
        u8 (env.ui8_min
          (u8 (cdiv env (s.ui8_rx_buffer 6 * 10) env.BATTERY_CURRENT_PER_10_BIT_ADC_STEP_X10))
          (u8 (cdiv env
            (cdiv env (u32 (s.ui8_rx_buffer 7 * 250000)) s.ui16_battery_voltage_filtered_x1000)
            env.BATTERY_CURRENT_PER_10_BIT_ADC_STEP_X10))),
        s.ui8_cadence_sensor_magnet_pulse_width) := by
  rw [rx_read_package_selected, rx_message_fields_5 env (rx_fixed_fields s) h]
  rfl

theorem rx_read_package_id6 (env : Env) (s : State) (h : s.ui8_rx_buffer 1 = 6) :
    rx_selected (rx_read_package env s) =
      ({ s.m_configuration_variables with ui8_lights := s.ui8_rx_buffer 4 },
        s.ui8_adc_battery_voltage_cut_off,
        s.ui8_adc_battery_current_max, s.ui8_rx_buffer 5) := by
  rw [rx_read_package_selected, rx_message_fields_6 env (rx_fixed_fields s) h]
  rfl

theorem rx_read_package_id_other (env : Env) (s : State) (h : 6 < s.ui8_rx_buffer 1) :
    rx_selected (rx_read_package env s) =
      ({ s.m_configuration_variables with ui8_lights := s.ui8_rx_buffer 4 },
        s.ui8_adc_battery_voltage_cut_off,
        s.ui8_adc_battery_current_max, s.ui8_cadence_sensor_magnet_pulse_width) := by
  rw [rx_read_package_selected, rx_message_fields_other env (rx_fixed_fields s) h]
  rfl

theorem uart_receive_package_selected (env : Env) (s : State)
    (hflag : s.ui8_received_package_flag ≠ 0) (hcrc : rx_crc_is_correct env s) :
    rx_selected (uart_receive_package env s) =
      rx_selected (rx_read_package env
        { s with ui16_crc_rx := crc16_loop env s.ui8_rx_buffer 8, ui8_i := 8 }) := by
  rw [uart_receive_package_correct env s hflag hcrc]
  rfl

theorem uart_receive_package_common (env : Env) (s : State)
    (hflag : s.ui8_received_package_flag ≠ 0) (hcrc : rx_crc_is_correct env s) :
    (uart_receive_package env s).ui8_riding_mode = s.ui8_rx_buffer 2 ∧
    (uart_receive_package env s).ui8_riding_mode_parameter = s.ui8_rx_buffer 3 ∧
    (uart_receive_package env s).ui8_message_ID = s.ui8_rx_buffer 1 ∧
    (uart_receive_package env s).lights_set_state_calls
      = s.lights_set_state_calls ++ [s.ui8_rx_buffer 4] ∧
    (uart_receive_package env s).eeprom_write_calls = s.eeprom_write_calls + 1 ∧
    (uart_receive_package env s).ui8_received_package_flag = 0 ∧
    (uart_receive_package env s).ui8_rx_buffer = s.ui8_rx_buffer ∧
    (uart_receive_package env s).ui16_battery_voltage_filtered_x1000
      = s.ui16_battery_voltage_filtered_x1000 := by
  rw [uart_receive_package_correct env s hflag hcrc]
  exact rx_read_package_common env
    { s with ui16_crc_rx := crc16_loop env s.ui8_rx_buffer 8, ui8_i := 8 }

/-- Reading the same frame into a state that already holds what the frame
selected changes none of the selected variables. -/
theorem rx_read_package_idempotent (env : Env) (a z : State)
    (hrx : z.ui8_rx_buffer = a.ui8_rx_buffer)
    (hv : z.ui16_battery_voltage_filtered_x1000 = a.ui16_battery_voltage_filtered_x1000)
    (hsel : rx_selected z = rx_selected (rx_read_package env a)) :
    rx_selected (rx_read_package env z) = rx_selected (rx_read_package env a) := by
  have hcases : a.ui8_rx_buffer 1 = 0 ∨ a.ui8_rx_buffer 1 = 1 ∨ a.ui8_rx_buffer 1 = 2 ∨
      a.ui8_rx_buffer 1 = 3 ∨ a.ui8_rx_buffer 1 = 4 ∨ a.ui8_rx_buffer 1 = 5 ∨
      a.ui8_rx_buffer 1 = 6 ∨ 6 < a.ui8_rx_buffer 1 := by omega
  rcases hcases with h | h | h | h | h | h | h | h
  · rw [rx_read_package_id0 env a h] at hsel ⊢
    rw [rx_read_package_id0 env z (by rw [hrx]; exact h)]
    simp only [rx_selected, Prod.mk.injEq] at hsel
    obtain ⟨h1, h2, h3, h4⟩ := hsel
    rw [hrx, h1, h3, h4]
  · rw [rx_read_package_id1 env a h] at hsel ⊢
    rw [rx_read_package_id1 env z (by rw [hrx]; exact h)]
    simp only [rx_selected, Prod.mk.injEq] at hsel
    obtain ⟨h1, h2, h3, h4⟩ := hsel
    rw [hrx, h1, h2, h3, h4]
  · rw [rx_read_package_id2 env a h] at hsel ⊢
    rw [rx_read_package_id2 env z (by rw [hrx]; exact h)]
    simp only [rx_selected, Prod.mk.injEq] at hsel
    obtain ⟨h1, h2, h3, h4⟩ := hsel
    rw [hrx, h1, h2, h3, h4]
  · rw [rx_read_package_id3 env a h] at hsel ⊢
    rw [rx_read_package_id3 env z (by rw [hrx]; exact h)]
    simp only [rx_selected, Prod.mk.injEq] at hsel
    obtain ⟨h1, h2, h3, h4⟩ := hsel
    rw [hrx, h1, h2, h3, h4]
  · rw [rx_read_package_id4 env a h] at hsel ⊢
    rw [rx_read_package_id4 env z (by rw [hrx]; exact h)]
    simp only [rx_selected, Prod.mk.injEq] at hsel
    obtain ⟨h1, h2, h3, h4⟩ := hsel
    rw [hrx, h1, h2, h3, h4]
  · rw [rx_read_package_id5 env a h] at hsel ⊢
    rw [rx_read_package_id5 env z (by rw [hrx]; exact h)]
    simp only [rx_selected, Prod.mk.injEq] at hsel
    obtain ⟨h1, h2, h3, h4⟩ := hsel
    rw [hrx, hv, h1, h2, h4]
  · rw [rx_read_package_id6 env a h] at hsel ⊢
    rw [rx_read_package_id6 env z (by rw [hrx]; exact h)]
    simp only [rx_selected, Prod.mk.injEq] at hsel
    obtain ⟨h1, h2, h3, h4⟩ := hsel
    rw [hrx, h1, h2, h3]
  · rw [rx_read_package_id_other env a h] at hsel ⊢
    rw [rx_read_package_id_other env z (by rw [hrx]; exact h)]
    simp only [rx_selected, Prod.mk.injEq] at hsel
    obtain ⟨h1, h2, h3, h4⟩ := hsel
    rw [hrx, h1, h2, h3, h4]

theorem uart_receive_package_again (env : Env) (s t : State)
    (hcrc : rx_crc_is_correct env s)
    (hrx : t.ui8_rx_buffer = s.ui8_rx_buffer)
    (hv : t.ui16_battery_voltage_filtered_x1000 = s.ui16_battery_voltage_filtered_x1000)
    (hsel : rx_selected t = rx_selected (rx_read_package env
      { s with ui16_crc_rx := crc16_loop env s.ui8_rx_buffer 8, ui8_i := 8 }))
    (hm : t.ui8_riding_mode = s.ui8_rx_buffer 2)
    (hp : t.ui8_riding_mode_parameter = s.ui8_rx_buffer 3) :
    rx_selected (uart_receive_package env { t with ui8_received_package_flag := 1 })
      = rx_selected t ∧
    (uart_receive_package env { t with ui8_received_package_flag := 1 }).ui8_riding_mode
      = t.ui8_riding_mode ∧
    (uart_receive_package env { t with ui8_received_package_flag := 1 }).ui8_riding_mode_parameter
      = t.ui8_riding_mode_parameter := by
  have hbflag : ({ t with ui8_received_package_flag := 1 } : State).ui8_received_package_flag ≠ 0 :=
    Nat.one_ne_zero
  have hbcrc : rx_crc_is_correct env { t with ui8_received_package_flag := 1 } :=
    (rx_crc_is_correct_congr env s _ hrx).mpr hcrc
  have hc2 := uart_receive_package_common env _ hbflag hbcrc
  have hsel2 := uart_receive_package_selected env _ hbflag hbcrc
  refine ⟨?_, ?_, ?_⟩
  · rw [hsel2, hsel]
    exact rx_read_package_idempotent env _ _ hrx hv hsel
  · rw [hc2.1, hm]
    exact congrFun hrx 2
  · rw [hc2.2.1, hp]
    exact congrFun hrx 3

theorem uart_receive_package_twice (env : Env) (s : State)
    (hflag : s.ui8_received_package_flag ≠ 0) (hcrc : rx_crc_is_correct env s) :
    rx_selected (uart_receive_package env
        { uart_receive_package env s with ui8_received_package_flag := 1 })
      = rx_selected (uart_receive_package env s) ∧
    (uart_receive_package env
        { uart_receive_package env s with ui8_received_package_flag := 1 }).ui8_riding_mode
      = (uart_receive_package env s).ui8_riding_mode ∧
    (uart_receive_package env
        { uart_receive_package env s with ui8_received_package_flag := 1 }).ui8_riding_mode_parameter
      = (uart_receive_package env s).ui8_riding_mode_parameter := by
  have hc := uart_receive_package_common env s hflag hcrc
  exact uart_receive_package_again env s (uart_receive_package env s) hcrc
    hc.2.2.2.2.2.2.1 hc.2.2.2.2.2.2.2 (uart_receive_package_selected env s hflag hcrc)
    hc.1 hc.2.1

theorem bytes_lt_256 (l : List Nat) (h : ∀ x ∈ l, x < 256) (i : Nat) : bytes l i < 256 := by
  unfold bytes
  by_cases hi : i < l.length
  · rw [List.getD_eq_getElem l 0 hi]
    exact h _ (List.getElem_mem hi)
  · rw [List.getD_eq_default l 0 (by omega)]
    decide

/-- C11: a ready 10-byte frame whose bytes 8..9 are the little-endian CRC16 of
bytes 0..7 sets riding mode = byte 2, mode parameter = byte 3, lights = byte 4,
and then writes the fields selected by the message ID in byte 1 and no other
configuration field: the configuration variables after the call are the old ones
with lights and the fields of that ID replaced. ID 0 also recomputes the ADC
voltage cut-off from the new cut-off, ID 5 the ADC current limit, ID 6 writes
the cadence magnet pulse width; every other ID leaves these three as they were. -/
theorem valid_frame_writes_selected_fields (env : Env) (s : State)
    (hflag : s.ui8_received_package_flag ≠ 0)
    (hbytes : ∀ i, s.ui8_rx_buffer i < 256)
    (hcrc : s.ui8_rx_buffer 8 + 256 * s.ui8_rx_buffer 9 = crc16_loop env s.ui8_rx_buffer 8) :
    (uart_receive_package env s).ui8_riding_mode = s.ui8_rx_buffer 2 ∧
    (uart_receive_package env s).ui8_riding_mode_parameter = s.ui8_rx_buffer 3 ∧
    (uart_receive_package env s).lights_set_state_calls
      = s.lights_set_state_calls ++ [s.ui8_rx_buffer 4] ∧
    (s.ui8_rx_buffer 1 = 0 → rx_selected (uart_receive_package env s) =
      ({ s.m_configuration_variables with
          ui8_lights := s.ui8_rx_buffer 4
          ui16_battery_low_voltage_cut_off_x10 := s.ui8_rx_buffer 5 + 256 * s.ui8_rx_buffer 6
          ui8_wheel_speed_max := s.ui8_rx_buffer 7 },
        u8 (cdiv env (u32 ((s.ui8_rx_buffer 5 + 256 * s.ui8_rx_buffer 6) <<< 8))
          (u32 (env.BATTERY_VOLTAGE_PER_8_BIT_ADC_STEP_X256 * 10))),
        s.ui8_adc_battery_current_max, s.ui8_cadence_sensor_magnet_pulse_width)) ∧
    (s.ui8_rx_buffer 1 = 1 → rx_selected (uart_receive_package env s) =
      ({ s.m_configuration_variables with
          ui8_lights := s.ui8_rx_buffer 4
          ui16_wheel_perimeter := s.ui8_rx_buffer 5 + 256 * s.ui8_rx_buffer 6
          ui8_optional_ADC_function := s.ui8_rx_buffer 7 },
        s.ui8_adc_battery_voltage_cut_off,
        s.ui8_adc_battery_current_max, s.ui8_cadence_sensor_magnet_pulse_width)) ∧
    (s.ui8_rx_buffer 1 = 2 → rx_selected (uart_receive_package env s) =
      ({ s.m_configuration_variables with
          ui8_lights := s.ui8_rx_buffer 4
          ui8_motor_type := s.ui8_rx_buffer 5
          ui8_motor_temperature_min_value_to_limit := s.ui8_rx_buffer 6
          ui8_motor_temperature_max_value_to_limit := s.ui8_rx_buffer 7 },
        s.ui8_adc_battery_voltage_cut_off,
        s.ui8_adc_battery_current_max, s.ui8_cadence_sensor_magnet_pulse_width)) ∧
    (s.ui8_rx_buffer 1 = 3 → rx_selected (uart_receive_package env s) =
      ({ s.m_configuration_variables with
          ui8_lights := s.ui8_rx_buffer 4
          ui8_startup_motor_power_boost_assist_level := s.ui8_rx_buffer 5
          ui8_startup_motor_power_boost_state := s.ui8_rx_buffer 6 % 2
          ui8_startup_motor_power_boost_limit_to_max_power := s.ui8_rx_buffer 6 / 2 % 2
          ui8_startup_motor_power_boost_time := s.ui8_rx_buffer 7 },
        s.ui8_adc_battery_voltage_cut_off,
        s.ui8_adc_battery_current_max, s.ui8_cadence_sensor_magnet_pulse_width)) ∧
    (s.ui8_rx_buffer 1 = 4 → rx_selected (uart_receive_package env s) =
      ({ s.m_configuration_variables with
          ui8_lights := s.ui8_rx_buffer 4
          ui8_startup_motor_power_boost_fade_time := s.ui8_rx_buffer 5
          ui8_startup_motor_power_boost_feature_enabled := s.ui8_rx_buffer 6 },
        s.ui8_adc_battery_voltage_cut_off,
        s.ui8_adc_battery_current_max, s.ui8_cadence_sensor_magnet_pulse_width)) ∧
    (s.ui8_rx_buffer 1 = 5 → rx_selected (uart_receive_package env s) =
      ({ s.m_configuration_variables with
          ui8_lights := s.ui8_rx_buffer 4
          ui8_pedal_torque_per_10_bit_ADC_step_x100 := s.ui8_rx_buffer 5
          ui8_battery_max_current := s.ui8_rx_buffer 6
          ui8_target_battery_max_power_div25 := s.ui8_rx_buffer 7 },
        s.ui8_adc_battery_voltage_cut_off,
        u8 (env.ui8_min
          (u8 (cdiv env (s.ui8_rx_buffer 6 * 10) env.BATTERY_CURRENT_PER_10_BIT_ADC_STEP_X10))
          (u8 (cdiv env
            (cdiv env (u32 (s.ui8_rx_buffer 7 * 250000)) s.ui16_battery_voltage_filtered_x1000)
            env.BATTERY_CURRENT_PER_10_BIT_ADC_STEP_X10))),
        s.ui8_cadence_sensor_magnet_pulse_width)) ∧
    (s.ui8_rx_buffer 1 = 6 → rx_selected (uart_receive_package env s) =
      ({ s.m_configuration_variables with ui8_lights := s.ui8_rx_buffer 4 },
        s.ui8_adc_battery_voltage_cut_off,
        s.ui8_adc_battery_current_max, s.ui8_rx_buffer 5)) ∧
    (6 < s.ui8_rx_buffer 1 → rx_selected (uart_receive_package env s) =
      ({ s.m_configuration_variables with ui8_lights := s.ui8_rx_buffer 4 },
        s.ui8_adc_battery_voltage_cut_off,
        s.ui8_adc_battery_current_max, s.ui8_cadence_sensor_magnet_pulse_width)) := by
  have hok : rx_crc_is_correct env s := by
    unfold rx_crc_is_correct
    rw [le16_eq _ 8 (hbytes 8) (hbytes 9)]
    exact hcrc
  have hcommon := uart_receive_package_common env s hflag hok
  have hsel := uart_receive_package_selected env s hflag hok
  have h16 : le16 s.ui8_rx_buffer 5 = s.ui8_rx_buffer 5 + 256 * s.ui8_rx_buffer 6 :=
    le16_eq _ 5 (hbytes 5) (hbytes 6)
  have hb0 : s.ui8_rx_buffer 6 &&& 1 = s.ui8_rx_buffer 6 % 2 := Nat.and_one_is_mod _
  have hb1 : (s.ui8_rx_buffer 6 &&& 2) >>> 1 = s.ui8_rx_buffer 6 / 2 % 2 :=
    bit1_of_byte _ (hbytes 6)
  refine ⟨hcommon.1, hcommon.2.1, hcommon.2.2.2.1, ?_, ?_, ?_, ?_, ?_, ?_, ?_, ?_⟩
  · intro h
    rw [hsel, rx_read_package_id0 env
      { s with ui16_crc_rx := crc16_loop env s.ui8_rx_buffer 8, ui8_i := 8 } h, ← h16]
  · intro h
    rw [hsel, rx_read_package_id1 env
      { s with ui16_crc_rx := crc16_loop env s.ui8_rx_buffer 8, ui8_i := 8 } h, ← h16]
  · intro h
    rw [hsel, rx_read_package_id2 env
      { s with ui16_crc_rx := crc16_loop env s.ui8_rx_buffer 8, ui8_i := 8 } h]
  · intro h
    rw [hsel, rx_read_package_id3 env
      { s with ui16_crc_rx := crc16_loop env s.ui8_rx_buffer 8, ui8_i := 8 } h, ← hb0, ← hb1]
  · intro h
    rw [hsel, rx_read_package_id4 env
      { s with ui16_crc_rx := crc16_loop env s.ui8_rx_buffer 8, ui8_i := 8 } h]
  · intro h
    rw [hsel, rx_read_package_id5 env
      { s with ui16_crc_rx := crc16_loop env s.ui8_rx_buffer 8, ui8_i := 8 } h]
  · intro h
    rw [hsel, rx_read_package_id6 env
      { s with ui16_crc_rx := crc16_loop env s.ui8_rx_buffer 8, ui8_i := 8 } h]
  · intro h
    rw [hsel, rx_read_package_id_other env
      { s with ui16_crc_rx := crc16_loop env s.ui8_rx_buffer 8, ui8_i := 8 } h]

/-- Witness for C11: the ready frame of `power_frame_state`, message ID 4. -/
theorem valid_frame_writes_selected_fields_witness :
    power_frame_state.ui8_received_package_flag ≠ 0 ∧
    (∀ i, power_frame_state.ui8_rx_buffer i < 256) ∧
    power_frame_state.ui8_rx_buffer 8 + 256 * power_frame_state.ui8_rx_buffer 9
      = crc16_loop sample_env power_frame_state.ui8_rx_buffer 8 ∧
    (uart_receive_package sample_env power_frame_state).ui8_riding_mode = 1 ∧
    (uart_receive_package sample_env power_frame_state).ui8_riding_mode_parameter = 50 :=
  ⟨by decide, bytes_lt_256 _ (by decide), by decide,
    (valid_frame_writes_selected_fields sample_env power_frame_state (by decide)
      (bytes_lt_256 _ (by decide)) (by decide)).1,
    (valid_frame_writes_selected_fields sample_env power_frame_state (by decide)
      (bytes_lt_256 _ (by decide)) (by decide)).2.1⟩

/-- C12: applying a frame with a matching CRC twice in succession (frame-ready set
again before the second call) leaves the configuration variables, riding mode, mode
parameter, voltage cut-off and ADC current limit as they were after the first call. -/
theorem valid_frame_twice_is_idempotent (env : Env) (s : State)
    (hflag : s.ui8_received_package_flag ≠ 0) (hcrc : rx_crc_is_correct env s) :
    (uart_receive_package env
        { uart_receive_package env s with ui8_received_package_flag := 1 }).m_configuration_variables
      = (uart_receive_package env s).m_configuration_variables ∧
    (uart_receive_package env
        { uart_receive_package env s with ui8_received_package_flag := 1 }).ui8_riding_mode
      = (uart_receive_package env s).ui8_riding_mode ∧
    (uart_receive_package env
        { uart_receive_package env s with ui8_received_package_flag := 1 }).ui8_riding_mode_parameter
      = (uart_receive_package env s).ui8_riding_mode_parameter ∧
    (uart_receive_package env
        { uart_receive_package env s with ui8_received_package_flag := 1 }).ui8_adc_battery_voltage_cut_off
      = (uart_receive_package env s).ui8_adc_battery_voltage_cut_off ∧
    (uart_receive_package env
        { uart_receive_package env s with ui8_received_package_flag := 1 }).ui8_adc_battery_current_max
      = (uart_receive_package env s).ui8_adc_battery_current_max := by
  have h := uart_receive_package_twice env s hflag hcrc
  have h1 := congrArg Prod.fst h.1
  have h2 := congrArg (fun p => p.2.1) h.1
  have h3 := congrArg (fun p => p.2.2.1) h.1
  exact ⟨h1, h.2.1, h.2.2, h2, h3⟩

/-- Witness for C12: the ready frame of `power_frame_state` applied twice. -/
theorem valid_frame_twice_is_idempotent_witness :
    power_frame_state.ui8_received_package_flag ≠ 0 ∧
    rx_crc_is_correct sample_env power_frame_state ∧
    (uart_receive_package sample_env
        { uart_receive_package sample_env power_frame_state with
          ui8_received_package_flag := 1 }).m_configuration_variables
      = (uart_receive_package sample_env power_frame_state).m_configuration_variables :=
  ⟨by decide, by decide,
    (valid_frame_twice_is_idempotent sample_env power_frame_state (by decide) (by decide)).1⟩

/-! ## The telemetry frame and its CRC -/

theorem crc16_loop_congr (env : Env) (b c : Nat → Nat) (n : Nat)
    (h : ∀ i, i < n → b i = c i) : crc16_loop env b n = crc16_loop env c n := by
  induction n with
  | zero => rfl
  | succ k ih =>
    unfold crc16_loop
    rw [ih (fun i hi => h i (by omega)), h k (by omega)]

theorem crc16_loop_lt (env : Env) (b : Nat → Nat) (n : Nat) : crc16_loop env b n < 65536 := by
  cases n with
  | zero => unfold crc16_loop; decide
  | succ k => unfold crc16_loop u16; omega

theorem and_255_eq_mod (x : Nat) : x &&& 0xff = x % 256 :=
  Nat.and_pow_two_sub_one_eq_mod x 8

theorem uart_send_package_tx (env : Env) (hw : Inputs) (s : State) :
    (uart_send_package env hw s).ui8_tx_buffer =
      store (store (tx_payload env hw s) 25 (u8 (crc16_loop env (tx_payload env hw s) 25 &&& 0xff)))
        26 (u8 (crc16_loop env (tx_payload env hw s) 25 >>> 8) &&& 0xff) := rfl

theorem tx_payload_start (env : Env) (hw : Inputs) (s : State) :
    tx_payload env hw s 0 = 0x43 := by
  unfold tx_payload
  split_ifs <;> simp [store]

theorem store_same (b : Nat → Nat) (i v : Nat) : store b i v i = v := by
  unfold store
  rw [if_pos rfl]

theorem store_other (b : Nat → Nat) (i v j : Nat) (h : j ≠ i) : store b i v j = b j := by
  unfold store
  rw [if_neg h]

theorem uart_send_package_crc (env : Env) (hw : Inputs) (s : State) :
    crc16_loop env (uart_send_package env hw s).ui8_tx_buffer 25
      = crc16_loop env (tx_payload env hw s) 25 := by
  apply crc16_loop_congr
  intro i hi
  rw [uart_send_package_tx, store_other _ _ _ _ (by omega), store_other _ _ _ _ (by omega)]

/-- C13: the telemetry frame composed by `uart_send_package` starts with 0x43, its
bytes 25 and 26 are the low and the high byte of the CRC16 (initial value 0xFFFF)
folded over its bytes 0..24, and so the frame passes the validation rule of the
receiver: the CRC recomputed over bytes 0..24 equals byte25 + 256 * byte26, which
is also the 16-bit value the receiver forms from the two trailing bytes.  The 27
bytes of the frame are handed to `putchar` in order. -/
theorem telemetry_frame_validates (env : Env) (hw : Inputs) (s : State) :
    (uart_send_package env hw s).ui8_tx_buffer 0 = 0x43 ∧
    (uart_send_package env hw s).ui8_tx_buffer 25
      = crc16_loop env (uart_send_package env hw s).ui8_tx_buffer 25 % 256 ∧
    (uart_send_package env hw s).ui8_tx_buffer 26
      = crc16_loop env (uart_send_package env hw s).ui8_tx_buffer 25 / 256 ∧
    (uart_send_package env hw s).ui8_tx_buffer 25
        + 256 * (uart_send_package env hw s).ui8_tx_buffer 26
      = crc16_loop env (uart_send_package env hw s).ui8_tx_buffer 25 ∧
    le16 (uart_send_package env hw s).ui8_tx_buffer 25
      = crc16_loop env (uart_send_package env hw s).ui8_tx_buffer 25 ∧
    (uart_send_package env hw s).putchar_calls
      = s.putchar_calls ++ (List.range 27).map (uart_send_package env hw s).ui8_tx_buffer := by
  have hlt := crc16_loop_lt env (tx_payload env hw s) 25
  have h0 : (uart_send_package env hw s).ui8_tx_buffer 0 = 0x43 := by
    rw [uart_send_package_tx, store_other _ _ _ _ (by omega), store_other _ _ _ _ (by omega)]
    exact tx_payload_start env hw s
  have h25 : (uart_send_package env hw s).ui8_tx_buffer 25
      = crc16_loop env (tx_payload env hw s) 25 % 256 := by
    rw [uart_send_package_tx, store_other _ _ _ _ (by omega), store_same, and_255_eq_mod]
    unfold u8
    omega
  have h26 : (uart_send_package env hw s).ui8_tx_buffer 26
      = crc16_loop env (tx_payload env hw s) 25 / 256 := by
    rw [uart_send_package_tx, store_same, and_255_eq_mod, Nat.shiftRight_eq_div_pow]
    unfold u8
    omega
  rw [uart_send_package_crc]
  refine ⟨h0, h25, h26, ?_, ?_, rfl⟩
  · rw [h25, h26]
    omega
  · rw [le16_eq _ 25 (by rw [h25]; omega) (by rw [h26]; omega), h25, h26]
    omega

/-! ## Detection of a single flipped bit -/

theorem xor_eq_self_imp (x y : Nat) (h : x ^^^ y = x) : y = 0 := by
  have h1 := Nat.xor_cancel_left x y
  rw [h, Nat.xor_self] at h1
  exact h1.symm

theorem xor_left_cancel (x y z : Nat) (h : x ^^^ y = x ^^^ z) : y = z := by
  have h1 := Nat.xor_cancel_left x y
  rw [h, Nat.xor_cancel_left] at h1
  exact h1.symm

theorem flipped_byte_ne (x j : Nat) : x ^^^ (1 <<< j) ≠ x := by
  intro h
  have h1 := xor_eq_self_imp _ _ h
  rw [Nat.shiftLeft_eq] at h1
  have h2 : 0 < 1 * 2 ^ j := by positivity
  omega

theorem flipped_byte_lt (x j : Nat) (hx : x < 256) (hj : j < 8) : x ^^^ (1 <<< j) < 256 := by
  have h1 : 1 <<< j < 2 ^ 8 := by interval_cases j <;> decide
  exact Nat.xor_lt_two_pow (n := 8) hx h1

theorem crc16_loop_flip_ne (env : Env) (hinj : crc16_step_injective env)
    (buf : Nat → Nat) (k j : Nat) (hbyte : buf k < 256) (hj : j < 8) (m : Nat) :
    crc16_loop env (flip_bit buf k j) (k + 1 + m) ≠ crc16_loop env buf (k + 1 + m) := by
  induction m with
  | zero =>
    intro h
    have hpre : crc16_loop env (flip_bit buf k j) k = crc16_loop env buf k :=
      crc16_loop_congr env _ _ k (fun i hi => store_other _ _ _ _ (by omega))
    have hk : flip_bit buf k j k = buf k ^^^ (1 <<< j) := store_same _ _ _
    rw [Nat.add_zero] at h
    unfold crc16_loop at h
    rw [hpre, hk] at h
    exact flipped_byte_ne _ _
      (hinj.2 _ _ _ (flipped_byte_lt _ _ hbyte hj) hbyte (crc16_loop_lt env buf k) h)
  | succ n ih =>
    intro h
    have hk : flip_bit buf k j (k + 1 + n) = buf (k + 1 + n) :=
      store_other _ _ _ _ (by omega)
    rw [← Nat.add_assoc] at h
    unfold crc16_loop at h
    rw [hk] at h
    exact ih (hinj.1 _ _ _ (crc16_loop_lt env _ _) (crc16_loop_lt env _ _) h)

theorem uart_send_package_sum (env : Env) (hw : Inputs) (s : State) :
    (uart_send_package env hw s).ui8_tx_buffer 25
        + 256 * (uart_send_package env hw s).ui8_tx_buffer 26
      = crc16_loop env (uart_send_package env hw s).ui8_tx_buffer 25 := by
  have hlt := crc16_loop_lt env (tx_payload env hw s) 25
  rw [uart_send_package_crc, uart_send_package_tx, store_other _ _ _ _ (by omega), store_same,
    store_same, and_255_eq_mod, and_255_eq_mod, Nat.shiftRight_eq_div_pow]
  unfold u8
  omega

theorem crc16_bit_lt (c : Nat) (h : c < 65536) : crc16_bit c < 65536 := by
  have h1 : c >>> 1 < 2 ^ 16 := by
    rw [Nat.shiftRight_eq_div_pow]
    omega
  unfold crc16_bit
  split_ifs
  · exact Nat.xor_lt_two_pow h1 (by decide)
  · exact h1

theorem xor_a001_ge (x : Nat) (h : x < 32768) : 32768 ≤ x ^^^ 0xA001 := by
  have h1 : (x ^^^ 0xA001).testBit 15 = true := by
    rw [Nat.testBit_xor, Nat.testBit_lt_two_pow (i := 15) h]
    decide
  exact Nat.testBit_implies_ge h1

theorem crc16_bit_inv_left (c : Nat) (h : c < 65536) : crc16_bit_inv (crc16_bit c) = c := by
  have h1 : c >>> 1 = c / 2 := by
    rw [Nat.shiftRight_eq_div_pow]
  have h2 : c &&& 1 = c % 2 := Nat.and_one_is_mod c
  unfold crc16_bit
  rw [h1, h2]
  split_ifs with hodd
  · unfold crc16_bit_inv
    rw [if_pos (xor_a001_ge _ (by omega)), Nat.xor_cancel_right]
    omega
  · unfold crc16_bit_inv
    rw [if_neg (by omega)]
    omega

theorem crc16_bit_inj (x y : Nat) (hx : x < 65536) (hy : y < 65536)
    (h : crc16_bit x = crc16_bit y) : x = y := by
  rw [← crc16_bit_inv_left x hx, ← crc16_bit_inv_left y hy, h]

theorem crc16_bit8_inj (x y : Nat) (hx : x < 65536) (hy : y < 65536)
    (h : crc16_bit (crc16_bit (crc16_bit (crc16_bit (crc16_bit (crc16_bit (crc16_bit
        (crc16_bit x)))))))
      = crc16_bit (crc16_bit (crc16_bit (crc16_bit (crc16_bit (crc16_bit (crc16_bit
        (crc16_bit y)))))))) : x = y :=
  (crc16_bit_inj _ _ hx hy (crc16_bit_inj _ _ (crc16_bit_lt _ hx) (crc16_bit_lt _ hy) (crc16_bit_inj _ _ (crc16_bit_lt _ (crc16_bit_lt _ hx)) (crc16_bit_lt _ (crc16_bit_lt _ hy)) (crc16_bit_inj _ _ (crc16_bit_lt _ (crc16_bit_lt _ (crc16_bit_lt _ hx))) (crc16_bit_lt _ (crc16_bit_lt _ (crc16_bit_lt _ hy))) (crc16_bit_inj _ _ (crc16_bit_lt _ (crc16_bit_lt _ (crc16_bit_lt _ (crc16_bit_lt _ hx)))) (crc16_bit_lt _ (crc16_bit_lt _ (crc16_bit_lt _ (crc16_bit_lt _ hy)))) (crc16_bit_inj _ _ (crc16_bit_lt _ (crc16_bit_lt _ (crc16_bit_lt _ (crc16_bit_lt _ (crc16_bit_lt _ hx))))) (crc16_bit_lt _ (crc16_bit_lt _ (crc16_bit_lt _ (crc16_bit_lt _ (crc16_bit_lt _ hy))))) (crc16_bit_inj _ _ (crc16_bit_lt _ (crc16_bit_lt _ (crc16_bit_lt _ (crc16_bit_lt _ (crc16_bit_lt _ (crc16_bit_lt _ hx)))))) (crc16_bit_lt _ (crc16_bit_lt _ (crc16_bit_lt _ (crc16_bit_lt _ (crc16_bit_lt _ (crc16_bit_lt _ hy)))))) (crc16_bit_inj _ _ (crc16_bit_lt _ (crc16_bit_lt _ (crc16_bit_lt _ (crc16_bit_lt _ (crc16_bit_lt _ (crc16_bit_lt _ (crc16_bit_lt _ hx))))))) (crc16_bit_lt _ (crc16_bit_lt _ (crc16_bit_lt _ (crc16_bit_lt _ (crc16_bit_lt _ (crc16_bit_lt _ (crc16_bit_lt _ hy))))))) h))))))))

theorem crc16_bit8_lt (x : Nat) (hx : x < 65536) :
    crc16_bit (crc16_bit (crc16_bit (crc16_bit (crc16_bit (crc16_bit (crc16_bit
        (crc16_bit x))))))) < 65536 :=
  (crc16_bit_lt _ (crc16_bit_lt _ (crc16_bit_lt _ (crc16_bit_lt _ (crc16_bit_lt _ (crc16_bit_lt _ (crc16_bit_lt _ (crc16_bit_lt _ hx))))))))

theorem crc16_a001_lt (d c : Nat) : crc16_a001 d c < 65536 := by
  unfold crc16_a001
  apply crc16_bit8_lt
  have h1 : u16 c < 2 ^ 16 := by unfold u16; omega
  have h2 : u8 d < 2 ^ 16 := by unfold u8; omega
  exact Nat.xor_lt_two_pow h1 h2

theorem crc16_a001_step_injective : crc16_step_injective sample_env := by
  have hlt : ∀ a b : Nat, u16 a ^^^ u8 b < 65536 := by
    intro a b
    have h1 : u16 a < 2 ^ 16 := by unfold u16; omega
    have h2 : u8 b < 2 ^ 16 := by unfold u8; omega
    exact Nat.xor_lt_two_pow h1 h2
  have hu : ∀ d c : Nat, u16 (sample_env.crc16 d c) = crc16_a001 d c := by
    intro d c
    have h := crc16_a001_lt d c
    show u16 (crc16_a001 d c) = crc16_a001 d c
    unfold u16
    omega
  constructor
  · intro d c c' hc hc' h
    rw [hu, hu] at h
    unfold crc16_a001 at h
    have h1 : u16 c ^^^ u8 d = u16 c' ^^^ u8 d :=
      crc16_bit8_inj _ _ (hlt c d)
        (hlt c' d) h
    rw [Nat.xor_comm (u16 c), Nat.xor_comm (u16 c')] at h1
    have h2 := xor_left_cancel _ _ _ h1
    unfold u16 at h2
    omega
  · intro d d' c hd hd' hc h
    rw [hu, hu] at h
    unfold crc16_a001 at h
    have h1 : u16 c ^^^ u8 d = u16 c ^^^ u8 d' :=
      crc16_bit8_inj _ _ (hlt c d)
        (hlt c d') h
    have h2 := xor_left_cancel _ _ _ h1
    unfold u8 at h2
    omega

/-- C14: for the telemetry frame composed by `uart_send_package` and every bit `j`
of every payload byte `k` in 0..24, the frame with that one bit flipped (bytes 25
and 26 left as they were) fails validation: the CRC16 recomputed over the altered
bytes 0..24 differs from byte25 + 256 * byte26.  The CRC step is taken as any
function that is one-to-one in the accumulator and in the data byte. -/
theorem telemetry_single_bit_flip_fails (env : Env) (hw : Inputs) (s : State)
    (hinj : crc16_step_injective env) (k j : Nat) (hk : k < 25) (hj : j < 8)
    (hbyte : (uart_send_package env hw s).ui8_tx_buffer k < 256) :
    flip_bit (uart_send_package env hw s).ui8_tx_buffer k j 25
      = (uart_send_package env hw s).ui8_tx_buffer 25 ∧
    flip_bit (uart_send_package env hw s).ui8_tx_buffer k j 26
      = (uart_send_package env hw s).ui8_tx_buffer 26 ∧
    crc16_loop env (flip_bit (uart_send_package env hw s).ui8_tx_buffer k j) 25
      ≠ flip_bit (uart_send_package env hw s).ui8_tx_buffer k j 25
        + 256 * flip_bit (uart_send_package env hw s).ui8_tx_buffer k j 26 := by
  have h25 : flip_bit (uart_send_package env hw s).ui8_tx_buffer k j 25
      = (uart_send_package env hw s).ui8_tx_buffer 25 := store_other _ _ _ _ (by omega)
  have h26 : flip_bit (uart_send_package env hw s).ui8_tx_buffer k j 26
      = (uart_send_package env hw s).ui8_tx_buffer 26 := store_other _ _ _ _ (by omega)
  refine ⟨h25, h26, ?_⟩
  rw [h25, h26]
  have hsum := uart_send_package_sum env hw s
  rw [hsum]
  have hne := crc16_loop_flip_ne env hinj (uart_send_package env hw s).ui8_tx_buffer k j
    hbyte hj (24 - k)
  have hidx : k + 1 + (24 - k) = 25 := by omega
  rw [hidx] at hne
  exact hne

/-- Witness for C14: bit 3 of byte 2 of the frame sent from the power-on state, with
the reflected CRC16 of polynomial `0xA001`. -/
theorem telemetry_single_bit_flip_fails_witness :
    crc16_step_injective sample_env ∧ 2 < 25 ∧ 3 < 8 ∧
    (uart_send_package sample_env idle_inputs (initial_state sample_env)).ui8_tx_buffer 2 < 256 ∧
    crc16_loop sample_env
      (flip_bit (uart_send_package sample_env idle_inputs
        (initial_state sample_env)).ui8_tx_buffer 2 3) 25
      ≠ flip_bit (uart_send_package sample_env idle_inputs
          (initial_state sample_env)).ui8_tx_buffer 2 3 25
        + 256 * flip_bit (uart_send_package sample_env idle_inputs
          (initial_state sample_env)).ui8_tx_buffer 2 3 26 :=
  ⟨crc16_a001_step_injective, by decide, by decide, by decide,
    (telemetry_single_bit_flip_fails sample_env idle_inputs (initial_state sample_env)
      crc16_a001_step_injective 2 3 (by decide) (by decide) (by decide)).2.2⟩

/-! ## The receive state machine -/

theorem irq_wait_start_other (data : Nat) (s : State) (h0 : s.ui8_state_machine = 0)
    (hd : u8 data ≠ 0x59) :
    UART2_IRQHandler true data s =
      { s with ui8_byte_received := u8 data, ui8_rx_counter := 0, ui8_state_machine := 0 } := by
  unfold UART2_IRQHandler
  rw [if_pos rfl]
  dsimp only
  split
  · rw [if_neg hd]
  · exfalso; omega
  · contradiction

theorem irq_wait_start_marker (data : Nat) (s : State) (h0 : s.ui8_state_machine = 0)
    (hd : u8 data = 0x59) :
    UART2_IRQHandler true data s =
      { s with
        ui8_byte_received := u8 data
        ui8_rx_buffer := store s.ui8_rx_buffer s.ui8_rx_counter (u8 data)
        ui8_rx_counter := u8 (s.ui8_rx_counter + 1)
        ui8_state_machine := 1 } := by
  unfold UART2_IRQHandler
  rw [if_pos rfl]
  dsimp only
  split
  · rw [if_pos hd]
  · exfalso; omega
  · contradiction

theorem irq_in_frame_more (data : Nat) (s : State) (h1 : s.ui8_state_machine = 1)
    (hc : s.ui8_rx_counter + 1 < 10) :
    UART2_IRQHandler true data s =
      { s with
        ui8_byte_received := u8 data
        ui8_rx_buffer := store s.ui8_rx_buffer s.ui8_rx_counter (u8 data)
        ui8_rx_counter := s.ui8_rx_counter + 1 } := by
  have hu : u8 (s.ui8_rx_counter + 1) = s.ui8_rx_counter + 1 := by unfold u8; omega
  unfold UART2_IRQHandler
  rw [if_pos rfl]
  dsimp only
  split
  · exfalso; omega
  · rw [if_neg (by omega), hu]
  · contradiction

theorem irq_in_frame_last (data : Nat) (s : State) (h1 : s.ui8_state_machine = 1)
    (hc : s.ui8_rx_counter = 9) :
    UART2_IRQHandler true data s =
      { s with
        ui8_byte_received := u8 data
        ui8_rx_buffer := store s.ui8_rx_buffer s.ui8_rx_counter (u8 data)
        ui8_rx_counter := 0
        ui8_state_machine := 0
        ui8_received_package_flag := 1
        UART2_CR2 := s.UART2_CR2 &&& (255 - (1 <<< 5)) } := by
  have hu : u8 (s.ui8_rx_counter + 1) = 10 := by rw [hc]; rfl
  unfold UART2_IRQHandler
  rw [if_pos rfl]
  dsimp only
  split
  · exfalso; omega
  · rw [if_pos (by omega)]
  · contradiction

theorem uart_receive_bytes_cons (b : Nat) (l : List Nat) (s : State) :
    uart_receive_bytes (b :: l) s = uart_receive_bytes l (UART2_IRQHandler true b s) := rfl

theorem in_frame_run (l : List Nat) : ∀ s : State, s.ui8_state_machine = 1 →
    s.ui8_rx_counter + l.length < 10 →
    (uart_receive_bytes l s).ui8_state_machine = 1 ∧
    (uart_receive_bytes l s).ui8_rx_counter = s.ui8_rx_counter + l.length ∧
    (uart_receive_bytes l s).ui8_received_package_flag = s.ui8_received_package_flag ∧
    (uart_receive_bytes l s).UART2_CR2 = s.UART2_CR2 ∧
    (∀ i, (uart_receive_bytes l s).ui8_rx_buffer i =
      if s.ui8_rx_counter ≤ i ∧ i < s.ui8_rx_counter + l.length then
        u8 (l.getD (i - s.ui8_rx_counter) 0)
      else s.ui8_rx_buffer i) := by
  induction l with
  | nil =>
    intro s h1 _
    refine ⟨h1, rfl, rfl, rfl, ?_⟩
    intro i
    rw [if_neg (by simp)]
    rfl
  | cons b l ih =>
    intro s h1 hc
    rw [List.length_cons] at hc
    have hstep := irq_in_frame_more b s h1 (by omega)
    have hs1 : (UART2_IRQHandler true b s).ui8_state_machine = 1 := by rw [hstep]; exact h1
    have hs2 : (UART2_IRQHandler true b s).ui8_rx_counter = s.ui8_rx_counter + 1 := by
      rw [hstep]
    have hs3 : (UART2_IRQHandler true b s).ui8_received_package_flag
        = s.ui8_received_package_flag := by rw [hstep]
    have hs4 : (UART2_IRQHandler true b s).UART2_CR2 = s.UART2_CR2 := by rw [hstep]
    have hs5 : (UART2_IRQHandler true b s).ui8_rx_buffer
        = store s.ui8_rx_buffer s.ui8_rx_counter (u8 b) := by rw [hstep]
    obtain ⟨a1, a2, a3, a4, a5⟩ := ih (UART2_IRQHandler true b s) hs1 (by rw [hs2]; omega)
    rw [uart_receive_bytes_cons]
    refine ⟨a1, ?_, a3.trans hs3, a4.trans hs4, ?_⟩
    · rw [a2, hs2, List.length_cons]
      omega
    · intro i
      rw [a5 i, hs2, hs5, List.length_cons]
      rcases Nat.lt_trichotomy i s.ui8_rx_counter with h | h | h
      · rw [if_neg (by omega), if_neg (by omega), store_other _ _ _ _ (by omega)]
      · rw [if_neg (by omega), if_pos (by omega), h, store_same, Nat.sub_self]
        rfl
      · rw [store_other _ _ _ _ (by omega)]
        have hidx : i - s.ui8_rx_counter = (i - (s.ui8_rx_counter + 1)) + 1 := by omega
        rw [hidx, List.getD_cons_succ]
        by_cases hr : i < s.ui8_rx_counter + 1 + l.length
        · rw [if_pos ⟨by omega, hr⟩, if_pos ⟨by omega, by omega⟩]
        · rw [if_neg (by omega), if_neg (by omega)]

theorem frame_completing_run (l : List Nat) : ∀ s : State, s.ui8_state_machine = 1 →
    l ≠ [] → s.ui8_rx_counter + l.length = 10 →
    (uart_receive_bytes l s).ui8_state_machine = 0 ∧
    (uart_receive_bytes l s).ui8_rx_counter = 0 ∧
    (uart_receive_bytes l s).ui8_received_package_flag = 1 ∧
    (uart_receive_bytes l s).UART2_CR2 = s.UART2_CR2 &&& (255 - (1 <<< 5)) ∧
    (∀ i, (uart_receive_bytes l s).ui8_rx_buffer i =
      if s.ui8_rx_counter ≤ i ∧ i < 10 then u8 (l.getD (i - s.ui8_rx_counter) 0)
      else s.ui8_rx_buffer i) := by
  induction l with
  | nil =>
    intro s _ hne _
    exact absurd rfl hne
  | cons b l ih =>
    intro s h1 _ hc
    rw [List.length_cons] at hc
    rw [uart_receive_bytes_cons]
    by_cases hl : l = []
    · subst hl
      rw [List.length_nil] at hc
      have hstep := irq_in_frame_last b s h1 (by omega)
      have hnil : ∀ t : State, uart_receive_bytes [] t = t := fun _ => rfl
      rw [hnil, hstep]
      refine ⟨rfl, rfl, rfl, rfl, ?_⟩
      intro i
      show store s.ui8_rx_buffer s.ui8_rx_counter (u8 b) i = _
      by_cases hi : i = s.ui8_rx_counter
      · rw [hi, store_same, if_pos (by omega), Nat.sub_self]
        rfl
      · rw [store_other _ _ _ _ hi, if_neg (by omega)]
    · have hpos : 0 < l.length := List.length_pos.mpr hl
      have hstep := irq_in_frame_more b s h1 (by omega)
      have hs1 : (UART2_IRQHandler true b s).ui8_state_machine = 1 := by rw [hstep]; exact h1
      have hs2 : (UART2_IRQHandler true b s).ui8_rx_counter = s.ui8_rx_counter + 1 := by
        rw [hstep]
      have hs4 : (UART2_IRQHandler true b s).UART2_CR2 = s.UART2_CR2 := by rw [hstep]
      have hs5 : (UART2_IRQHandler true b s).ui8_rx_buffer
          = store s.ui8_rx_buffer s.ui8_rx_counter (u8 b) := by rw [hstep]
      obtain ⟨a1, a2, a3, a4, a5⟩ :=
        ih (UART2_IRQHandler true b s) hs1 hl (by rw [hs2]; omega)
      refine ⟨a1, a2, a3, by rw [a4, hs4], ?_⟩
      intro i
      rw [a5 i, hs2, hs5]
      rcases Nat.lt_trichotomy i s.ui8_rx_counter with h | h | h
      · rw [if_neg (by omega), if_neg (by omega), store_other _ _ _ _ (by omega)]
      · rw [if_neg (by omega), if_pos (by omega), h, store_same, Nat.sub_self]
        rfl
      · rw [store_other _ _ _ _ (by omega)]
        have hidx : i - s.ui8_rx_counter = (i - (s.ui8_rx_counter + 1)) + 1 := by omega
        rw [hidx, List.getD_cons_succ]
        by_cases hr : i < 10
        · rw [if_pos ⟨by omega, hr⟩, if_pos ⟨by omega, by omega⟩]
        · rw [if_neg (by omega), if_neg (by omega)]

/-- C15: the receive state machine of `UART2_IRQHandler` in WaitStart (state 0,
index 0).  A byte other than 0x59 leaves the buffer, the index and the frame-ready
flag unchanged and stays in WaitStart.  A byte 0x59 followed by any nine bytes
leaves the buffer equal to these ten bytes, leaves the frame-ready flag as it was
after each of the first nine bytes and sets it with the tenth, clears bit 5 of
`UART2->CR2` (reception disabled), and returns to WaitStart with index 0. -/
theorem receive_state_machine_frames (s : State)
    (h0 : s.ui8_state_machine = 0) (hc : s.ui8_rx_counter = 0) :
    (∀ data, data < 256 → data ≠ 0x59 →
      (UART2_IRQHandler true data s).ui8_rx_buffer = s.ui8_rx_buffer ∧
      (UART2_IRQHandler true data s).ui8_rx_counter = 0 ∧
      (UART2_IRQHandler true data s).ui8_received_package_flag
        = s.ui8_received_package_flag ∧
      (UART2_IRQHandler true data s).ui8_state_machine = 0) ∧
    (∀ l : List Nat, l.length = 9 → (∀ b ∈ l, b < 256) →
      (∀ i, i < 10 → (uart_receive_bytes (0x59 :: l) s).ui8_rx_buffer i = bytes (0x59 :: l) i) ∧
      (∀ n, n < 10 → (uart_receive_bytes ((0x59 :: l).take n) s).ui8_received_package_flag
        = s.ui8_received_package_flag) ∧
      (uart_receive_bytes (0x59 :: l) s).ui8_received_package_flag = 1 ∧
      (uart_receive_bytes (0x59 :: l) s).UART2_CR2.testBit 5 = false ∧
      (uart_receive_bytes (0x59 :: l) s).ui8_state_machine = 0 ∧
      (uart_receive_bytes (0x59 :: l) s).ui8_rx_counter = 0) := by
  constructor
  · intro data hd hne
    have hu : u8 data ≠ 0x59 := by unfold u8; omega
    rw [irq_wait_start_other data s h0 hu]
    exact ⟨rfl, rfl, rfl, rfl⟩
  · intro l hl hb
    have hstep := irq_wait_start_marker 0x59 s h0 rfl
    have hs1 : (UART2_IRQHandler true 0x59 s).ui8_state_machine = 1 := by rw [hstep]
    have hs2 : (UART2_IRQHandler true 0x59 s).ui8_rx_counter = 1 := by
      rw [hstep]
      show u8 (s.ui8_rx_counter + 1) = 1
      rw [hc]
      rfl
    have hs3 : (UART2_IRQHandler true 0x59 s).ui8_received_package_flag
        = s.ui8_received_package_flag := by rw [hstep]
    have hs4 : (UART2_IRQHandler true 0x59 s).UART2_CR2 = s.UART2_CR2 := by rw [hstep]
    have hs5 : (UART2_IRQHandler true 0x59 s).ui8_rx_buffer = store s.ui8_rx_buffer 0 0x59 := by
      rw [hstep]
      show store s.ui8_rx_buffer s.ui8_rx_counter (u8 0x59) = _
      rw [hc]
      rfl
    have hne : l ≠ [] := by
      intro h
      rw [h] at hl
      exact absurd hl (by decide)
    obtain ⟨a1, a2, a3, a4, a5⟩ :=
      frame_completing_run l (UART2_IRQHandler true 0x59 s) hs1 hne (by rw [hs2, hl])
    rw [uart_receive_bytes_cons]
    refine ⟨?_, ?_, a3, ?_, a1, a2⟩
    · intro i hi
      rw [a5 i, hs2, hs5]
      by_cases hi0 : i = 0
      · rw [hi0, if_neg (by omega), store_same]
        rfl
      · rw [if_pos ⟨by omega, hi⟩]
        have hidx : i = (i - 1) + 1 := by omega
        have hlt := bytes_lt_256 l hb (i - 1)
        unfold bytes at hlt ⊢
        rw [hidx, List.getD_cons_succ, Nat.add_sub_cancel]
        unfold u8
        omega
    · intro n hn
      cases n with
      | zero => rfl
      | succ k =>
        rw [List.take_succ_cons, uart_receive_bytes_cons]
        have hlen : (l.take k).length ≤ k := List.length_take_le k l
        have hrun := in_frame_run (l.take k) (UART2_IRQHandler true 0x59 s) hs1
          (by rw [hs2]; omega)
        rw [hrun.2.2.1, hs3]
    · rw [a4, hs4, Nat.testBit_and]
      have h5 : (255 - (1 <<< 5)).testBit 5 = false := by decide
      rw [h5, Bool.and_false]

/-- Witness for C15: the ten bytes of a frame arriving after power-on. -/
theorem receive_state_machine_frames_witness :
    (initial_state sample_env).ui8_state_machine = 0 ∧
    (initial_state sample_env).ui8_rx_counter = 0 ∧
    (uart_receive_bytes (0x59 :: [4, 1, 50, 0, 0, 0, 0, 248, 136])
      (initial_state sample_env)).ui8_received_package_flag = 1 ∧
    (uart_receive_bytes (0x59 :: [4, 1, 50, 0, 0, 0, 0, 248, 136])
      (initial_state sample_env)).ui8_state_machine = 0 :=
  ⟨by decide, by decide,
    ((receive_state_machine_frames (initial_state sample_env) (by decide) (by decide)).2
      [4, 1, 50, 0, 0, 0, 0, 248, 136] (by decide) (by decide)).2.2.1,
    ((receive_state_machine_frames (initial_state sample_env) (by decide) (by decide)).2
      [4, 1, 50, 0, 0, 0, 0, 248, 136] (by decide) (by decide)).2.2.2.2.1⟩

/-! ## Power assist and torque assist -/

theorem set_current_and_duty_cycle_target_value (env : Env) (c : Nat) (s : State)
    (hmax : s.ui8_adc_battery_current_max < 256) :
    (set_current_and_duty_cycle_target env c s).ui8_adc_battery_current_target
      = min c s.ui8_adc_battery_current_max ∧
    (set_current_and_duty_cycle_target env c s).ui8_duty_cycle_target
      = if min c s.ui8_adc_battery_current_max ≠ 0 then u8 env.PWM_DUTY_CYCLE_MAX else 0 := by
  unfold set_current_and_duty_cycle_target
  dsimp only
  by_cases hc : c > s.ui8_adc_battery_current_max
  · have hmin : min c s.ui8_adc_battery_current_max = s.ui8_adc_battery_current_max := by omega
    rw [if_pos hc, hmin]
    dsimp only
    split_ifs <;> exact ⟨rfl, rfl⟩
  · have hmin : min c s.ui8_adc_battery_current_max = c := by omega
    have hu : u8 c = c := by unfold u8; omega
    rw [if_neg hc, hmin, hu]
    dsimp only
    split_ifs <;> exact ⟨rfl, rfl⟩

theorem apply_power_assist_eq (env : Env) (s : State) :
    apply_power_assist env s =
      set_current_and_duty_cycle_target env
        (u16 (cdiv env
          (u16 (cdiv env (u32 (u32 (s.ui16_pedal_power_x10 * s.ui8_riding_mode_parameter) * 100))
            s.ui16_battery_voltage_filtered_x1000))
          env.BATTERY_CURRENT_PER_10_BIT_ADC_STEP_X10))
        (set_motor_acceleration env env.PWM_DUTY_CYCLE_RAMP_UP_INVERSE_STEP_DEFAULT s) := rfl

theorem set_motor_acceleration_current_max (env : Env) (d : Nat) (s : State) :
    (set_motor_acceleration env d s).ui8_adc_battery_current_max
      = s.ui8_adc_battery_current_max := rfl

/-- C16 (as amended): when the quotient (P * M * 100) div V fits 16 bits,
`apply_power_assist` sets the current target to
min(((P * M * 100) div V) div BATTERY_CURRENT_PER_10_BIT_ADC_STEP_X10,
ui8_adc_battery_current_max) and the duty-cycle target to `PWM_DUTY_CYCLE_MAX`
if that current target is nonzero and to 0 otherwise.  P is the pedal power x10
(16-bit), M the multiplier parameter (8-bit), V the nonzero filtered battery
voltage x1000. -/
theorem power_assist_target (env : Env) (s : State)
    (hP : s.ui16_pedal_power_x10 < 65536) (hM : s.ui8_riding_mode_parameter < 256)
    (hV : s.ui16_battery_voltage_filtered_x1000 ≠ 0)
    (hstep : env.BATTERY_CURRENT_PER_10_BIT_ADC_STEP_X10 ≠ 0)
    (hmax : s.ui8_adc_battery_current_max < 256) (hpwm : env.PWM_DUTY_CYCLE_MAX < 256)
    (hq : s.ui16_pedal_power_x10 * s.ui8_riding_mode_parameter * 100
      / s.ui16_battery_voltage_filtered_x1000 < 65536) :
    (apply_power_assist env s).ui8_adc_battery_current_target
      = min (s.ui16_pedal_power_x10 * s.ui8_riding_mode_parameter * 100
          / s.ui16_battery_voltage_filtered_x1000
          / env.BATTERY_CURRENT_PER_10_BIT_ADC_STEP_X10) s.ui8_adc_battery_current_max ∧
    (apply_power_assist env s).ui8_duty_cycle_target
      = if (apply_power_assist env s).ui8_adc_battery_current_target ≠ 0
        then env.PWM_DUTY_CYCLE_MAX else 0 := by
  have hprod : s.ui16_pedal_power_x10 * s.ui8_riding_mode_parameter ≤ 65535 * 255 :=
    Nat.mul_le_mul (by omega) (by omega)
  have h1 : u32 (s.ui16_pedal_power_x10 * s.ui8_riding_mode_parameter)
      = s.ui16_pedal_power_x10 * s.ui8_riding_mode_parameter := by unfold u32; omega
  have h2 : u32 (s.ui16_pedal_power_x10 * s.ui8_riding_mode_parameter * 100)
      = s.ui16_pedal_power_x10 * s.ui8_riding_mode_parameter * 100 := by unfold u32; omega
  have h3 : cdiv env (s.ui16_pedal_power_x10 * s.ui8_riding_mode_parameter * 100)
      s.ui16_battery_voltage_filtered_x1000
      = s.ui16_pedal_power_x10 * s.ui8_riding_mode_parameter * 100
        / s.ui16_battery_voltage_filtered_x1000 := by
    unfold cdiv
    rw [if_neg hV]
  have h4 : u16 (s.ui16_pedal_power_x10 * s.ui8_riding_mode_parameter * 100
      / s.ui16_battery_voltage_filtered_x1000)
      = s.ui16_pedal_power_x10 * s.ui8_riding_mode_parameter * 100
        / s.ui16_battery_voltage_filtered_x1000 := Nat.mod_eq_of_lt hq
  have h5 : ∀ q, cdiv env q env.BATTERY_CURRENT_PER_10_BIT_ADC_STEP_X10
      = q / env.BATTERY_CURRENT_PER_10_BIT_ADC_STEP_X10 := by
    intro q
    unfold cdiv
    rw [if_neg hstep]
  have h6 : u16 (s.ui16_pedal_power_x10 * s.ui8_riding_mode_parameter * 100
      / s.ui16_battery_voltage_filtered_x1000 / env.BATTERY_CURRENT_PER_10_BIT_ADC_STEP_X10)
      = s.ui16_pedal_power_x10 * s.ui8_riding_mode_parameter * 100
        / s.ui16_battery_voltage_filtered_x1000
        / env.BATTERY_CURRENT_PER_10_BIT_ADC_STEP_X10 := by
    have hle := Nat.div_le_self (s.ui16_pedal_power_x10 * s.ui8_riding_mode_parameter * 100
      / s.ui16_battery_voltage_filtered_x1000) env.BATTERY_CURRENT_PER_10_BIT_ADC_STEP_X10
    exact Nat.mod_eq_of_lt (Nat.lt_of_le_of_lt hle hq)
  have hu : u8 env.PWM_DUTY_CYCLE_MAX = env.PWM_DUTY_CYCLE_MAX := by unfold u8; omega
  have hval := set_current_and_duty_cycle_target_value env
    (s.ui16_pedal_power_x10 * s.ui8_riding_mode_parameter * 100
      / s.ui16_battery_voltage_filtered_x1000 / env.BATTERY_CURRENT_PER_10_BIT_ADC_STEP_X10)
    (set_motor_acceleration env env.PWM_DUTY_CYCLE_RAMP_UP_INVERSE_STEP_DEFAULT s)
    (by rw [set_motor_acceleration_current_max]; exact hmax)
  rw [set_motor_acceleration_current_max, hu] at hval
  rw [apply_power_assist_eq, h1, h2, h3, h4, h5, h6, hval.1]
  exact ⟨rfl, hval.2⟩

/-- Counterexample to C16 as stated: with P = 6554, M = 10, V = 100 the quotient
65540 does not fit the 16-bit variable that stores it; the code continues with 4
and sets the current target to 2, where the claimed formula gives 106. -/
theorem power_assist_quotient_wraps_counterexample :
    power_assist_wrap_state.ui16_pedal_power_x10 < 65536 ∧
    power_assist_wrap_state.ui8_riding_mode_parameter < 256 ∧
    power_assist_wrap_state.ui16_battery_voltage_filtered_x1000 ≠ 0 ∧
    power_assist_wrap_state.ui16_battery_voltage_filtered_x1000 < 65536 ∧
    (apply_power_assist sample_env power_assist_wrap_state).ui8_adc_battery_current_target = 2 ∧
    min (power_assist_wrap_state.ui16_pedal_power_x10
          * power_assist_wrap_state.ui8_riding_mode_parameter * 100
          / power_assist_wrap_state.ui16_battery_voltage_filtered_x1000
          / sample_env.BATTERY_CURRENT_PER_10_BIT_ADC_STEP_X10)
        power_assist_wrap_state.ui8_adc_battery_current_max = 106 := by
  decide

/-- Witness for C16 (as amended): the example of the spec, M = 5, P = 200,
V = 36000, which gives (100000 div 36000) div 2 = 1. -/
theorem power_assist_target_witness :
    power_assist_example_state.ui16_pedal_power_x10 < 65536 ∧
    power_assist_example_state.ui8_riding_mode_parameter < 256 ∧
    power_assist_example_state.ui16_battery_voltage_filtered_x1000 ≠ 0 ∧
    sample_env.BATTERY_CURRENT_PER_10_BIT_ADC_STEP_X10 ≠ 0 ∧
    power_assist_example_state.ui8_adc_battery_current_max < 256 ∧
    sample_env.PWM_DUTY_CYCLE_MAX < 256 ∧
    power_assist_example_state.ui16_pedal_power_x10
      * power_assist_example_state.ui8_riding_mode_parameter * 100
      / power_assist_example_state.ui16_battery_voltage_filtered_x1000 < 65536 ∧
    (apply_power_assist sample_env power_assist_example_state).ui8_adc_battery_current_target
      = min (power_assist_example_state.ui16_pedal_power_x10
          * power_assist_example_state.ui8_riding_mode_parameter * 100
          / power_assist_example_state.ui16_battery_voltage_filtered_x1000
          / sample_env.BATTERY_CURRENT_PER_10_BIT_ADC_STEP_X10)
        power_assist_example_state.ui8_adc_battery_current_max :=
  ⟨by decide, by decide, by decide, by decide, by decide, by decide, by decide,
    (power_assist_target sample_env power_assist_example_state (by decide) (by decide)
      (by decide) (by decide) (by decide) (by decide) (by decide)).1⟩

theorem apply_torque_assist_eq (env : Env) (s : State) :
    apply_torque_assist env s =
      set_current_and_duty_cycle_target env
        (if s.ui16_adc_pedal_torque_delta > 6 ∧ s.ui8_pedal_cadence_RPM ≠ 0 then
          u16 (u16 (u16 (s.ui16_adc_pedal_torque_delta - 6) * s.ui8_riding_mode_parameter) / 110)
        else 0)
        (set_motor_acceleration env env.PWM_DUTY_CYCLE_RAMP_UP_INVERSE_STEP_DEFAULT s) := rfl

/-- C17 (as amended): when the product (D - 6) * F fits 16 bits,
`apply_torque_assist` sets the current target to 0 when the cadence is 0 or
D <= 6, and otherwise to min(((D - 6) * F) div 110, ui8_adc_battery_current_max);
the duty-cycle target is `PWM_DUTY_CYCLE_MAX` exactly when the resulting current
target is nonzero and 0 otherwise.  D is the torque delta (16-bit), F the assist
factor. -/
theorem torque_assist_target (env : Env) (s : State)
    (hD : s.ui16_adc_pedal_torque_delta < 65536)
    (hmax : s.ui8_adc_battery_current_max < 256) (hpwm : env.PWM_DUTY_CYCLE_MAX < 256)
    (hprod : (s.ui16_adc_pedal_torque_delta - 6) * s.ui8_riding_mode_parameter < 65536) :
    (apply_torque_assist env s).ui8_adc_battery_current_target
      = (if s.ui8_pedal_cadence_RPM = 0 ∨ s.ui16_adc_pedal_torque_delta ≤ 6 then 0
        else min ((s.ui16_adc_pedal_torque_delta - 6) * s.ui8_riding_mode_parameter / 110)
          s.ui8_adc_battery_current_max) ∧
    (apply_torque_assist env s).ui8_duty_cycle_target
      = if (apply_torque_assist env s).ui8_adc_battery_current_target ≠ 0
        then env.PWM_DUTY_CYCLE_MAX else 0 := by
  have hu : u8 env.PWM_DUTY_CYCLE_MAX = env.PWM_DUTY_CYCLE_MAX := by unfold u8; omega
  have h1 : u16 (s.ui16_adc_pedal_torque_delta - 6) = s.ui16_adc_pedal_torque_delta - 6 := by
    unfold u16
    omega
  have h2 : u16 ((s.ui16_adc_pedal_torque_delta - 6) * s.ui8_riding_mode_parameter)
      = (s.ui16_adc_pedal_torque_delta - 6) * s.ui8_riding_mode_parameter :=
    Nat.mod_eq_of_lt hprod
  have h3 : u16 ((s.ui16_adc_pedal_torque_delta - 6) * s.ui8_riding_mode_parameter / 110)
      = (s.ui16_adc_pedal_torque_delta - 6) * s.ui8_riding_mode_parameter / 110 :=
    Nat.mod_eq_of_lt (Nat.lt_of_le_of_lt (Nat.div_le_self _ _) hprod)
  have hval := fun c => set_current_and_duty_cycle_target_value env c
    (set_motor_acceleration env env.PWM_DUTY_CYCLE_RAMP_UP_INVERSE_STEP_DEFAULT s)
    (by rw [set_motor_acceleration_current_max]; exact hmax)
  rw [apply_torque_assist_eq, h1, h2, h3]
  by_cases hc : s.ui16_adc_pedal_torque_delta > 6 ∧ s.ui8_pedal_cadence_RPM ≠ 0
  · have hv := hval ((s.ui16_adc_pedal_torque_delta - 6) * s.ui8_riding_mode_parameter / 110)
    rw [set_motor_acceleration_current_max, hu] at hv
    rw [if_pos hc, if_neg (by omega), hv.1]
    exact ⟨rfl, hv.2⟩
  · have hv := hval 0
    rw [set_motor_acceleration_current_max, hu, Nat.zero_min] at hv
    rw [if_neg hc, if_pos (by omega), hv.1]
    exact ⟨rfl, hv.2⟩

/-- Counterexample to C17 as stated: with D = 264, F = 255 and the cadence nonzero
the product 258 * 255 = 65790 wraps to 254 in 16 bits, so the code sets the current
target to 254 div 110 = 2, where the claimed formula gives min(598, 106) = 106. -/
theorem torque_assist_product_wraps_counterexample :
    torque_assist_wrap_state.ui16_adc_pedal_torque_delta < 65536 ∧
    torque_assist_wrap_state.ui8_riding_mode_parameter < 256 ∧
    torque_assist_wrap_state.ui8_pedal_cadence_RPM ≠ 0 ∧
    6 < torque_assist_wrap_state.ui16_adc_pedal_torque_delta ∧
    (apply_torque_assist sample_env torque_assist_wrap_state).ui8_adc_battery_current_target = 2 ∧
    min ((torque_assist_wrap_state.ui16_adc_pedal_torque_delta - 6)
          * torque_assist_wrap_state.ui8_riding_mode_parameter / 110)
        torque_assist_wrap_state.ui8_adc_battery_current_max = 106 := by
  decide

/-- Witness for C17 (as amended): D = 116, F = 55, cadence 60 RPM, which gives
(110 * 55) div 110 = 55. -/
theorem torque_assist_target_witness :
    torque_assist_example_state.ui16_adc_pedal_torque_delta < 65536 ∧
    torque_assist_example_state.ui8_adc_battery_current_max < 256 ∧
    sample_env.PWM_DUTY_CYCLE_MAX < 256 ∧
    (torque_assist_example_state.ui16_adc_pedal_torque_delta - 6)
      * torque_assist_example_state.ui8_riding_mode_parameter < 65536 ∧
    (apply_torque_assist sample_env torque_assist_example_state).ui8_duty_cycle_target
      = if (apply_torque_assist sample_env
            torque_assist_example_state).ui8_adc_battery_current_target ≠ 0
        then sample_env.PWM_DUTY_CYCLE_MAX else 0 :=
  ⟨by decide, by decide, by decide, by decide,
    (torque_assist_target sample_env torque_assist_example_state (by decide) (by decide)
      (by decide) (by decide)).2⟩

/-! ## Cruise control -/

theorem cruise_seed_current_max (s : State) :
    (if s.ui8_cruise_PID_initialized = 0 then cruise_PID_reset s else s).ui8_adc_battery_current_max
      = s.ui8_adc_battery_current_max := by
  split_ifs <;> rfl

theorem apply_cruise_active (env : Env) (s : State)
    (h : s.ui16_wheel_speed_x10 > env.CRUISE_THRESHOLD_SPEED_X10) :
    0 ≤ (apply_cruise env s).i16_integral ∧ (apply_cruise env s).i16_integral ≤ 1000 ∧
    0 ≤ (apply_cruise env s).i16_control_output ∧
    (apply_cruise env s).i16_control_output ≤ 1000 ∧
    (apply_cruise env s).ui8_adc_battery_current_target = s.ui8_adc_battery_current_max ∧
    (apply_cruise env s).ui8_duty_cycle_target
      = u8 (env.map (u32_of_int (apply_cruise env s).i16_control_output) 0 1000 0
          (u32 env.PWM_DUTY_CYCLE_MAX)) := by
  have hmax := cruise_seed_current_max s
  unfold apply_cruise
  rw [if_pos h]
  dsimp only
  generalize (if s.ui8_cruise_PID_initialized = 0 then cruise_PID_reset s else s) = s1 at hmax ⊢
  refine ⟨?_, ?_, ?_, ?_, hmax, rfl⟩
  · split_ifs <;> omega
  · split_ifs <;> omega
  · split_ifs <;> omega
  · split_ifs <;> omega

theorem u32_of_int_le (x : Int) (h0 : 0 ≤ x) (h1 : x ≤ 1000) : u32_of_int x ≤ 1000 := by
  unfold u32_of_int
  omega

theorem u8_le (x : Nat) : u8 x ≤ x := Nat.mod_le x 256

theorem cruise_run_concat (env : Env) (l : List (Nat × Nat)) (p : Nat × Nat) (s : State) :
    cruise_run env (l ++ [p]) s =
      apply_cruise env
        { cruise_run env l s with ui16_wheel_speed_x10 := p.1, ui8_riding_mode_parameter := p.2 } := by
  unfold cruise_run
  rw [List.foldl_append]
  rfl

/-- C18: after each call of `apply_cruise` with the wheel speed above
`CRUISE_THRESHOLD_SPEED_X10`, whatever the previous PID state and the mode
parameter, the integral term is within [0, 1000], the control output is within
[0, 1000], the duty-cycle target is at most `PWM_DUTY_CYCLE_MAX` and the current
target equals `ui8_adc_battery_current_max`; hence the bounds hold after every
run of active ticks, of any length and with any wheel speeds above the threshold
(so also 1000 ticks with the speed held at the latched target).  The helper `map`
is assumed to return at most `PWM_DUTY_CYCLE_MAX` between the output breakpoints
0 and `PWM_DUTY_CYCLE_MAX`. -/
theorem cruise_outputs_bounded (env : Env)
    (hmap : ∀ x, x ≤ 1000 →
      env.map x 0 1000 0 (u32 env.PWM_DUTY_CYCLE_MAX) ≤ env.PWM_DUTY_CYCLE_MAX) :
    (∀ s : State, s.ui16_wheel_speed_x10 > env.CRUISE_THRESHOLD_SPEED_X10 →
      0 ≤ (apply_cruise env s).i16_integral ∧ (apply_cruise env s).i16_integral ≤ 1000 ∧
      0 ≤ (apply_cruise env s).i16_control_output ∧
      (apply_cruise env s).i16_control_output ≤ 1000 ∧
      (apply_cruise env s).ui8_duty_cycle_target ≤ env.PWM_DUTY_CYCLE_MAX ∧
      (apply_cruise env s).ui8_adc_battery_current_target = s.ui8_adc_battery_current_max) ∧
    (∀ (l : List (Nat × Nat)) (s : State), l ≠ [] →
      (∀ p ∈ l, p.1 > env.CRUISE_THRESHOLD_SPEED_X10) →
      0 ≤ (cruise_run env l s).i16_integral ∧ (cruise_run env l s).i16_integral ≤ 1000 ∧
      0 ≤ (cruise_run env l s).i16_control_output ∧
      (cruise_run env l s).i16_control_output ≤ 1000 ∧
      (cruise_run env l s).ui8_duty_cycle_target ≤ env.PWM_DUTY_CYCLE_MAX) := by
  have hcall : ∀ s : State, s.ui16_wheel_speed_x10 > env.CRUISE_THRESHOLD_SPEED_X10 →
      0 ≤ (apply_cruise env s).i16_integral ∧ (apply_cruise env s).i16_integral ≤ 1000 ∧
      0 ≤ (apply_cruise env s).i16_control_output ∧
      (apply_cruise env s).i16_control_output ≤ 1000 ∧
      (apply_cruise env s).ui8_duty_cycle_target ≤ env.PWM_DUTY_CYCLE_MAX ∧
      (apply_cruise env s).ui8_adc_battery_current_target = s.ui8_adc_battery_current_max := by
    intro s h
    obtain ⟨a1, a2, a3, a4, a5, a6⟩ := apply_cruise_active env s h
    refine ⟨a1, a2, a3, a4, ?_, a5⟩
    rw [a6]
    exact Nat.le_trans (u8_le _) (hmap _ (u32_of_int_le _ a3 a4))
  refine ⟨hcall, ?_⟩
  intro l s hne hall
  rcases List.eq_nil_or_concat l with hnil | ⟨l0, p, hl⟩
  · exact absurd hnil hne
  · rw [hl, List.concat_eq_append, cruise_run_concat]
    have hp : p.1 > env.CRUISE_THRESHOLD_SPEED_X10 :=
      hall p (by rw [hl, List.concat_eq_append]; exact List.mem_append_right _ (List.mem_singleton.mpr rfl))
    obtain ⟨a1, a2, a3, a4, a5, _⟩ := hcall
      { cruise_run env l0 s with ui16_wheel_speed_x10 := p.1, ui8_riding_mode_parameter := p.2 } hp
    exact ⟨a1, a2, a3, a4, a5⟩

theorem map_clamped_duty_le : ∀ x, x ≤ 1000 →
    sample_env.map x 0 1000 0 (u32 sample_env.PWM_DUTY_CYCLE_MAX)
      ≤ sample_env.PWM_DUTY_CYCLE_MAX := by
  decide

/-- Witness for C18: 1000 cruise ticks from power-on with the wheel speed held at
20.0 km/h, the speed the first tick latches as target. -/
theorem cruise_outputs_bounded_witness :
    (∀ x, x ≤ 1000 → sample_env.map x 0 1000 0 (u32 sample_env.PWM_DUTY_CYCLE_MAX)
      ≤ sample_env.PWM_DUTY_CYCLE_MAX) ∧
    cruise_start_state.ui16_wheel_speed_x10 > sample_env.CRUISE_THRESHOLD_SPEED_X10 ∧
    (apply_cruise sample_env cruise_start_state).i16_integral ≤ 1000 ∧
    (cruise_run sample_env (List.replicate 1000 (200, 0)) cruise_start_state).i16_integral
      ≤ 1000 ∧
    (cruise_run sample_env (List.replicate 1000 (200, 0)) cruise_start_state).i16_control_output
      ≤ 1000 :=
  ⟨map_clamped_duty_le, by decide,
    ((cruise_outputs_bounded sample_env map_clamped_duty_le).1 cruise_start_state
      (by decide)).2.1,
    ((cruise_outputs_bounded sample_env map_clamped_duty_le).2 (List.replicate 1000 (200, 0))
      cruise_start_state (by decide)
      (fun p hp => by rw [List.eq_of_mem_replicate hp]; decide)).2.1,
    ((cruise_outputs_bounded sample_env map_clamped_duty_le).2 (List.replicate 1000 (200, 0))
      cruise_start_state (by decide)
      (fun p hp => by rw [List.eq_of_mem_replicate hp]; decide)).2.2.2.1⟩

/-- How an active call of `apply_cruise` treats the latched target: it is seeded
when the flag `ui8_cruise_PID_initialized` is 0 and kept when the flag is set. -/
theorem apply_cruise_target (env : Env) (s : State)
    (h : s.ui16_wheel_speed_x10 > env.CRUISE_THRESHOLD_SPEED_X10) :
    (apply_cruise env s).ui8_cruise_PID_initialized ≠ 0 ∧
    (s.ui8_cruise_PID_initialized = 0 →
      (apply_cruise env s).ui16_wheel_speed_target_x10
        = if u16 (s.ui8_riding_mode_parameter * 10) > 0 then u16 (s.ui8_riding_mode_parameter * 10)
          else s.ui16_wheel_speed_x10) ∧
    (s.ui8_cruise_PID_initialized ≠ 0 →
      (apply_cruise env s).ui16_wheel_speed_target_x10 = s.ui16_wheel_speed_target_x10) := by
  unfold apply_cruise
  rw [if_pos h]
  dsimp only
  by_cases hf : s.ui8_cruise_PID_initialized = 0
  · rw [if_pos hf]
    exact ⟨Nat.one_ne_zero, fun _ => rfl, fun hn => absurd hf hn⟩
  · rw [if_neg hf]
    exact ⟨hf, fun hz => absurd hz hf, fun _ => rfl⟩

/-- C19: a cruise tick that follows a tick in another mode does not start from
the initial PID state.  After a cruise tick at 20.0 km/h (mode parameter 0, target
latched at 200) and a power-assist tick at 25.0 km/h, the flag
`ui8_cruise_PID_initialized` is still set, so the next cruise tick at 25.0 km/h
keeps the target 200 instead of latching 250, computes the error -50 instead of
0, and continues from the integral 250 of the first tick to 200 instead of
starting from the seed. -/
theorem cruise_not_reseeded_after_other_mode :
    cruise_after_first_tick.ui8_cruise_PID_initialized = 1 ∧
    cruise_after_first_tick.ui16_wheel_speed_target_x10 = 200 ∧
    cruise_after_first_tick.i16_integral = 250 ∧
    cruise_after_second_tick.ui8_riding_mode ≠ sample_env.CRUISE_MODE ∧
    cruise_after_second_tick.ui8_cruise_PID_initialized = 1 ∧
    cruise_after_third_tick.ui8_riding_mode = sample_env.CRUISE_MODE ∧
    cruise_after_third_tick.ui16_wheel_speed_x10 = 250 ∧
    cruise_after_third_tick.ui16_wheel_speed_x10 > sample_env.CRUISE_THRESHOLD_SPEED_X10 ∧
    cruise_after_third_tick.ui8_riding_mode_parameter = 0 ∧
    cruise_after_third_tick.ui16_wheel_speed_target_x10 = 200 ∧
    cruise_after_third_tick.i16_error = -50 ∧
    cruise_after_third_tick.i16_last_error = -50 ∧
    cruise_after_third_tick.i16_integral = 200 := by
  decide

/-! ## Throttle -/

/-- C20: in `WALK_ASSIST_MODE` and `CRUISE_MODE`, `apply_throttle` leaves the
current target, the duty-cycle target and both ramp steps unchanged.  In every
other mode the current target does not decrease; when the mapped throttle value
is strictly greater than the previous current target, the current target becomes
that value, the duty-cycle target `PWM_DUTY_CYCLE_MAX` and the ramp-up step 80;
otherwise the four variables are unchanged. -/
theorem throttle_only_raises_target (env : Env) (hw : Inputs) (s : State)
    (hpwm : env.PWM_DUTY_CYCLE_MAX < 256) :
    ((s.ui8_riding_mode = env.WALK_ASSIST_MODE ∨ s.ui8_riding_mode = env.CRUISE_MODE) →
      (apply_throttle env hw s).ui8_adc_battery_current_target
        = s.ui8_adc_battery_current_target ∧
      (apply_throttle env hw s).ui8_duty_cycle_target = s.ui8_duty_cycle_target ∧
      (apply_throttle env hw s).ui16_duty_cycle_ramp_up_inverse_step
        = s.ui16_duty_cycle_ramp_up_inverse_step ∧
      (apply_throttle env hw s).ui16_duty_cycle_ramp_down_inverse_step
        = s.ui16_duty_cycle_ramp_down_inverse_step) ∧
    ((s.ui8_riding_mode ≠ env.WALK_ASSIST_MODE ∧ s.ui8_riding_mode ≠ env.CRUISE_MODE) →
      s.ui8_adc_battery_current_target
        ≤ (apply_throttle env hw s).ui8_adc_battery_current_target ∧
      (throttle_current_target env hw s > s.ui8_adc_battery_current_target →
        (apply_throttle env hw s).ui8_adc_battery_current_target
          = throttle_current_target env hw s ∧
        (apply_throttle env hw s).ui8_duty_cycle_target = env.PWM_DUTY_CYCLE_MAX ∧
        (apply_throttle env hw s).ui16_duty_cycle_ramp_up_inverse_step = 80) ∧
      (¬ throttle_current_target env hw s > s.ui8_adc_battery_current_target →
        (apply_throttle env hw s).ui8_adc_battery_current_target
          = s.ui8_adc_battery_current_target ∧
        (apply_throttle env hw s).ui8_duty_cycle_target = s.ui8_duty_cycle_target ∧
        (apply_throttle env hw s).ui16_duty_cycle_ramp_up_inverse_step
          = s.ui16_duty_cycle_ramp_up_inverse_step ∧
        (apply_throttle env hw s).ui16_duty_cycle_ramp_down_inverse_step
          = s.ui16_duty_cycle_ramp_down_inverse_step)) := by
  have hu : u8 env.PWM_DUTY_CYCLE_MAX = env.PWM_DUTY_CYCLE_MAX := by unfold u8; omega
  constructor
  · intro hmode
    unfold apply_throttle
    rw [if_neg (by
      intro hc
      rcases hmode with h | h
      · exact hc.1 h
      · exact hc.2 h)]
    exact ⟨rfl, rfl, rfl, rfl⟩
  · intro hmode
    unfold apply_throttle throttle_current_target
    rw [if_pos hmode]
    dsimp only
    by_cases hgt : u8 (env.map
        (u8 (u8 (env.map (u8 hw.UI8_ADC_THROTTLE) (u8 env.ADC_THROTTLE_MIN_VALUE)
          (u8 env.ADC_THROTTLE_MAX_VALUE) 0 255)))
        0 255 0 (u8 s.ui8_adc_battery_current_max)) > s.ui8_adc_battery_current_target
    · rw [if_pos hgt]
      exact ⟨Nat.le_of_lt hgt, fun _ => ⟨rfl, hu, rfl⟩, fun hn => absurd hgt hn⟩
    · rw [if_neg hgt]
      exact ⟨Nat.le_refl _, fun hp => absurd hp hgt, fun _ => ⟨rfl, rfl, rfl, rfl⟩⟩

/-- Witness for C20: the throttle fully opened in `OFF_MODE` with the power-on
current target 0. -/
theorem throttle_only_raises_target_witness :
    sample_env.PWM_DUTY_CYCLE_MAX < 256 ∧
    (throttle_state.ui8_riding_mode ≠ sample_env.WALK_ASSIST_MODE ∧
      throttle_state.ui8_riding_mode ≠ sample_env.CRUISE_MODE) ∧
    throttle_current_target sample_env full_throttle throttle_state
      > throttle_state.ui8_adc_battery_current_target ∧
    (apply_throttle sample_env full_throttle throttle_state).ui8_duty_cycle_target
      = sample_env.PWM_DUTY_CYCLE_MAX :=
  ⟨by decide, by decide, by decide,
    (((throttle_only_raises_target sample_env full_throttle throttle_state (by decide)).2
      (by decide)).2.1 (by decide)).2.1⟩

/-! ## Ranges in which the 16-bit stores of the assist laws do not wrap -/

/-- The quotient of `apply_power_assist` fits 16 bits for every pedal power and
multiplier once the filtered battery voltage is at least 25.5 V. -/
theorem power_assist_quotient_fits (P M V : Nat) (hP : P < 65536) (hM : M < 256)
    (hV : 25500 ≤ V) : P * M * 100 / V < 65536 := by
  have hprod : P * M ≤ 65535 * 255 := Nat.mul_le_mul (by omega) (by omega)
  have hV0 : 0 < V := by omega
  rw [Nat.div_lt_iff_lt_mul hV0]
  have h1 : 65536 * 25500 ≤ 65536 * V := Nat.mul_le_mul_left _ hV
  omega

/-- The product of `apply_torque_assist` fits 16 bits for every assist factor
while the torque delta is at most 263. -/
theorem torque_assist_product_fits (D F : Nat) (hD : D ≤ 263) (hF : F < 256) :
    (D - 6) * F < 65536 := by
  have hprod : (D - 6) * F ≤ 257 * 255 := Nat.mul_le_mul (by omega) (by omega)
  omega

/-! ## The cruise flag outside cruise mode -/

theorem set_current_and_duty_cycle_target_cruise (env : Env) (c : Nat) (s : State) :
    (set_current_and_duty_cycle_target env c s).ui8_cruise_PID_initialized
      = s.ui8_cruise_PID_initialized ∧
    (set_current_and_duty_cycle_target env c s).ui16_wheel_speed_target_x10
      = s.ui16_wheel_speed_target_x10 := by
  unfold set_current_and_duty_cycle_target
  dsimp only
  split_ifs <;> exact ⟨rfl, rfl⟩

theorem apply_cadence_assist_cruise (env : Env) (s : State) :
    (apply_cadence_assist env s).ui8_cruise_PID_initialized = s.ui8_cruise_PID_initialized ∧
    (apply_cadence_assist env s).ui16_wheel_speed_target_x10
      = s.ui16_wheel_speed_target_x10 := by
  unfold apply_cadence_assist set_motor_acceleration
  dsimp only
  split_ifs <;> exact ⟨rfl, rfl⟩

theorem apply_emtb_assist_cruise (s : State) :
    (apply_emtb_assist s).ui8_cruise_PID_initialized = s.ui8_cruise_PID_initialized ∧
    (apply_emtb_assist s).ui16_wheel_speed_target_x10 = s.ui16_wheel_speed_target_x10 := by
  unfold apply_emtb_assist
  exact ⟨rfl, rfl⟩

theorem apply_walk_assist_cruise (env : Env) (s : State) :
    (apply_walk_assist env s).ui8_cruise_PID_initialized = s.ui8_cruise_PID_initialized ∧
    (apply_walk_assist env s).ui16_wheel_speed_target_x10 = s.ui16_wheel_speed_target_x10 := by
  unfold apply_walk_assist
  dsimp only
  split_ifs <;> exact ⟨rfl, rfl⟩

/-- In a mode other than `CRUISE_MODE` the `switch` of `ebike_control_motor`
leaves the cruise flag and the latched target speed as they are. -/
theorem ecm_select_riding_mode_keeps_cruise_flag (env : Env) (s : State)
    (h : s.ui8_riding_mode ≠ env.CRUISE_MODE) :
    (ecm_select_riding_mode env s).ui8_cruise_PID_initialized = s.ui8_cruise_PID_initialized ∧
    (ecm_select_riding_mode env s).ui16_wheel_speed_target_x10
      = s.ui16_wheel_speed_target_x10 := by
  unfold ecm_select_riding_mode
  split_ifs
  · exact set_current_and_duty_cycle_target_cruise env _ _
  · exact set_current_and_duty_cycle_target_cruise env _ _
  · exact apply_cadence_assist_cruise env s
  · exact apply_emtb_assist_cruise s
  · exact apply_walk_assist_cruise env s
  · exact ⟨rfl, rfl⟩
  · exact ⟨rfl, rfl⟩

/-! ## Temperature limiting and speed limit -/

/-- C21: when the configured temperature min-limit is not below the max-limit,
`apply_temperature_limiting` sets the current target to 0 and
`ui8_temperature_current_limiting_value` to 0, whatever the temperature reading
and the prior current target. -/
theorem temperature_invalid_limits_fail_safe (env : Env) (hw : Inputs) (s : State)
    (h : s.m_configuration_variables.ui8_motor_temperature_min_value_to_limit
      ≥ s.m_configuration_variables.ui8_motor_temperature_max_value_to_limit) :
    (apply_temperature_limiting env hw s).ui8_adc_battery_current_target = 0 ∧
    (apply_temperature_limiting env hw
      s).m_configuration_variables.ui8_temperature_current_limiting_value = 0 := by
  unfold apply_temperature_limiting
  dsimp only
  rw [if_pos h]
  exact ⟨rfl, rfl⟩

/-- Witness for C21: limits 90 and 80, prior target 60, sensor reading 400. -/
theorem temperature_invalid_limits_fail_safe_witness :
    bad_temperature_limits_state.m_configuration_variables.ui8_motor_temperature_min_value_to_limit
      ≥ bad_temperature_limits_state.m_configuration_variables.ui8_motor_temperature_max_value_to_limit ∧
    bad_temperature_limits_state.ui8_adc_battery_current_target = 60 ∧
    (apply_temperature_limiting sample_env warm_inputs
      bad_temperature_limits_state).ui8_adc_battery_current_target = 0 ∧
    (apply_temperature_limiting sample_env warm_inputs
      bad_temperature_limits_state).m_configuration_variables.ui8_temperature_current_limiting_value
      = 0 :=
  ⟨by decide, by decide,
    (temperature_invalid_limits_fail_safe sample_env warm_inputs bad_temperature_limits_state
      (by decide)).1,
    (temperature_invalid_limits_fail_safe sample_env warm_inputs bad_temperature_limits_state
      (by decide)).2⟩

theorem apply_temperature_limiting_tightens (env : Env) (hw : Inputs) (s : State)
    (hmap : ∀ x a b t, t < 256 → env.map x a b t 0 ≤ t)
    (ht : s.ui8_adc_battery_current_target < 256) :
    (apply_temperature_limiting env hw s).ui8_adc_battery_current_target
      ≤ s.ui8_adc_battery_current_target ∧
    (apply_temperature_limiting env hw s).ui8_duty_cycle_target = s.ui8_duty_cycle_target ∧
    (apply_temperature_limiting env hw s).ui16_duty_cycle_ramp_up_inverse_step
      = s.ui16_duty_cycle_ramp_up_inverse_step ∧
    (apply_temperature_limiting env hw s).ui16_duty_cycle_ramp_down_inverse_step
      = s.ui16_duty_cycle_ramp_down_inverse_step := by
  have hu : u32 s.ui8_adc_battery_current_target = s.ui8_adc_battery_current_target := by
    unfold u32
    omega
  unfold apply_temperature_limiting
  dsimp only
  split_ifs
  · exact ⟨Nat.zero_le _, rfl, rfl, rfl⟩
  · refine ⟨?_, rfl, rfl, rfl⟩
    show u8 (env.map _ _ _ (u32 s.ui8_adc_battery_current_target) 0) ≤ _
    rw [hu]
    exact Nat.le_trans (u8_le _) (hmap _ _ _ _ ht)

theorem apply_speed_limit_tightens (env : Env) (s : State)
    (hmap : ∀ x a b t, t < 256 → env.map x a b t 0 ≤ t)
    (ht : s.ui8_adc_battery_current_target < 256) :
    (apply_speed_limit env s).ui8_adc_battery_current_target
      ≤ s.ui8_adc_battery_current_target ∧
    (apply_speed_limit env s).ui8_duty_cycle_target = s.ui8_duty_cycle_target ∧
    (apply_speed_limit env s).ui16_duty_cycle_ramp_up_inverse_step
      = s.ui16_duty_cycle_ramp_up_inverse_step ∧
    (apply_speed_limit env s).ui16_duty_cycle_ramp_down_inverse_step
      = s.ui16_duty_cycle_ramp_down_inverse_step := by
  have hu : u32 s.ui8_adc_battery_current_target = s.ui8_adc_battery_current_target := by
    unfold u32
    omega
  unfold apply_speed_limit
  split_ifs
  · refine ⟨?_, rfl, rfl, rfl⟩
    show u8 (env.map _ _ _ (u32 s.ui8_adc_battery_current_target) 0) ≤ _
    rw [hu]
    exact Nat.le_trans (u8_le _) (hmap _ _ _ _ ht)
  · exact ⟨Nat.le_refl _, rfl, rfl, rfl⟩

theorem s32_of_small (n : Nat) (h : n < 2147483648) : s32 n = (n : Int) := by
  have hu : u32 n = n := by unfold u32; omega
  unfold s32
  rw [hu, if_pos h]

theorem map_clamped_tightens (x a b t : Nat) (ht : t < 256) : map_clamped x a b t 0 ≤ t := by
  have hst : s32 t = (t : Int) := s32_of_small t (by omega)
  have hs0 : s32 0 = 0 := by decide
  unfold map_clamped
  split_ifs with h1 h2
  · exact Nat.mod_le _ _
  · exact Nat.zero_le _
  · rw [hst, hs0]
    have hp : 0 < s32 x - s32 a := by omega
    have hq : s32 x - s32 a < s32 b - s32 a := by omega
    generalize s32 x - s32 a = p at hp hq
    generalize s32 b - s32 a = q at hq
    have hneg : p * (0 - (t : Int)) = -(p * t) := by ring
    have hpt : 0 ≤ p * (t : Int) := Int.mul_nonneg (by omega) (by omega)
    rw [hneg, Int.neg_tdiv, Int.tdiv_eq_ediv hpt (by omega)]
    have h0 : 0 ≤ p * (t : Int) / q := Int.ediv_nonneg hpt (by omega)
    have hle : p * (t : Int) / q ≤ t := by
      apply Int.ediv_le_of_le_mul (by omega)
      have : p * (t : Int) ≤ q * t := Int.mul_le_mul_of_nonneg_right (by omega) (by omega)
      rw [Int.mul_comm (t : Int) q]
      exact this
    unfold u32_of_int
    omega

/-- C22: `apply_temperature_limiting` and `apply_speed_limit` only tighten: for
every prior current target t in 0..255, every temperature, wheel speed and
configuration, the current target after either call is at most t, and neither
call changes the duty-cycle target or the two ramp steps.  The helper `map` is
assumed to return at most its first output breakpoint when the second is 0. -/
theorem modulators_only_tighten (env : Env) (hw : Inputs) (s : State)
    (hmap : ∀ x a b t, t < 256 → env.map x a b t 0 ≤ t)
    (ht : s.ui8_adc_battery_current_target < 256) :
    ((apply_temperature_limiting env hw s).ui8_adc_battery_current_target
        ≤ s.ui8_adc_battery_current_target ∧
      (apply_temperature_limiting env hw s).ui8_duty_cycle_target = s.ui8_duty_cycle_target ∧
      (apply_temperature_limiting env hw s).ui16_duty_cycle_ramp_up_inverse_step
        = s.ui16_duty_cycle_ramp_up_inverse_step ∧
      (apply_temperature_limiting env hw s).ui16_duty_cycle_ramp_down_inverse_step
        = s.ui16_duty_cycle_ramp_down_inverse_step) ∧
    ((apply_speed_limit env s).ui8_adc_battery_current_target
        ≤ s.ui8_adc_battery_current_target ∧
      (apply_speed_limit env s).ui8_duty_cycle_target = s.ui8_duty_cycle_target ∧
      (apply_speed_limit env s).ui16_duty_cycle_ramp_up_inverse_step
        = s.ui16_duty_cycle_ramp_up_inverse_step ∧
      (apply_speed_limit env s).ui16_duty_cycle_ramp_down_inverse_step
        = s.ui16_duty_cycle_ramp_down_inverse_step) :=
  ⟨apply_temperature_limiting_tightens env hw s hmap ht,
    apply_speed_limit_tightens env s hmap ht⟩

/-- Witness for C22: a state inside both derating bands, with the clamped
interpolation as `map`. -/
theorem modulators_only_tighten_witness :
    (∀ x a b t, t < 256 → sample_env.map x a b t 0 ≤ t) ∧
    derating_state.ui8_adc_battery_current_target < 256 ∧
    (apply_temperature_limiting sample_env warm_inputs derating_state).ui8_adc_battery_current_target
      ≤ derating_state.ui8_adc_battery_current_target ∧
    (apply_speed_limit sample_env derating_state).ui8_adc_battery_current_target
      ≤ derating_state.ui8_adc_battery_current_target :=
  ⟨map_clamped_tightens, by decide,
    (modulators_only_tighten sample_env warm_inputs derating_state map_clamped_tightens
      (by decide)).1.1,
    (modulators_only_tighten sample_env warm_inputs derating_state map_clamped_tightens
      (by decide)).2.1⟩

theorem s32_u32_of_int (z : Int) (h0 : -2147483648 ≤ z) (h1 : z < 2147483648) :
    s32 (u32_of_int z) = z := by
  unfold s32 u32 u32_of_int
  split_ifs <;> omega

theorem map_clamped_low (x a b o : Nat) (ho : o < 256) (h : s32 x ≤ s32 a) :
    map_clamped x a b o 0 = o := by
  unfold map_clamped
  rw [if_pos h]
  unfold u32
  omega

theorem map_clamped_high (x a b o : Nat) (hab : s32 a < s32 b) (h : s32 b ≤ s32 x) :
    map_clamped x a b o 0 = 0 := by
  unfold map_clamped
  rw [if_neg (by omega), if_pos h]
  rfl

/-- C23: `apply_speed_limit` leaves the current target t as it is when
`ui8_wheel_speed_max` is 0; when it is a nonzero S, the current target after the
call is t for every wheel speed x10 v <= 10*S - 20 and 0 for every v >= 10*S + 20.
The helper `map` is assumed to clamp at its breakpoints, which it reads as
signed numbers: it returns the first output breakpoint at or below the first
input breakpoint and the second at or above the second. -/
theorem speed_limit_band (env : Env) (s : State)
    (hlow : ∀ x a b o, o < 256 → s32 x ≤ s32 a → env.map x a b o 0 = o)
    (hhigh : ∀ x a b o, s32 a < s32 b → s32 b ≤ s32 x → env.map x a b o 0 = 0)
    (ht : s.ui8_adc_battery_current_target < 256)
    (hv : s.ui16_wheel_speed_x10 < 65536)
    (hS : s.m_configuration_variables.ui8_wheel_speed_max < 256) :
    (s.m_configuration_variables.ui8_wheel_speed_max = 0 →
      (apply_speed_limit env s).ui8_adc_battery_current_target
        = s.ui8_adc_battery_current_target) ∧
    (s.m_configuration_variables.ui8_wheel_speed_max ≠ 0 →
      ((s.ui16_wheel_speed_x10 : Int)
          ≤ 10 * (s.m_configuration_variables.ui8_wheel_speed_max : Int) - 20 →
        (apply_speed_limit env s).ui8_adc_battery_current_target
          = s.ui8_adc_battery_current_target) ∧
      (10 * s.m_configuration_variables.ui8_wheel_speed_max + 20 ≤ s.ui16_wheel_speed_x10 →
        (apply_speed_limit env s).ui8_adc_battery_current_target = 0)) := by
  have hu : u32 s.ui8_adc_battery_current_target = s.ui8_adc_battery_current_target := by
    unfold u32
    omega
  have hx : s32 (u32 s.ui16_wheel_speed_x10) = (s.ui16_wheel_speed_x10 : Int) := by
    have h1 : u32 s.ui16_wheel_speed_x10 = s.ui16_wheel_speed_x10 := by unfold u32; omega
    rw [h1]
    exact s32_of_small _ (by omega)
  have ha : s32 (u32_of_int ((s.m_configuration_variables.ui8_wheel_speed_max : Int) * 10 - 20))
      = (s.m_configuration_variables.ui8_wheel_speed_max : Int) * 10 - 20 :=
    s32_u32_of_int _ (by omega) (by omega)
  have hb : s32 (u32_of_int ((s.m_configuration_variables.ui8_wheel_speed_max : Int) * 10 + 20))
      = (s.m_configuration_variables.ui8_wheel_speed_max : Int) * 10 + 20 :=
    s32_u32_of_int _ (by omega) (by omega)
  constructor
  · intro h0
    unfold apply_speed_limit
    rw [if_neg (by omega)]
  · intro hne
    have hpos : s.m_configuration_variables.ui8_wheel_speed_max > 0 := by omega
    constructor
    · intro hle
      unfold apply_speed_limit
      rw [if_pos hpos]
      show u8 (env.map _ _ _ (u32 s.ui8_adc_battery_current_target) 0) = _
      rw [hu, hlow _ _ _ _ ht (by rw [hx, ha]; omega)]
      unfold u8
      omega
    · intro hge
      unfold apply_speed_limit
      rw [if_pos hpos]
      show u8 (env.map _ _ _ (u32 s.ui8_adc_battery_current_target) 0) = _
      rw [hhigh _ _ _ _ (by rw [ha, hb]; omega) (by rw [hx, hb]; omega)]
      rfl

/-- Witness for C23: speed limit 25 km/h at 28.0 km/h, with the clamped
interpolation as `map`. -/
theorem speed_limit_band_witness :
    (∀ x a b o, o < 256 → s32 x ≤ s32 a → sample_env.map x a b o 0 = o) ∧
    (∀ x a b o, s32 a < s32 b → s32 b ≤ s32 x → sample_env.map x a b o 0 = 0) ∧
    over_speed_state.ui8_adc_battery_current_target < 256 ∧
    over_speed_state.ui16_wheel_speed_x10 < 65536 ∧
    over_speed_state.m_configuration_variables.ui8_wheel_speed_max < 256 ∧
    over_speed_state.m_configuration_variables.ui8_wheel_speed_max ≠ 0 ∧
    10 * over_speed_state.m_configuration_variables.ui8_wheel_speed_max + 20
      ≤ over_speed_state.ui16_wheel_speed_x10 ∧
    (apply_speed_limit sample_env over_speed_state).ui8_adc_battery_current_target = 0 :=
  ⟨map_clamped_low, map_clamped_high, by decide, by decide, by decide, by decide, by decide,
    ((speed_limit_band sample_env over_speed_state map_clamped_low map_clamped_high
      (by decide) (by decide) (by decide)).2 (by decide)).2 (by decide)⟩

/-! ## The configuration variables during `ebike_control_motor` -/

theorem ecm_reset_control_variables_cfg (env : Env) (s : State) :
    (ecm_reset_control_variables env s).m_configuration_variables
      = s.m_configuration_variables := rfl

theorem apply_power_assist_cfg (env : Env) (s : State) :
    (apply_power_assist env s).m_configuration_variables = s.m_configuration_variables := by
  unfold apply_power_assist set_current_and_duty_cycle_target set_motor_acceleration
  dsimp only
  split_ifs <;> rfl

theorem apply_torque_assist_cfg (env : Env) (s : State) :
    (apply_torque_assist env s).m_configuration_variables = s.m_configuration_variables := by
  unfold apply_torque_assist set_current_and_duty_cycle_target set_motor_acceleration
  dsimp only
  split_ifs <;> rfl

theorem apply_cadence_assist_cfg (env : Env) (s : State) :
    (apply_cadence_assist env s).m_configuration_variables = s.m_configuration_variables := by
  unfold apply_cadence_assist set_motor_acceleration
  dsimp only
  split_ifs <;> rfl

theorem apply_walk_assist_cfg (env : Env) (s : State) :
    (apply_walk_assist env s).m_configuration_variables = s.m_configuration_variables := by
  unfold apply_walk_assist
  dsimp only
  split_ifs <;> rfl

theorem apply_cruise_cfg (env : Env) (s : State) :
    (apply_cruise env s).m_configuration_variables = s.m_configuration_variables := by
  unfold apply_cruise cruise_PID_reset
  dsimp only
  split_ifs <;> rfl

theorem ecm_select_riding_mode_cfg (env : Env) (s : State) :
    (ecm_select_riding_mode env s).m_configuration_variables = s.m_configuration_variables := by
  unfold ecm_select_riding_mode
  split_ifs
  · exact apply_power_assist_cfg env s
  · exact apply_torque_assist_cfg env s
  · exact apply_cadence_assist_cfg env s
  · rfl
  · exact apply_walk_assist_cfg env s
  · exact apply_cruise_cfg env s
  · rfl
  · rfl

theorem apply_throttle_cfg (env : Env) (hw : Inputs) (s : State) :
    (apply_throttle env hw s).m_configuration_variables = s.m_configuration_variables := by
  unfold apply_throttle
  dsimp only
  split_ifs <;> rfl

theorem apply_temperature_limiting_cfg (env : Env) (hw : Inputs) (s : State) :
    config_without_temperature (apply_temperature_limiting env hw s).m_configuration_variables
      = config_without_temperature s.m_configuration_variables := by
  unfold apply_temperature_limiting
  dsimp only
  split_ifs <;> rfl

theorem ecm_select_optional_ADC_function_cfg (env : Env) (hw : Inputs) (s : State) :
    config_without_temperature
        (ecm_select_optional_ADC_function env hw s).m_configuration_variables
      = config_without_temperature s.m_configuration_variables ∧
    (s.m_configuration_variables.ui8_optional_ADC_function ≠ env.TEMPERATURE_CONTROL →
      (ecm_select_optional_ADC_function env hw s).m_configuration_variables
        = s.m_configuration_variables) := by
  unfold ecm_select_optional_ADC_function
  split_ifs with h1 h2
  · rw [apply_throttle_cfg]
    exact ⟨rfl, fun _ => rfl⟩
  · exact ⟨apply_temperature_limiting_cfg env hw s, fun hne => absurd h2 hne⟩
  · exact ⟨rfl, fun _ => rfl⟩

theorem apply_speed_limit_cfg (env : Env) (s : State) :
    (apply_speed_limit env s).m_configuration_variables = s.m_configuration_variables := by
  unfold apply_speed_limit
  split_ifs <;> rfl

theorem ecm_force_target_current_cfg (env : Env) (s : State) :
    (ecm_force_target_current env s).m_configuration_variables
      = s.m_configuration_variables := by
  unfold ecm_force_target_current
  split_ifs <;> rfl

theorem ecm_check_enable_motor_cfg (hw : Inputs) (s : State) :
    (ecm_check_enable_motor hw s).m_configuration_variables = s.m_configuration_variables := by
  unfold ecm_check_enable_motor
  split_ifs <;> rfl

theorem ecm_check_disable_motor_cfg (hw : Inputs) (s : State) :
    (ecm_check_disable_motor hw s).m_configuration_variables = s.m_configuration_variables := by
  unfold ecm_check_disable_motor
  split_ifs <;> rfl

theorem limit_max_current_cfg (env : Env) (s : State) :
    (limit_max_current env s).m_configuration_variables = s.m_configuration_variables := by
  unfold limit_max_current
  split_ifs <;> rfl

theorem limit_target_current_cfg (s : State) :
    (limit_target_current s).m_configuration_variables = s.m_configuration_variables := by
  unfold limit_target_current
  split_ifs <;> rfl

theorem limit_target_duty_cycle_cfg (env : Env) (s : State) :
    (limit_target_duty_cycle env s).m_configuration_variables = s.m_configuration_variables := by
  unfold limit_target_duty_cycle
  split_ifs <;> rfl

theorem limit_ramp_up_inverse_step_cfg (env : Env) (s : State) :
    (limit_ramp_up_inverse_step env s).m_configuration_variables
      = s.m_configuration_variables := by
  unfold limit_ramp_up_inverse_step
  split_ifs <;> rfl

theorem limit_ramp_down_inverse_step_cfg (env : Env) (s : State) :
    (limit_ramp_down_inverse_step env s).m_configuration_variables
      = s.m_configuration_variables := by
  unfold limit_ramp_down_inverse_step
  split_ifs <;> rfl

theorem final_clamps_cfg (env : Env) (s : State) :
    (final_clamps env s).m_configuration_variables = s.m_configuration_variables := by
  unfold final_clamps
  rw [limit_ramp_down_inverse_step_cfg, limit_ramp_up_inverse_step_cfg,
    limit_target_duty_cycle_cfg, limit_target_current_cfg, limit_max_current_cfg]

theorem ecm_set_control_parameters_cfg (env : Env) (s : State) :
    (ecm_set_control_parameters env s).m_configuration_variables
      = s.m_configuration_variables := by
  unfold ecm_set_control_parameters
  split_ifs
  · exact final_clamps_cfg env s
  · rfl

theorem ebike_control_motor_cfg (env : Env) (hw : Inputs) (s : State) :
    (ebike_control_motor env hw s).m_configuration_variables
      = (ecm_select_optional_ADC_function env hw
          (ecm_select_riding_mode env
            (ecm_reset_control_variables env s))).m_configuration_variables := by
  unfold ebike_control_motor ecm_after_latch ecm_before_latch ecm_mode_and_modulators
  rw [ecm_set_control_parameters_cfg, ecm_check_disable_motor_cfg, ecm_check_enable_motor_cfg,
    ecm_force_target_current_cfg, apply_speed_limit_cfg]

/-- C24 (as amended): `ebike_control_motor` writes no configuration variable
other than the three motor-temperature fields `ui16_motor_temperature_x2`,
`ui8_motor_temperature` and `ui8_temperature_current_limiting_value`: every other
field of `m_configuration_variables` has the same value after the call as before
it, and when the optional ADC function is not `TEMPERATURE_CONTROL` all fields
do. -/
theorem control_motor_writes_only_temperature_fields (env : Env) (hw : Inputs) (s : State) :
    config_without_temperature (ebike_control_motor env hw s).m_configuration_variables
      = config_without_temperature s.m_configuration_variables ∧
    (s.m_configuration_variables.ui8_optional_ADC_function ≠ env.TEMPERATURE_CONTROL →
      (ebike_control_motor env hw s).m_configuration_variables
        = s.m_configuration_variables) := by
  have hpre : (ecm_select_riding_mode env
      (ecm_reset_control_variables env s)).m_configuration_variables
      = s.m_configuration_variables := by
    rw [ecm_select_riding_mode_cfg, ecm_reset_control_variables_cfg]
  have hadc := ecm_select_optional_ADC_function_cfg env hw
    (ecm_select_riding_mode env (ecm_reset_control_variables env s))
  rw [hpre] at hadc
  rw [ebike_control_motor_cfg]
  exact hadc

/-- Counterexample to C24 as stated: with `TEMPERATURE_CONTROL` selected and the
temperature sensor reading 400, one call of `ebike_control_motor` changes
`ui8_motor_temperature` from 0 to 185, `ui16_motor_temperature_x2` from 0 to 371
and `ui8_temperature_current_limiting_value` from 0 to 74. -/
theorem control_motor_writes_temperature_counterexample :
    derating_state.m_configuration_variables.ui8_motor_temperature = 0 ∧
    (ebike_control_motor sample_env warm_inputs
      derating_state).m_configuration_variables.ui8_motor_temperature = 185 ∧
    (ebike_control_motor sample_env warm_inputs
      derating_state).m_configuration_variables.ui16_motor_temperature_x2 = 371 ∧
    (ebike_control_motor sample_env warm_inputs
      derating_state).m_configuration_variables.ui8_temperature_current_limiting_value = 74 ∧
    (ebike_control_motor sample_env warm_inputs derating_state).m_configuration_variables
      ≠ derating_state.m_configuration_variables := by
  decide

/-- Witness for C24 (as amended): the throttle selected as optional ADC
function. -/
theorem control_motor_writes_only_temperature_fields_witness :
    throttle_state.m_configuration_variables.ui8_optional_ADC_function
      ≠ sample_env.TEMPERATURE_CONTROL ∧
    (ebike_control_motor sample_env full_throttle throttle_state).m_configuration_variables
      = throttle_state.m_configuration_variables :=
  ⟨by decide,
    (control_motor_writes_only_temperature_fields sample_env full_throttle throttle_state).2
      (by decide)⟩

/-! ## The tick-start reset and the ramp steps -/

/-- The block "reset control variables (safety)" does not touch the working
ramp steps, and the block "set control parameters" hands them to the motor
driver. -/
theorem ecm_reset_keeps_working_ramps (env : Env) (s : State) :
    (ecm_reset_control_variables env s).ui16_duty_cycle_ramp_up_inverse_step
      = s.ui16_duty_cycle_ramp_up_inverse_step ∧
    (ecm_reset_control_variables env s).ui16_duty_cycle_ramp_down_inverse_step
      = s.ui16_duty_cycle_ramp_down_inverse_step ∧
    (set_in_controller s).ui16_controller_duty_cycle_ramp_up_inverse_step
      = s.ui16_duty_cycle_ramp_up_inverse_step ∧
    (set_in_controller s).ui16_controller_duty_cycle_ramp_down_inverse_step
      = s.ui16_duty_cycle_ramp_down_inverse_step :=
  ⟨rfl, rfl, rfl, rfl⟩

/-- C25: an eMTB tick does not hand the default ramp steps to the motor driver.
After a power-assist tick at 25.0 km/h has left the working ramp steps at 20 and
8, a tick in `eMTB_ASSIST_MODE` with no optional ADC function, the motor enabled
and turning, the brake off and state `NO_ERROR` hands over current target 0 and
duty-cycle target 0, but ramp-up step 20 and ramp-down step 8, where the defaults
are 160 and 40. -/
theorem emtb_tick_hands_over_stale_ramps :
    emtb_tick_start.ui8_riding_mode = sample_env.eMTB_ASSIST_MODE ∧
    emtb_tick_start.m_configuration_variables.ui8_optional_ADC_function
      ≠ sample_env.THROTTLE_CONTROL ∧
    emtb_tick_start.m_configuration_variables.ui8_optional_ADC_function
      ≠ sample_env.TEMPERATURE_CONTROL ∧
    emtb_tick_start.ui8_motor_enabled = 1 ∧
    emtb_tick_start.ui8_brakes_enabled = 0 ∧
    emtb_tick_start.ui8_system_state = sample_env.NO_ERROR ∧
    (ebike_control_motor sample_env spinning_inputs
      emtb_tick_start).ui8_controller_adc_battery_current_target = 0 ∧
    (ebike_control_motor sample_env spinning_inputs
      emtb_tick_start).ui8_controller_duty_cycle_target = 0 ∧
    (ebike_control_motor sample_env spinning_inputs
      emtb_tick_start).ui16_controller_duty_cycle_ramp_up_inverse_step = 20 ∧
    sample_env.PWM_DUTY_CYCLE_RAMP_UP_INVERSE_STEP_DEFAULT = 160 ∧
    (ebike_control_motor sample_env spinning_inputs
      emtb_tick_start).ui16_controller_duty_cycle_ramp_down_inverse_step = 8 ∧
    sample_env.PWM_DUTY_CYCLE_RAMP_DOWN_INVERSE_STEP_DEFAULT = 40 := by
  decide

/-! ## Crank power -/

/-- C26 (as amended): when the product D * K fits 16 bits and the quotient
(D * K * R) div 105 fits 16 bits, `calc_crank_power` sets pedal torque x100 to
D * K and pedal power x10 to (D * K * R) div 105.  D is the torque delta, K the
torque-per-ADC-step constant and R the cadence (8-bit). -/
theorem crank_power_formula (s : State)
    (hR : s.ui8_pedal_cadence_RPM < 256)
    (hprod : s.ui16_adc_pedal_torque_delta
      * s.m_configuration_variables.ui8_pedal_torque_per_10_bit_ADC_step_x100 < 65536)
    (hquot : s.ui16_adc_pedal_torque_delta
      * s.m_configuration_variables.ui8_pedal_torque_per_10_bit_ADC_step_x100
      * s.ui8_pedal_cadence_RPM / 105 < 65536) :
    (calc_crank_power s).ui16_pedal_torque_x100
      = s.ui16_adc_pedal_torque_delta
        * s.m_configuration_variables.ui8_pedal_torque_per_10_bit_ADC_step_x100 ∧
    (calc_crank_power s).ui16_pedal_power_x10
      = s.ui16_adc_pedal_torque_delta
        * s.m_configuration_variables.ui8_pedal_torque_per_10_bit_ADC_step_x100
        * s.ui8_pedal_cadence_RPM / 105 := by
  have h1 : u16 (s.ui16_adc_pedal_torque_delta
      * s.m_configuration_variables.ui8_pedal_torque_per_10_bit_ADC_step_x100)
      = s.ui16_adc_pedal_torque_delta
        * s.m_configuration_variables.ui8_pedal_torque_per_10_bit_ADC_step_x100 :=
    Nat.mod_eq_of_lt hprod
  have hle : s.ui16_adc_pedal_torque_delta
      * s.m_configuration_variables.ui8_pedal_torque_per_10_bit_ADC_step_x100
      * s.ui8_pedal_cadence_RPM ≤ 65535 * 255 := Nat.mul_le_mul (by omega) (by omega)
  have h2 : u32 (s.ui16_adc_pedal_torque_delta
      * s.m_configuration_variables.ui8_pedal_torque_per_10_bit_ADC_step_x100
      * s.ui8_pedal_cadence_RPM)
      = s.ui16_adc_pedal_torque_delta
        * s.m_configuration_variables.ui8_pedal_torque_per_10_bit_ADC_step_x100
        * s.ui8_pedal_cadence_RPM := Nat.mod_eq_of_lt (by omega)
  have h3 : u16 (s.ui16_adc_pedal_torque_delta
      * s.m_configuration_variables.ui8_pedal_torque_per_10_bit_ADC_step_x100
      * s.ui8_pedal_cadence_RPM / 105)
      = s.ui16_adc_pedal_torque_delta
        * s.m_configuration_variables.ui8_pedal_torque_per_10_bit_ADC_step_x100
        * s.ui8_pedal_cadence_RPM / 105 := Nat.mod_eq_of_lt hquot
  unfold calc_crank_power
  dsimp only
  rw [h1, h2, h3]
  exact ⟨rfl, rfl⟩

/-- Both stores of `calc_crank_power` fit 16 bits for every 8-bit constant and
cadence while the torque delta is at most 105. -/
theorem crank_power_fits (D K R : Nat) (hD : D ≤ 105) (hK : K < 256) (hR : R < 256) :
    D * K < 65536 ∧ D * K * R / 105 < 65536 := by
  have h1 : D * K ≤ 105 * 255 := Nat.mul_le_mul hD (by omega)
  have h2 : D * K * R ≤ 105 * 255 * 255 := Nat.mul_le_mul h1 (by omega)
  constructor
  · omega
  · omega

/-- Counterexample to C26 as stated: with D = 1000, K = 67 and R = 60 the product
67000 wraps to 1464 in the 16-bit pedal torque x100, and the pedal power x10
becomes (1464 * 60) div 105 = 836, where the claimed formulas give 67000 and
38285. -/
theorem crank_power_product_wraps_counterexample :
    crank_power_wrap_state.ui16_adc_pedal_torque_delta ≤ 1023 ∧
    crank_power_wrap_state.m_configuration_variables.ui8_pedal_torque_per_10_bit_ADC_step_x100
      < 256 ∧
    crank_power_wrap_state.ui8_pedal_cadence_RPM < 256 ∧
    (calc_crank_power crank_power_wrap_state).ui16_pedal_torque_x100 = 1464 ∧
    crank_power_wrap_state.ui16_adc_pedal_torque_delta
      * crank_power_wrap_state.m_configuration_variables.ui8_pedal_torque_per_10_bit_ADC_step_x100
      = 67000 ∧
    (calc_crank_power crank_power_wrap_state).ui16_pedal_power_x10 = 836 ∧
    crank_power_wrap_state.ui16_adc_pedal_torque_delta
      * crank_power_wrap_state.m_configuration_variables.ui8_pedal_torque_per_10_bit_ADC_step_x100
      * crank_power_wrap_state.ui8_pedal_cadence_RPM / 105 = 38285 := by
  decide

/-- Witness for C26 (as amended): D = 100, K = 67, R = 60 gives torque x100 6700
and power x10 3828. -/
theorem crank_power_formula_witness :
    crank_power_example_state.ui8_pedal_cadence_RPM < 256 ∧
    crank_power_example_state.ui16_adc_pedal_torque_delta
      * crank_power_example_state.m_configuration_variables.ui8_pedal_torque_per_10_bit_ADC_step_x100
      < 65536 ∧
    crank_power_example_state.ui16_adc_pedal_torque_delta
      * crank_power_example_state.m_configuration_variables.ui8_pedal_torque_per_10_bit_ADC_step_x100
      * crank_power_example_state.ui8_pedal_cadence_RPM / 105 < 65536 ∧
    (calc_crank_power crank_power_example_state).ui16_pedal_torque_x100
      = crank_power_example_state.ui16_adc_pedal_torque_delta
        * crank_power_example_state.m_configuration_variables.ui8_pedal_torque_per_10_bit_ADC_step_x100 :=
  ⟨by decide, by decide, by decide,
    (crank_power_formula crank_power_example_state (by decide) (by decide) (by decide)).1⟩

/-! ## Divisions by zero in a tick -/

/-- C27: a tick can execute a division by zero.  With a filtered battery voltage
reading of 0 and a ready, valid frame that selects power assist,
`ebike_control_motor` is entered with riding mode `POWER_ASSIST_MODE` and a
filtered battery voltage x1000 of 0, which `apply_power_assist` uses as a
divisor; the current target handed to the motor driver is whatever that division
leaves: 0 on a target where it leaves 0, 106 on a target where it leaves all
ones. -/
theorem tick_divides_by_zero_voltage :
    zero_voltage_frame_state.ui16_adc_battery_voltage_filtered = 0 ∧
    zero_voltage_frame_state.ui8_received_package_flag ≠ 0 ∧
    rx_crc_is_correct sample_env zero_voltage_frame_state ∧
    (communications_controller sample_env pedalling
      (eac_before_communications sample_env pedalling
        zero_voltage_frame_state)).ui8_riding_mode = sample_env.POWER_ASSIST_MODE ∧
    (communications_controller sample_env pedalling
      (eac_before_communications sample_env pedalling
        zero_voltage_frame_state)).ui16_battery_voltage_filtered_x1000 = 0 ∧
    (ebike_app_controller sample_env pedalling
      zero_voltage_frame_state).ui8_controller_adc_battery_current_target = 0 ∧
    (ebike_app_controller sample_env_all_ones pedalling
      zero_voltage_frame_state).ui8_controller_adc_battery_current_target = 106 := by
  decide

/-! ## No stall report without a sustained stall -/

theorem check_motor_blocked_detector_step (env : Env) (hw : Inputs) (s : State)
    (hcodes : error_codes_ok env)
    (hc : s.ui8_motor_blocked_counter ≤ 10)
    (hb : s.ui8_system_state = env.ERROR_MOTOR_BLOCKED → s.ui8_motor_blocked_counter = 0) :
    ((check_motor_blocked env hw s).ui8_system_state = env.ERROR_MOTOR_BLOCKED →
      (check_motor_blocked env hw s).ui8_motor_blocked_counter = 0) ∧
    (check_motor_blocked env hw s).ui8_motor_blocked_counter ≤ 10 ∧
    ((check_motor_blocked env hw s).ui8_motor_blocked_counter ≠ 0 →
      (check_motor_blocked env hw s).ui8_motor_blocked_counter
        = s.ui8_motor_blocked_counter + 1 ∧ stall_condition hw s) ∧
    (s.ui8_system_state ≠ env.ERROR_MOTOR_BLOCKED →
      (check_motor_blocked env hw s).ui8_system_state = env.ERROR_MOTOR_BLOCKED →
      stall_condition hw s ∧ s.ui8_motor_blocked_counter = 10) := by
  obtain ⟨-, c1, -, c01, -, -⟩ := hcodes
  have hu : u8 (s.ui8_motor_blocked_counter + 1) = s.ui8_motor_blocked_counter + 1 := by
    unfold u8
    omega
  by_cases h1 : s.ui8_system_state = env.ERROR_MOTOR_BLOCKED
  · have h0 := hb h1
    by_cases h2 : u8 (s.ui8_motor_blocked_reset_counter + 1) > 100
    · have hm : check_motor_blocked env hw s =
          { s with
            ui8_system_state := u8 env.NO_ERROR
            ui8_motor_blocked_reset_counter := 0 } := by
        unfold check_motor_blocked
        dsimp only
        simp only [if_pos h1, if_pos h2]
      rw [hm]
      exact ⟨fun _ => h0, hc, fun hn => absurd h0 hn, fun hn => absurd h1 hn⟩
    · have hm : check_motor_blocked env hw s =
          { s with
            ui8_motor_blocked_reset_counter := u8 (s.ui8_motor_blocked_reset_counter + 1) } := by
        unfold check_motor_blocked
        dsimp only
        rw [if_pos h1, if_neg h2]
      rw [hm]
      exact ⟨fun _ => h0, hc, fun hn => absurd h0 hn, fun hn => absurd h1 hn⟩
  · by_cases hs : stall_condition hw s
    · by_cases h3 : u8 (s.ui8_motor_blocked_counter + 1) > 10
      · have hm : check_motor_blocked env hw s =
            { s with
              ui8_motor_blocked_counter := 0
              ui8_system_state := u8 env.ERROR_MOTOR_BLOCKED } := by
          unfold check_motor_blocked
          unfold stall_condition at hs
          dsimp only
          rw [if_neg h1, if_pos hs, if_pos h3]
        rw [hm]
        refine ⟨fun _ => rfl, Nat.zero_le _, fun hn => absurd rfl hn, fun _ _ => ⟨hs, ?_⟩⟩
        rw [hu] at h3
        omega
      · have hm : check_motor_blocked env hw s =
            { s with ui8_motor_blocked_counter := u8 (s.ui8_motor_blocked_counter + 1) } := by
          unfold check_motor_blocked
          unfold stall_condition at hs
          dsimp only
          rw [if_neg h1, if_pos hs, if_neg h3]
        rw [hm]
        refine ⟨fun hB => absurd hB h1, ?_, fun _ => ⟨hu, hs⟩, fun _ hB => absurd hB h1⟩
        show u8 (s.ui8_motor_blocked_counter + 1) ≤ 10
        omega
    · have hm : check_motor_blocked env hw s = { s with ui8_motor_blocked_counter := 0 } := by
        unfold check_motor_blocked
        unfold stall_condition at hs
        dsimp only
        rw [if_neg h1, if_neg hs]
      rw [hm]
      exact ⟨fun _ => rfl, Nat.zero_le _, fun hn => absurd rfl hn, fun _ hB => absurd hB h1⟩

theorem check_torque_sensor_not_blocked (env : Env) (s : State) (hcodes : error_codes_ok env)
    (h : (check_torque_sensor env s).ui8_system_state = env.ERROR_MOTOR_BLOCKED) :
    s.ui8_system_state = env.ERROR_MOTOR_BLOCKED := by
  obtain ⟨c0, -, c2, c01, -, c12⟩ := hcodes
  have hu0 : u8 env.NO_ERROR = env.NO_ERROR := Nat.mod_eq_of_lt c0
  have hu2 : u8 env.ERROR_TORQUE_SENSOR = env.ERROR_TORQUE_SENSOR := Nat.mod_eq_of_lt c2
  unfold check_torque_sensor at h
  split_ifs at h
  · exact absurd (hu2 ▸ h) (Ne.symm c12)
  · exact absurd (hu0 ▸ h) c01
  · exact h

theorem check_system_detector_step (env : Env) (hw : Inputs) (s : State)
    (hcodes : error_codes_ok env)
    (hc : s.ui8_motor_blocked_counter ≤ 10)
    (hb : s.ui8_system_state = env.ERROR_MOTOR_BLOCKED → s.ui8_motor_blocked_counter = 0) :
    ((check_system env hw s).ui8_system_state = env.ERROR_MOTOR_BLOCKED →
      (check_system env hw s).ui8_motor_blocked_counter = 0) ∧
    (check_system env hw s).ui8_motor_blocked_counter ≤ 10 ∧
    ((check_system env hw s).ui8_motor_blocked_counter ≠ 0 →
      (check_system env hw s).ui8_motor_blocked_counter
        = s.ui8_motor_blocked_counter + 1 ∧ stall_condition hw s) ∧
    (s.ui8_system_state ≠ env.ERROR_MOTOR_BLOCKED →
      (check_system env hw s).ui8_system_state = env.ERROR_MOTOR_BLOCKED →
      stall_condition hw s ∧ s.ui8_motor_blocked_counter = 10) := by
  obtain ⟨a1, a2, a3, a4⟩ := check_motor_blocked_detector_step env hw s hcodes hc hb
  have hcnt := (check_torque_sensor_detector env (check_motor_blocked env hw s)).1
  have hst := check_torque_sensor_not_blocked env (check_motor_blocked env hw s) hcodes
  unfold check_system
  rw [hcnt]
  exact ⟨fun h => a1 (hst h), a2, a3, fun hn h => a4 hn (hst h)⟩

theorem supervisor_run_append (env : Env) (l : List (Inputs × State)) (p : Inputs × State)
    (s : State) :
    supervisor_run env (l ++ [p]) s = supervisor_tick env (supervisor_run env l s) p := by
  unfold supervisor_run
  rw [List.foldl_append]
  rfl

theorem supervisor_tick_step (env : Env) (s : State) (p : Inputs × State)
    (hcodes : error_codes_ok env)
    (hc : s.ui8_motor_blocked_counter ≤ 10)
    (hb : s.ui8_system_state = env.ERROR_MOTOR_BLOCKED → s.ui8_motor_blocked_counter = 0) :
    ((supervisor_tick env s p).ui8_system_state = env.ERROR_MOTOR_BLOCKED →
      (supervisor_tick env s p).ui8_motor_blocked_counter = 0) ∧
    (supervisor_tick env s p).ui8_motor_blocked_counter ≤ 10 ∧
    ((supervisor_tick env s p).ui8_motor_blocked_counter ≠ 0 →
      (supervisor_tick env s p).ui8_motor_blocked_counter
        = s.ui8_motor_blocked_counter + 1 ∧ stall_condition p.1 p.2) ∧
    (s.ui8_system_state ≠ env.ERROR_MOTOR_BLOCKED →
      (supervisor_tick env s p).ui8_system_state = env.ERROR_MOTOR_BLOCKED →
      stall_condition p.1 p.2 ∧ s.ui8_motor_blocked_counter = 10) :=
  check_system_detector_step env p.1
    { p.2 with
      ui8_system_state := s.ui8_system_state
      ui8_motor_blocked_counter := s.ui8_motor_blocked_counter
      ui8_motor_blocked_reset_counter := s.ui8_motor_blocked_reset_counter }
    hcodes hc hb

/-- The invariant of the stall counter along a run from the initial state: it is
0 whenever the state is `ERROR_MOTOR_BLOCKED`, at most 10, and the stall
condition held on each of the last `counter` ticks. -/
theorem supervisor_run_invariant (env : Env) (hcodes : error_codes_ok env) (s0 : State)
    (hc0 : s0.ui8_motor_blocked_counter = 0)
    (l : List (Inputs × State)) :
    ((supervisor_run env l s0).ui8_system_state = env.ERROR_MOTOR_BLOCKED →
      (supervisor_run env l s0).ui8_motor_blocked_counter = 0) ∧
    (supervisor_run env l s0).ui8_motor_blocked_counter ≤ 10 ∧
    (supervisor_run env l s0).ui8_motor_blocked_counter ≤ l.length ∧
    (∀ q ∈ l.reverse.take (supervisor_run env l s0).ui8_motor_blocked_counter,
      stall_condition q.1 q.2) := by
  induction l using List.reverseRecOn with
  | nil =>
    have hnil : supervisor_run env [] s0 = s0 := rfl
    rw [hnil, hc0]
    refine ⟨fun _ => rfl, Nat.zero_le _, Nat.le_refl _, ?_⟩
    intro q hq
    exact absurd hq (List.not_mem_nil q)
  | append_singleton l p ih =>
    obtain ⟨i1, i2, i3, i4⟩ := ih
    obtain ⟨a1, a2, a3, -⟩ := supervisor_tick_step env (supervisor_run env l s0) p hcodes i2 i1
    rw [supervisor_run_append, List.reverse_append, List.length_append]
    refine ⟨a1, a2, ?_, ?_⟩
    · by_cases hz : (supervisor_tick env (supervisor_run env l s0) p).ui8_motor_blocked_counter = 0
      · rw [hz]
        exact Nat.zero_le _
      · rw [(a3 hz).1]
        simp only [List.length_singleton]
        omega
    · by_cases hz : (supervisor_tick env (supervisor_run env l s0) p).ui8_motor_blocked_counter = 0
      · rw [hz]
        intro q hq
        exact absurd hq (List.not_mem_nil q)
      · rw [(a3 hz).1]
        intro q hq
        simp only [List.reverse_singleton, List.singleton_append, List.take_succ_cons,
          List.mem_cons] at hq
        rcases hq with hq | hq
        · rw [hq]
          exact (a3 hz).2
        · exact i4 q hq

/-- While the stall condition holds on every tick and no torque-sensor fault
condition arises, the state stays `NO_ERROR` and the counter counts the ticks, up
to 10. -/
theorem supervisor_run_stall_count (env : Env) (hcodes : error_codes_ok env) (s0 : State)
    (h0 : s0.ui8_system_state = env.NO_ERROR) (hc0 : s0.ui8_motor_blocked_counter = 0)
    (l : List (Inputs × State)) :
    (∀ q ∈ l, stall_condition q.1 q.2 ∧ ¬ torque_sensor_fault_condition env q.2) →
    l.length ≤ 10 →
    (supervisor_run env l s0).ui8_system_state = env.NO_ERROR ∧
    (supervisor_run env l s0).ui8_motor_blocked_counter = l.length := by
  induction l using List.reverseRecOn with
  | nil =>
    intro _ _
    exact ⟨h0, hc0⟩
  | append_singleton l p ih =>
    intro hall hlen
    rw [List.length_append, List.length_singleton] at hlen
    obtain ⟨i1, i2⟩ := ih (fun q hq => hall q (List.mem_append_left _ hq)) (by omega)
    obtain ⟨hs, hnf⟩ := hall p (List.mem_append_right _ (List.mem_singleton.mpr rfl))
    obtain ⟨r1, r2, -⟩ := check_system_stall_count env p.1
      { p.2 with
        ui8_system_state := (supervisor_run env l s0).ui8_system_state
        ui8_motor_blocked_counter := (supervisor_run env l s0).ui8_motor_blocked_counter
        ui8_motor_blocked_reset_counter :=
          (supervisor_run env l s0).ui8_motor_blocked_reset_counter }
      hcodes i1 hs.1 hs.2 hnf (by show (supervisor_run env l s0).ui8_motor_blocked_counter < 10; omega)
    rw [supervisor_run_append, List.length_append, List.length_singleton]
    refine ⟨r1, ?_⟩
    unfold supervisor_tick
    rw [r2]
    show (supervisor_run env l s0).ui8_motor_blocked_counter + 1 = _
    rw [i2]

theorem supervisor_run_stall_trip (env : Env) (hcodes : error_codes_ok env) (s0 : State)
    (h0 : s0.ui8_system_state = env.NO_ERROR) (hc0 : s0.ui8_motor_blocked_counter = 0)
    (l : List (Inputs × State)) (p : Inputs × State)
    (hall : ∀ q ∈ l, stall_condition q.1 q.2 ∧ ¬ torque_sensor_fault_condition env q.2)
    (hp : stall_condition p.1 p.2 ∧ ¬ torque_sensor_fault_condition env p.2)
    (hlen : l.length = 10) :
    (supervisor_run env (l ++ [p]) s0).ui8_system_state = env.ERROR_MOTOR_BLOCKED ∧
    (supervisor_run env (l ++ [p]) s0).ui8_motor_blocked_counter = 0 := by
  obtain ⟨i1, i2⟩ := supervisor_run_stall_count env hcodes s0 h0 hc0 l hall (by omega)
  rw [supervisor_run_append]
  exact check_system_stall_trip env p.1
    { p.2 with
      ui8_system_state := (supervisor_run env l s0).ui8_system_state
      ui8_motor_blocked_counter := (supervisor_run env l s0).ui8_motor_blocked_counter
      ui8_motor_blocked_reset_counter :=
        (supervisor_run env l s0).ui8_motor_blocked_reset_counter }
    hcodes i1 hp.1.1 hp.1.2 hp.2 (by show (supervisor_run env l s0).ui8_motor_blocked_counter = 10; omega)

/-- C28: `check_system` never reports a stall without a sustained stall.  Along
every sequence of ticks that starts with the stall counter at 0, a tick on which
the state changes to `ERROR_MOTOR_BLOCKED` has the stall condition (filtered
current x10 above 50 and motor speed below 10 ERPS) on that tick and on each of
the 10 ticks immediately before it.  When the sequence starts in `NO_ERROR` and
the stall condition holds on every tick with no torque-sensor fault condition, the
state is `NO_ERROR` after each of the first 10 ticks and `ERROR_MOTOR_BLOCKED`
after the 11th, at which point the stall counter is 0 again. -/
theorem stall_reported_only_after_sustained_stall (env : Env) (hcodes : error_codes_ok env)
    (s0 : State) (hc0 : s0.ui8_motor_blocked_counter = 0) :
    (∀ (l : List (Inputs × State)) (p : Inputs × State),
      (supervisor_run env l s0).ui8_system_state ≠ env.ERROR_MOTOR_BLOCKED →
      (supervisor_run env (l ++ [p]) s0).ui8_system_state = env.ERROR_MOTOR_BLOCKED →
      stall_condition p.1 p.2 ∧ 10 ≤ l.length ∧
      ∀ q ∈ l.reverse.take 10, stall_condition q.1 q.2) ∧
    (s0.ui8_system_state = env.NO_ERROR →
      ∀ l : List (Inputs × State), l.length = 11 →
      (∀ q ∈ l, stall_condition q.1 q.2 ∧ ¬ torque_sensor_fault_condition env q.2) →
      (∀ n, n ≤ 10 → (supervisor_run env (l.take n) s0).ui8_system_state = env.NO_ERROR) ∧
      (supervisor_run env l s0).ui8_system_state = env.ERROR_MOTOR_BLOCKED ∧
      (supervisor_run env l s0).ui8_motor_blocked_counter = 0) := by
  constructor
  · intro l p hbefore hafter
    obtain ⟨i1, i2, i3, i4⟩ := supervisor_run_invariant env hcodes s0 hc0 l
    rw [supervisor_run_append] at hafter
    obtain ⟨-, -, -, a4⟩ := supervisor_tick_step env (supervisor_run env l s0) p hcodes i2 i1
    obtain ⟨hs, hten⟩ := a4 hbefore hafter
    rw [hten] at i3 i4
    exact ⟨hs, i3, i4⟩
  · intro h0 l hlen hall
    constructor
    · intro n hn
      have hmem : ∀ q ∈ l.take n, stall_condition q.1 q.2 ∧
          ¬ torque_sensor_fault_condition env q.2 :=
        fun q hq => hall q (List.mem_of_mem_take hq)
      have hl : (l.take n).length ≤ 10 := Nat.le_trans (List.length_take_le n l) hn
      exact (supervisor_run_stall_count env hcodes s0 h0 hc0 (l.take n) hmem hl).1
    · have hsplit : l.take 10 ++ l.drop 10 = l := List.take_append_drop 10 l
      have hdrop : (l.drop 10).length = 1 := by rw [List.length_drop, hlen]
      obtain ⟨p, hp⟩ := List.length_eq_one.mp hdrop
      rw [hp] at hsplit
      have htake : (l.take 10).length = 10 := by rw [List.length_take, hlen]; rfl
      have hmem : ∀ q ∈ l.take 10, stall_condition q.1 q.2 ∧
          ¬ torque_sensor_fault_condition env q.2 :=
        fun q hq => hall q (List.mem_of_mem_take hq)
      have hpm : p ∈ l := by
        rw [← hsplit]
        exact List.mem_append_right _ (List.mem_singleton.mpr rfl)
      have h := supervisor_run_stall_trip env hcodes s0 h0 hc0 (l.take 10) p hmem
        (hall p hpm) htake
      rw [hsplit] at h
      exact h

/-- Witness for C28: eleven ticks from power-on with a current of 6.0 A and the
motor at rest. -/
theorem stall_reported_only_after_sustained_stall_witness :
    error_codes_ok sample_env ∧
    (initial_state sample_env).ui8_motor_blocked_counter = 0 ∧
    (initial_state sample_env).ui8_system_state = sample_env.NO_ERROR ∧
    (List.replicate 11 (idle_inputs, stalled_state)).length = 11 ∧
    (supervisor_run sample_env (List.replicate 11 (idle_inputs, stalled_state))
      (initial_state sample_env)).ui8_system_state = sample_env.ERROR_MOTOR_BLOCKED ∧
    (supervisor_run sample_env (List.replicate 11 (idle_inputs, stalled_state))
      (initial_state sample_env)).ui8_motor_blocked_counter = 0 :=
  ⟨by decide, by decide, by decide, by decide,
    ((stall_reported_only_after_sustained_stall sample_env (by decide)
      (initial_state sample_env) (by decide)).2 (by decide)
      (List.replicate 11 (idle_inputs, stalled_state)) (by decide)
      (fun q hq => by rw [List.eq_of_mem_replicate hq]; decide)).2.1,
    ((stall_reported_only_after_sustained_stall sample_env (by decide)
      (initial_state sample_env) (by decide)).2 (by decide)
      (List.replicate 11 (idle_inputs, stalled_state)) (by decide)
      (fun q hq => by rw [List.eq_of_mem_replicate hq]; decide)).2.2⟩

/-! ## The receive index stays inside the buffer -/

theorem rx_message_fields_rx_index (env : Env) (s : State) :
    (rx_message_fields env s).ui8_state_machine = s.ui8_state_machine ∧
    (rx_message_fields env s).ui8_rx_counter = s.ui8_rx_counter := by
  unfold rx_message_fields
  dsimp only
  split <;> exact ⟨rfl, rfl⟩

theorem rx_read_package_rx_index (env : Env) (s : State) :
    (rx_read_package env s).ui8_state_machine = s.ui8_state_machine ∧
    (rx_read_package env s).ui8_rx_counter = s.ui8_rx_counter :=
  rx_message_fields_rx_index env (rx_fixed_fields s)

theorem uart_receive_package_rx_index (env : Env) (s : State) :
    (uart_receive_package env s).ui8_state_machine = s.ui8_state_machine ∧
    (uart_receive_package env s).ui8_rx_counter = s.ui8_rx_counter := by
  unfold uart_receive_package
  dsimp only
  split_ifs
  · exact rx_read_package_rx_index env
      { s with ui16_crc_rx := crc16_loop env s.ui8_rx_buffer 8, ui8_i := 8 }
  · exact ⟨rfl, rfl⟩
  · exact ⟨rfl, rfl⟩

theorem communications_controller_rx_index (env : Env) (hw : Inputs) (s : State) :
    (communications_controller env hw s).ui8_state_machine = s.ui8_state_machine ∧
    (communications_controller env hw s).ui8_rx_counter = s.ui8_rx_counter :=
  uart_receive_package_rx_index env { s with ui8_riding_mode := u8 env.OFF_MODE }

theorem irq_handler_rx_index (b : Nat) (s : State) (h : rx_index_ok s) :
    rx_index_ok (UART2_IRQHandler true b s) := by
  rcases h with ⟨h0, hc⟩ | ⟨h1, hlo, hhi⟩
  · by_cases hb : u8 b = 0x59
    · rw [irq_wait_start_marker b s h0 hb]
      refine Or.inr ⟨rfl, ?_, ?_⟩
      · show 1 ≤ u8 (s.ui8_rx_counter + 1)
        rw [hc]
        decide
      · show u8 (s.ui8_rx_counter + 1) ≤ 9
        rw [hc]
        decide
    · rw [irq_wait_start_other b s h0 hb]
      exact Or.inl ⟨rfl, rfl⟩
  · by_cases hlast : s.ui8_rx_counter = 9
    · rw [irq_in_frame_last b s h1 hlast]
      exact Or.inl ⟨rfl, rfl⟩
    · rw [irq_in_frame_more b s h1 (by omega)]
      refine Or.inr ⟨h1, ?_, ?_⟩
      · show 1 ≤ s.ui8_rx_counter + 1
        omega
      · show s.ui8_rx_counter + 1 ≤ 9
        omega

theorem uart_event_rx_index (env : Env) (s : State) (e : UartEvent) (h : rx_index_ok s) :
    rx_index_ok (uart_event env s e) := by
  cases e with
  | byte b => exact irq_handler_rx_index b s h
  | main_loop hw =>
    obtain ⟨e1, e2⟩ := communications_controller_rx_index env hw s
    show rx_index_ok (communications_controller env hw s)
    unfold rx_index_ok at h ⊢
    rw [e1, e2]
    exact h

theorem uart_events_rx_index (env : Env) (l : List UartEvent) :
    ∀ s : State, rx_index_ok s → rx_index_ok (uart_events env l s) := by
  induction l with
  | nil =>
    intro s h
    exact h
  | cons e l ih =>
    intro s h
    exact ih (uart_event env s e) (uart_event_rx_index env s e h)

/-- C29: from state 0 with index 0, after every sequence of received bytes
interleaved in any way with runs of the main loop, the index with which
`UART2_IRQHandler` writes into the 10-byte receive buffer is below 10; the state
is WaitStart (0) or InFrame (1), the index is 0 in WaitStart and between 1 and 9
in InFrame. -/
theorem rx_index_never_leaves_buffer (env : Env) (s : State)
    (h0 : s.ui8_state_machine = 0) (hc : s.ui8_rx_counter = 0) (l : List UartEvent) :
    (uart_events env l s).ui8_rx_counter < 10 ∧
    ((uart_events env l s).ui8_state_machine = 0 ∨
      (uart_events env l s).ui8_state_machine = 1) ∧
    ((uart_events env l s).ui8_state_machine = 0 → (uart_events env l s).ui8_rx_counter = 0) ∧
    ((uart_events env l s).ui8_state_machine = 1 →
      1 ≤ (uart_events env l s).ui8_rx_counter ∧ (uart_events env l s).ui8_rx_counter ≤ 9) := by
  have h := uart_events_rx_index env l s (Or.inl ⟨h0, hc⟩)
  unfold rx_index_ok at h
  rcases h with ⟨a, b⟩ | ⟨a, b, c⟩
  · exact ⟨by omega, Or.inl a, fun _ => b, fun h1 => by omega⟩
  · exact ⟨by omega, Or.inr a, fun h1 => by omega, fun _ => ⟨b, c⟩⟩

/-- Witness for C29: a start byte, three more bytes, a run of the main loop and
two more bytes from power-on leave the state machine in InFrame at index 6. -/
theorem rx_index_never_leaves_buffer_witness :
    (initial_state sample_env).ui8_state_machine = 0 ∧
    (initial_state sample_env).ui8_rx_counter = 0 ∧
    (uart_events sample_env
      [UartEvent.byte 0x59, UartEvent.byte 4, UartEvent.byte 1, UartEvent.byte 0x59,
        UartEvent.main_loop idle_inputs, UartEvent.byte 7, UartEvent.byte 9]
      (initial_state sample_env)).ui8_rx_counter < 10 :=
  ⟨by decide, by decide,
    (rx_index_never_leaves_buffer sample_env (initial_state sample_env) (by decide) (by decide)
      [UartEvent.byte 0x59, UartEvent.byte 4, UartEvent.byte 1, UartEvent.byte 0x59,
        UartEvent.main_loop idle_inputs, UartEvent.byte 7, UartEvent.byte 9]).1⟩

/-! ## The current limit set by message ID 5 -/

theorem uart_receive_package_id5_current_max (env : Env) (s : State)
    (hflag : s.ui8_received_package_flag ≠ 0) (hcrc : rx_crc_is_correct env s)
    (hid : s.ui8_rx_buffer 1 = 5) :
    (uart_receive_package env s).ui8_adc_battery_current_max =
      u8 (env.ui8_min
        (u8 (cdiv env (s.ui8_rx_buffer 6 * 10) env.BATTERY_CURRENT_PER_10_BIT_ADC_STEP_X10))
        (u8 (cdiv env
          (cdiv env (u32 (s.ui8_rx_buffer 7 * 250000)) s.ui16_battery_voltage_filtered_x1000)
          env.BATTERY_CURRENT_PER_10_BIT_ADC_STEP_X10))) := by
  have hsel := uart_receive_package_selected env s hflag hcrc
  rw [rx_read_package_id5 env
    { s with ui16_crc_rx := crc16_loop env s.ui8_rx_buffer 8, ui8_i := 8 } hid] at hsel
  exact congrArg (fun p => p.2.2.1) hsel

theorem sample_ui8_min_le (a b : Nat) : sample_env.ui8_min a b ≤ a ∧ sample_env.ui8_min a b ≤ b := by
  show (if a < b then a else b) ≤ a ∧ (if a < b then a else b) ≤ b
  split_ifs <;> omega

/-- C30: after a valid message-ID-5 frame is applied with a nonzero filtered
battery voltage x1000 V, `ui8_adc_battery_current_max` exceeds neither configured
limit expressed in ADC steps, also when the 8-bit intermediate results wrap: with
C = byte 6, P = byte 7 and STEP = BATTERY_CURRENT_PER_10_BIT_ADC_STEP_X10 it is at
most (C * 10) div STEP and at most ((P * 250000) div V) div STEP.  The helper
`ui8_min` is assumed to return at most each of its arguments. -/
theorem id5_current_max_within_limits (env : Env) (s : State)
    (hmin : ∀ a b, env.ui8_min a b ≤ a ∧ env.ui8_min a b ≤ b)
    (hflag : s.ui8_received_package_flag ≠ 0) (hcrc : rx_crc_is_correct env s)
    (hid : s.ui8_rx_buffer 1 = 5)
    (hP : s.ui8_rx_buffer 7 < 256)
    (hV : s.ui16_battery_voltage_filtered_x1000 ≠ 0)
    (hstep : env.BATTERY_CURRENT_PER_10_BIT_ADC_STEP_X10 ≠ 0) :
    (uart_receive_package env s).ui8_adc_battery_current_max
      ≤ s.ui8_rx_buffer 6 * 10 / env.BATTERY_CURRENT_PER_10_BIT_ADC_STEP_X10 ∧
    (uart_receive_package env s).ui8_adc_battery_current_max
      ≤ s.ui8_rx_buffer 7 * 250000 / s.ui16_battery_voltage_filtered_x1000
        / env.BATTERY_CURRENT_PER_10_BIT_ADC_STEP_X10 := by
  have hdiv : ∀ q, cdiv env q env.BATTERY_CURRENT_PER_10_BIT_ADC_STEP_X10
      = q / env.BATTERY_CURRENT_PER_10_BIT_ADC_STEP_X10 := by
    intro q
    unfold cdiv
    rw [if_neg hstep]
  have hdivV : ∀ q, cdiv env q s.ui16_battery_voltage_filtered_x1000
      = q / s.ui16_battery_voltage_filtered_x1000 := by
    intro q
    unfold cdiv
    rw [if_neg hV]
  have hu : u32 (s.ui8_rx_buffer 7 * 250000) = s.ui8_rx_buffer 7 * 250000 := by
    unfold u32
    omega
  rw [uart_receive_package_id5_current_max env s hflag hcrc hid, hdiv, hdiv, hdivV, hu]
  obtain ⟨m1, m2⟩ := hmin
    (u8 (s.ui8_rx_buffer 6 * 10 / env.BATTERY_CURRENT_PER_10_BIT_ADC_STEP_X10))
    (u8 (s.ui8_rx_buffer 7 * 250000 / s.ui16_battery_voltage_filtered_x1000
      / env.BATTERY_CURRENT_PER_10_BIT_ADC_STEP_X10))
  exact ⟨Nat.le_trans (u8_le _) (Nat.le_trans m1 (u8_le _)),
    Nat.le_trans (u8_le _) (Nat.le_trans m2 (u8_le _))⟩

/-- Witness for C30: C = 255 and P = 255 at 36.0 V, where both 8-bit
intermediate results wrap (1275 to 251 and 885 to 117). -/
theorem id5_current_max_within_limits_witness :
    (∀ a b, sample_env.ui8_min a b ≤ a ∧ sample_env.ui8_min a b ≤ b) ∧
    id5_frame_state.ui8_received_package_flag ≠ 0 ∧
    rx_crc_is_correct sample_env id5_frame_state ∧
    id5_frame_state.ui8_rx_buffer 1 = 5 ∧
    id5_frame_state.ui8_rx_buffer 7 < 256 ∧
    id5_frame_state.ui16_battery_voltage_filtered_x1000 ≠ 0 ∧
    sample_env.BATTERY_CURRENT_PER_10_BIT_ADC_STEP_X10 ≠ 0 ∧
    (uart_receive_package sample_env id5_frame_state).ui8_adc_battery_current_max = 117 ∧
    (uart_receive_package sample_env id5_frame_state).ui8_adc_battery_current_max
      ≤ id5_frame_state.ui8_rx_buffer 7 * 250000
        / id5_frame_state.ui16_battery_voltage_filtered_x1000
        / sample_env.BATTERY_CURRENT_PER_10_BIT_ADC_STEP_X10 :=
  ⟨sample_ui8_min_le, by decide, by decide, by decide, by decide, by decide, by decide,
    by decide,
    (id5_current_max_within_limits sample_env id5_frame_state sample_ui8_min_le (by decide)
      (by decide) (by decide) (by decide) (by decide) (by decide)).2⟩

/-! ## The torque check and the order of the tick -/

/-- C5: a torque-sensor fault does not block the motor current when valid
power-assist frames arrive on alternate ticks.  With the torque offset at 0
(below 5), the tick that reads the frame runs `check_system` on the mode stored by
the previous tick, `OFF_MODE`, finds no fault and hands out current target 106
with state `NO_ERROR`.  The next tick, without a frame, raises
`ERROR_TORQUE_SENSOR` from the stored power-assist mode while it runs in
`OFF_MODE` itself.  The third tick, with the frame again, clears the error from
the stored `OFF_MODE` before reading the frame and hands out 106 again. -/
theorem torque_fault_missed_on_frame_ticks :
    power_frame_state.ui16_adc_pedal_torque_offset < 5 ∧
    power_frame_state.ui8_riding_mode = sample_env.OFF_MODE ∧
    power_frame_state.ui8_received_package_flag ≠ 0 ∧
    rx_crc_is_correct sample_env power_frame_state ∧
    power_frame_state.ui8_rx_buffer 2 = sample_env.POWER_ASSIST_MODE ∧
    torque_fault_frame_tick.ui8_riding_mode = sample_env.POWER_ASSIST_MODE ∧
    torque_fault_frame_tick.ui8_system_state = sample_env.NO_ERROR ∧
    torque_fault_frame_tick.ui8_controller_adc_battery_current_target = 106 ∧
    torque_fault_frame_tick.ui8_received_package_flag = 0 ∧
    torque_fault_idle_tick.ui8_riding_mode = sample_env.OFF_MODE ∧
    torque_fault_idle_tick.ui8_system_state = sample_env.ERROR_TORQUE_SENSOR ∧
    torque_fault_idle_tick.ui8_controller_adc_battery_current_target = 0 ∧
    torque_fault_second_frame_tick.ui16_adc_pedal_torque_offset < 5 ∧
    torque_fault_second_frame_tick.ui8_riding_mode = sample_env.POWER_ASSIST_MODE ∧
    torque_fault_second_frame_tick.ui8_system_state = sample_env.NO_ERROR ∧
    torque_fault_second_frame_tick.ui8_controller_adc_battery_current_target = 106 := by
  decide

end TSDZ2
